import Mathlib

/-!
# The AmigaOS 4 compositing renderer of SDL2 (`SDL_render_compositing.c`)

A shallow embedding of the renderer back end and proofs about it, followed by the sample
conversion of the audio driver (`SDL_os4audio.c`) and the window drag and resize of the
event handler (`SDL_os4events.c`).

Conventions of the embedding.

* A C `int` is a mathematical integer (`Int`): signed overflow is undefined in C, so the
  embedding describes the executions whose behaviour is defined. Unsigned types wrap, and
  the wrap is written out (`% 65536` for `Uint16`, `% 2 ^ 32` for `Uint32`). The sums of
  `OS4_RenderReadPixels`, which decide whether a request is rejected, are the exception:
  they are the sums of the machine (`addInt`), which wrap on overflow.
* A `float` or `double` value is a rational number (every finite floating-point value is
  one) and arithmetic on them is exact; rounding is not modelled. A division whose divisor
  is zero has no finite value and is a failure (`none`).
* A pointer to a `struct BitMap` is a natural number, `0` being `NULL`.
* Calls into `graphics.library` and `layers.library` are recorded, in the order issued, in
  `State.calls`; what such a call returns is decided by an environment `HwEnv`, a function
  of the calls issued before it and of the call itself.
* A function whose C body dereferences a pointer that is null returns `none`.
* `SDL_SetError` returns `-1`. Of the `dprintf` output only the rate-limited reports of a
  failed composite request are kept (`State.debug`); the other lines are diagnostics that
  no result depends on.
-/

namespace OS4

/-! ## Geometry -/

/-- The `SDL_Rect` of `SDL_rect.h`: four `int` fields. -/
structure SDL_Rect where
  x : Int
  y : Int
  w : Int
  h : Int
deriving DecidableEq, Repr

/-- The `SDL_FRect` of the render API: four `float` fields. -/
structure SDL_FRect where
  x : ℚ
  y : ℚ
  w : ℚ
  h : ℚ
deriving DecidableEq

/-- The `SDL_FPoint` of the render API: two `float` fields. -/
structure SDL_FPoint where
  x : ℚ
  y : ℚ
deriving DecidableEq

/-- The vertex record `OS4_Vertex`: position, texture coordinate and weight. -/
structure OS4_Vertex where
  x : ℚ
  y : ℚ
  s : ℚ
  t : ℚ
  w : ℚ
deriving DecidableEq

/-- The index list `OS4_QuadIndices`. -/
def OS4_QuadIndices : List Nat := [0, 1, 2, 2, 3, 0]

/-- The C cast `(int)f` of a floating-point value: truncation towards zero. -/
def truncToInt (q : ℚ) : Int := if 0 ≤ q then ⌊q⌋ else ⌈q⌉

/-- Division of two floating-point values; no finite value when the divisor is zero. -/
def floatDiv (a b : ℚ) : Option ℚ := if b = 0 then none else some (a / b)

/-- The conversion of an `int` to `Uint16`: reduction modulo 65536. -/
def toUint16 (i : Int) : Nat := (i % 65536).toNat

/-- The value is one an `int`, which has 32 bits, holds. -/
def FitsInt32 (i : Int) : Prop := -2147483648 ≤ i ∧ i ≤ 2147483647

instance (i : Int) : Decidable (FitsInt32 i) := by
  unfold FitsInt32; infer_instance

/-- The sum of the `int` values `a` and `b` is no `int` value: signed overflow. -/
def Overflows (a b : Int) : Prop := FitsInt32 a ∧ FitsInt32 b ∧ ¬ FitsInt32 (a + b)

instance (a b : Int) : Decidable (Overflows a b) := by
  unfold Overflows; infer_instance

/-- The `int` addition `a + b` as the machine performs it: the sum, and on signed overflow,
which C leaves undefined, the sum reduced modulo `2 ^ 32` into the range of `int`, the value
the compiled code goes on with. -/
def addInt (a b : Int) : Int :=
  if Overflows a b then (a + b + 2147483648) % 4294967296 - 2147483648 else a + b

/-- Modelled from the spec: the macro `SDL_max` of SDL's `SDL_stdinc.h`, which is not among
the sources; it floors a size to a minimum, here as `((x) > (y)) ? (x) : (y)`. -/
def SDL_max (a b : Int) : Int := if a > b then a else b

/-- Modelled from the spec: `SDL_RectEmpty` is an inline function of SDL's `SDL_rect.h`,
which is not among the sources; a rectangle is empty when its width or its height is not
positive. -/
def SDL_RectEmpty (r : SDL_Rect) : Bool := decide (r.w ≤ 0) || decide (r.h ≤ 0)

/-- Modelled from the spec: `SDL_IntersectRect` belongs to SDL's `SDL_rect.c`, which is not
among the sources; it computes the clipped intersection of two rectangles and reports
whether that intersection is non-empty. Empty operands give an empty result of size 0;
otherwise each axis keeps the larger of the two minima and the smaller of the two maxima.
The result rectangle is returned next to the flag. -/
def SDL_IntersectRect (A B : SDL_Rect) : Bool × SDL_Rect :=
  if SDL_RectEmpty A || SDL_RectEmpty B then
    (false, { x := 0, y := 0, w := 0, h := 0 })
  else
    let Amin := A.x
    let Amax := Amin + A.w
    let Bmin := B.x
    let Bmax := Bmin + B.w
    let Amin := if Bmin > Amin then Bmin else Amin
    let rx := Amin
    let Amax := if Bmax < Amax then Bmax else Amax
    let rw := Amax - Amin
    let Amin := A.y
    let Amax := Amin + A.h
    let Bmin := B.y
    let Bmax := Bmin + B.h
    let Amin := if Bmin > Amin then Bmin else Amin
    let ry := Amin
    let Amax := if Bmax < Amax then Bmax else Amax
    let rh := Amax - Amin
    let result : SDL_Rect := { x := rx, y := ry, w := rw, h := rh }
    (!SDL_RectEmpty result, result)

/-! ## Enumerations and constants of the headers -/

/-- Modelled from the spec: the enumeration `SDL_BlendMode` is declared in SDL's
`SDL_blendmode.h`, which is not among the sources. The abstract blend mode is one of None,
Blend, Add, Modulate; `other` stands for a value that is none of these four enumerators. -/
inductive SDL_BlendMode where
  | SDL_BLENDMODE_NONE
  | SDL_BLENDMODE_BLEND
  | SDL_BLENDMODE_ADD
  | SDL_BLENDMODE_MOD
  | other (raw : Nat)
deriving DecidableEq, Repr

/-- Modelled from the spec: the composite operators of the SDK header
`graphics/composite.h`, which is not among the sources: replace (`COMPOSITE_Src`),
source-over-destination and additive (`COMPOSITE_Plus`). -/
inductive CompositeOperator where
  | COMPOSITE_Src
  | COMPOSITE_Src_Over_Dest
  | COMPOSITE_Plus
deriving DecidableEq, Repr

/-- Modelled from the spec: `SDL_RendererFlip` is declared in SDL's `SDL_render.h`, which is
not among the sources. The flip value is a word of independent flag bits. -/
abbrev SDL_RendererFlip := Nat

/-- Modelled from the spec: no flip. -/
def SDL_FLIP_NONE : SDL_RendererFlip := 0

/-- Modelled from the spec: the horizontal flip flag. -/
def SDL_FLIP_HORIZONTAL : SDL_RendererFlip := 1

/-- Modelled from the spec: the vertical flip flag. -/
def SDL_FLIP_VERTICAL : SDL_RendererFlip := 2

/-- The parts of the AmigaOS SDK and of the C library that the renderer uses and that are
not among the sources, taken as parameters: the four `COMPFLAG_*` words of
`graphics/composite.h`, the macro `COMP_FLOAT_TO_FIX`, and `SDL_sinf`, `SDL_cosf`,
`M_PI`. -/
structure SDK where
  COMPFLAG_SrcAlphaOverride : Nat
  COMPFLAG_SrcFilter : Nat
  COMPFLAG_HardwareOnly : Nat
  COMPFLAG_IgnoreDestAlpha : Nat
  COMP_FLOAT_TO_FIX : ℚ → Int
  SDL_sinf : ℚ → ℚ
  SDL_cosf : ℚ → ℚ
  M_PI : ℚ

/-- The four flag words are single bits at pairwise different positions, as flag constants
of one flag word are. -/
def SDK.DistinctFlagBits (sdk : SDK) : Prop :=
  ∃ a f h i : Nat,
    sdk.COMPFLAG_SrcAlphaOverride = 2 ^ a ∧ sdk.COMPFLAG_SrcFilter = 2 ^ f ∧
    sdk.COMPFLAG_HardwareOnly = 2 ^ h ∧ sdk.COMPFLAG_IgnoreDestAlpha = 2 ^ i ∧
    a ≠ f ∧ a ≠ h ∧ a ≠ i ∧ f ≠ h ∧ f ≠ i ∧ h ≠ i

/-- A flag word contains a flag when every bit of the flag is set in the word. -/
def hasFlag (word flag : Nat) : Prop := word &&& flag = flag

instance (word flag : Nat) : Decidable (hasFlag word flag) := by
  unfold hasFlag; infer_instance

/-- The hints read through `SDL_GetHint`; `none` is an unset hint. -/
structure Hints where
  SDL_HINT_RENDER_SCALE_QUALITY : Option String
  SDL_HINT_RENDER_VSYNC : Option String

/-! ## Textures, window, renderer -/

/-- A `struct BitMap *`; `0` is `NULL`. -/
abbrev BitMapPtr := Nat

/-- The driver data of a texture (`OS4_TextureData`): primary and final bitmap. -/
structure OS4_TextureData where
  bitmap : BitMapPtr
  finalbitmap : BitMapPtr
deriving DecidableEq

/-- The fields of `SDL_Texture` that the renderer reads; `r g b a` are `Uint8`. -/
structure SDL_Texture where
  r : Nat
  g : Nat
  b : Nat
  a : Nat
  blendMode : SDL_BlendMode
  driverdata : OS4_TextureData
deriving DecidableEq

/-- The `OS4_IsColorModEnabled` of the source. -/
def OS4_IsColorModEnabled (texture : SDL_Texture) : Bool :=
  if (texture.r &&& texture.g &&& texture.b) ≠ 255 then true else false

/-- Modelled from the spec: `SDL_strcasecmp` belongs to SDL's C library layer, which is not
among the sources; `SDL_strcasecmp (a, b) == 0` holds when the two strings are equal up to
the case of their letters. -/
def strcasecmpEq (a b : String) : Bool :=
  a.toList.map Char.toLower == b.toList.map Char.toLower

/-- The `OS4_GetScaleQuality` of the source. -/
def OS4_GetScaleQuality (hints : Hints) : Int :=
  match hints.SDL_HINT_RENDER_SCALE_QUALITY with
  | none => 0
  | some hint =>
    if hint.toList.head? = some '0' || strcasecmpEq hint "nearest" then 0 else 1

/-- The `OS4_ConvertBlendMode` of the source. -/
def OS4_ConvertBlendMode (mode : SDL_BlendMode) : CompositeOperator :=
  match mode with
  | .SDL_BLENDMODE_NONE => .COMPOSITE_Src
  | .SDL_BLENDMODE_BLEND => .COMPOSITE_Src_Over_Dest
  | .SDL_BLENDMODE_ADD => .COMPOSITE_Plus
  | .SDL_BLENDMODE_MOD => .COMPOSITE_Src_Over_Dest
  | .other _ => .COMPOSITE_Src_Over_Dest

/-- The `OS4_GetCompositeFlags` of the source. -/
def OS4_GetCompositeFlags (sdk : SDK) (hints : Hints) (mode : SDL_BlendMode) : Nat :=
  let flags := sdk.COMPFLAG_IgnoreDestAlpha ||| sdk.COMPFLAG_HardwareOnly
  let flags := if OS4_GetScaleQuality hints ≠ 0 then flags ||| sdk.COMPFLAG_SrcFilter else flags
  let flags :=
    if mode = .SDL_BLENDMODE_NONE then flags ||| sdk.COMPFLAG_SrcAlphaOverride else flags
  flags

/-- The `OS4_GetCompositeAlpha` of the source. -/
def OS4_GetCompositeAlpha (texture : SDL_Texture) : ℚ :=
  if texture.blendMode = .SDL_BLENDMODE_NONE then 1 else (texture.a : ℚ) / 255

/-! ## The vertex builder -/

/-- The `OS4_RotateVertices` of the source: every position is turned about `center`. -/
def OS4_RotateVertices (sdk : SDK) (vertices : List OS4_Vertex) (angle : ℚ)
    (center : SDL_FPoint) : List OS4_Vertex :=
  let rads := angle * sdk.M_PI / 180
  let sina := sdk.SDL_sinf rads
  let cosa := sdk.SDL_cosf rads
  vertices.map fun v =>
    let x := v.x - center.x
    let y := v.y - center.y
    { v with x := x * cosa - y * sina + center.x, y := x * sina + y * cosa + center.y }

/-- The `OS4_FillVertexData` of the source. The four edges are `Uint16` variables; the
exchange through `tmp` is written as the two conditional values. The result is the array
`vertices[0..3]`. The centre is read only when `angle` is not zero. -/
def OS4_FillVertexData (sdk : SDK) (srcrect dstrect : SDL_Rect) (angle : ℚ)
    (center : SDL_FPoint) (flip : SDL_RendererFlip) : List OS4_Vertex :=
  let left0 : Nat := toUint16 srcrect.x
  let right0 : Nat := toUint16 ((left0 : Int) + srcrect.w - 1)
  let top0 : Nat := toUint16 srcrect.y
  let bottom0 : Nat := toUint16 ((top0 : Int) + srcrect.h - 1)
  let left := if flip &&& SDL_FLIP_HORIZONTAL ≠ 0 then right0 else left0
  let right := if flip &&& SDL_FLIP_HORIZONTAL ≠ 0 then left0 else right0
  let top := if flip &&& SDL_FLIP_VERTICAL ≠ 0 then bottom0 else top0
  let bottom := if flip &&& SDL_FLIP_VERTICAL ≠ 0 then top0 else bottom0
  let vertices : List OS4_Vertex :=
    [ { x := dstrect.x, y := dstrect.y, s := left, t := top, w := 1 },
      { x := dstrect.x, y := (dstrect.y + dstrect.h - 1 : Int), s := left, t := bottom, w := 1 },
      { x := (dstrect.x + dstrect.w - 1 : Int), y := (dstrect.y + dstrect.h - 1 : Int),
        s := right, t := bottom, w := 1 },
      { x := (dstrect.x + dstrect.w - 1 : Int), y := dstrect.y, s := right, t := top, w := 1 } ]
  if angle ≠ 0 then OS4_RotateVertices sdk vertices angle center else vertices

/-- The positions `(x, y)` of a vertex array, in order. -/
def positions (vertices : List OS4_Vertex) : List (ℚ × ℚ) := vertices.map fun v => (v.x, v.y)

/-- The texture coordinates `(s, t)` of a vertex array, in order. -/
def texCoords (vertices : List OS4_Vertex) : List (ℚ × ℚ) := vertices.map fun v => (v.s, v.t)

/-- The exchange named by the horizontal flip: in a quad `v0 v1 v2 v3` the `s` coordinate of
the left vertices `v0`, `v1` and that of the right vertices `v3`, `v2` change places;
nothing else changes. -/
def exchangeS : List OS4_Vertex → List OS4_Vertex
  | [v0, v1, v2, v3] =>
    [{ v0 with s := v3.s }, { v1 with s := v2.s }, { v2 with s := v1.s }, { v3 with s := v0.s }]
  | vs => vs

/-- The exchange named by the vertical flip: in a quad `v0 v1 v2 v3` the `t` coordinate of
the top vertices `v0`, `v3` and that of the bottom vertices `v1`, `v2` change places;
nothing else changes. -/
def exchangeT : List OS4_Vertex → List OS4_Vertex
  | [v0, v1, v2, v3] =>
    [{ v0 with t := v1.t }, { v1 with t := v0.t }, { v2 with t := v3.t }, { v3 with t := v2.t }]
  | vs => vs

/-! ## Renderer state and the calls into the graphics libraries -/

/-- The fields of Intuition's `struct Window` that the renderer reads. -/
structure Window where
  WLayer : Nat
  RPort : Nat
  BorderLeft : Int
  BorderTop : Int
deriving DecidableEq

/-- The driver data of a window (`SDL_WindowData`); `syswin` may be null. -/
structure SDL_WindowData where
  syswin : Option Window
deriving DecidableEq

/-- The fields of `SDL_Window` that the renderer reads. -/
structure SDL_Window where
  w : Int
  h : Int
  driverdata : SDL_WindowData
deriving DecidableEq

/-- The field of `struct RastPort` that the renderer sets. -/
structure RastPort where
  BitMap : BitMapPtr
deriving DecidableEq

/-- The driver data of the renderer (`OS4_RenderData`). -/
structure OS4_RenderData where
  bitmap : BitMapPtr
  target : BitMapPtr
  solidcolor : BitMapPtr
  cliprect : SDL_Rect
  rastport : RastPort
deriving DecidableEq

/-- The fields of `SDL_Renderer` that the back end reads; `r g b a` are `Uint8`, and
`window` may be null. -/
structure SDL_Renderer where
  window : Option SDL_Window
  viewport : SDL_Rect
  clip_rect : SDL_Rect
  r : Nat
  g : Nat
  b : Nat
  a : Nat
  blendMode : SDL_BlendMode
  driverdata : OS4_RenderData
deriving DecidableEq

/-- The vertex format constant handed to the compositing engine. -/
inductive VertexFormat where
  | COMPVF_STW0_Present
deriving DecidableEq

/-- One item of the tag list of a `CompositeTags` call, with its value. -/
inductive CompTag where
  | COMPTAG_SrcAlpha (v : Int)
  | COMPTAG_SrcX (v : Int)
  | COMPTAG_SrcY (v : Int)
  | COMPTAG_SrcWidth (v : Int)
  | COMPTAG_SrcHeight (v : Int)
  | COMPTAG_OffsetX (v : Int)
  | COMPTAG_OffsetY (v : Int)
  | COMPTAG_ScaleX (v : Int)
  | COMPTAG_ScaleY (v : Int)
  | COMPTAG_DestX (v : Int)
  | COMPTAG_DestY (v : Int)
  | COMPTAG_DestWidth (v : Int)
  | COMPTAG_DestHeight (v : Int)
  | COMPTAG_Flags (v : Nat)
  | COMPTAG_VertexArray (v : List OS4_Vertex)
  | COMPTAG_VertexFormat (v : VertexFormat)
  | COMPTAG_NumTriangles (v : Nat)
  | COMPTAG_IndexArray (v : List Nat)
deriving DecidableEq

/-- The pixel format constant handed to `ReadPixelArray`. -/
inductive PixelFormat where
  | PIXF_A8R8G8B8
deriving DecidableEq

/-- The attribute asked of `GetBitMapAttr`. -/
inductive BitMapAttr where
  | BMA_WIDTH
  | BMA_HEIGHT
deriving DecidableEq

/-- A call into `graphics.library` or `layers.library`, with the arguments that vary.
`StoreUint32` is the store of one pixel through the base address of a locked bitmap. -/
inductive HwCall where
  | AllocBitMapTags (width height depth : Int)
  | FreeBitMap (bitmap : BitMapPtr)
  | InitRastPort
  | GetBitMapAttr (bitmap : BitMapPtr) (attr : BitMapAttr)
  | LockBitMapTags (bitmap : BitMapPtr)
  | StoreUint32 (bitmap : BitMapPtr) (color : Nat)
  | UnlockBitMap (bitmap : BitMapPtr)
  | RectFillColor (rp : RastPort) (x0 y0 x1 y1 : Int) (color : Nat)
  | CompositeTags (op : CompositeOperator) (src dst : BitMapPtr) (tags : List CompTag)
  | ReadPixelArray (rp : RastPort) (x y pitch : Int) (format : PixelFormat) (w h : Int)
  | WaitTOF
  | LockLayer (layer : Nat)
  | BltBitMapTags (source : BitMapPtr) (destRPort : Nat) (x y w h : Int)
  | UnlockLayer (layer : Nat)
deriving DecidableEq

/-- The value a library call returns, given the calls issued before it. -/
abbrev HwEnv := List HwCall → HwCall → Nat

/-- The renderer together with what the back end has done so far: the library calls in the
order issued, the three function-local `static Uint32 counter`s of the failure reports, and
the rate-limited report lines `(ret_code, counter)` written by `dprintf`. -/
structure State where
  renderer : SDL_Renderer
  calls : List HwCall
  fillCounter : Nat
  copyCounter : Nat
  copyExCounter : Nat
  debug : List (Nat × Nat)
deriving DecidableEq

/-- Issue one library call: record it and obtain its return value. -/
def State.issue (env : HwEnv) (s : State) (c : HwCall) : Nat × State :=
  (env s.calls c, { s with calls := s.calls ++ [c] })

/-- Replace the driver data of the renderer. -/
def State.setData (s : State) (data : OS4_RenderData) : State :=
  { s with renderer := { s.renderer with driverdata := data } }

/-! ## Activation of the render target -/

/-- The `OS4_AllocBitMap` of the source: one `AllocBitMapTags` request for a displayable
bitmap in the fixed ARGB pixel format; the result is null when the allocation fails. -/
def OS4_AllocBitMap (env : HwEnv) (s : State) (width height depth : Int) : BitMapPtr × State :=
  s.issue env (.AllocBitMapTags width height depth)

/-- The `OS4_UpdateViewport` of the source. The test `&renderer->viewport` takes the
address of a member of the renderer, which is never null, so the branch that would read
the window is never entered. -/
def OS4_UpdateViewport (s : State) : Option (Int × State) :=
  let data := s.renderer.driverdata
  if data.bitmap = 0 then
    some (0, s)
  else
    let addressOfViewportIsNonNull := true
    if addressOfViewportIsNonNull then
      some (0, s.setData { data with cliprect := s.renderer.viewport })
    else
      match s.renderer.window with
      | none => none
      | some window =>
        some (0, s.setData { data with cliprect := { x := 0, y := 0, w := window.w, h := window.h } })

/-- The `OS4_UpdateClipRect` of the source. -/
def OS4_UpdateClipRect (s : State) : Option (Int × State) :=
  let data := s.renderer.driverdata
  if data.bitmap ≠ 0 then
    let rect := s.renderer.clip_rect
    if !SDL_RectEmpty rect then
      some (0, s.setData { data with cliprect := rect })
    else
      match s.renderer.window with
      | none => none
      | some window =>
        some (0, s.setData { data with cliprect := { x := 0, y := 0, w := window.w, h := window.h } })
  else
    some (0, s)

/-- The first statement of `OS4_ActivateRenderer`:
`if (!data->target) data->target = data->bitmap;`. -/
def activateStored (s : State) : State :=
  if s.renderer.driverdata.target = 0 then
    s.setData { s.renderer.driverdata with target := s.renderer.driverdata.bitmap }
  else s

/-- The second statement of `OS4_ActivateRenderer`: with no target and a window, allocate
the render-target bitmap at the size of the window and, when that succeeds, update viewport
and clip rectangle. -/
def activateAllocate (env : HwEnv) (s : State) : Option State :=
  match s.renderer.window with
  | none => some s
  | some window =>
    if s.renderer.driverdata.target = 0 then
      let width := window.w
      let height := window.h
      let depth := 32
      let (bm, sa) := OS4_AllocBitMap env s width height depth
      let sb := sa.setData { sa.renderer.driverdata with target := bm, bitmap := bm }
      if bm ≠ 0 then
        match OS4_UpdateViewport sb with
        | none => none
        | some (_, sc) =>
          match OS4_UpdateClipRect sc with
          | none => none
          | some (_, sd) => some sd
      else some sb
    else some s

/-- The third statement of `OS4_ActivateRenderer`: allocate the 1x1 solid-colour bitmap
when there is none. -/
def activateSolidColor (env : HwEnv) (s : State) : State :=
  if s.renderer.driverdata.solidcolor = 0 then
    let width := 1
    let height := 1
    let depth := 32
    let (bm, sa) := OS4_AllocBitMap env s width height depth
    sa.setData { sa.renderer.driverdata with solidcolor := bm }
  else s

/-- The `OS4_ActivateRenderer` of the source, its three conditional statements in order,
then `data->rastport.BitMap = data->target`; the result is the active target. -/
def OS4_ActivateRenderer (env : HwEnv) (s : State) : Option (BitMapPtr × State) :=
  match activateAllocate env (activateStored s) with
  | none => none
  | some s2 =>
    let s3 := activateSolidColor env s2
    let s4 := s3.setData
      { s3.renderer.driverdata with rastport := { BitMap := s3.renderer.driverdata.target } }
    some (s4.renderer.driverdata.target, s4)

/-! ## Fills -/

/-- The `OS4_SetSolidColor` of the source: lock the 1x1 bitmap, store the colour, unlock. -/
def OS4_SetSolidColor (env : HwEnv) (s : State) (color : Nat) : Bool × State :=
  let solidcolor := s.renderer.driverdata.solidcolor
  if solidcolor ≠ 0 then
    let (lock, s1) := s.issue env (.LockBitMapTags solidcolor)
    if lock ≠ 0 then
      let (_, s2) := s1.issue env (.StoreUint32 solidcolor color)
      let (_, s3) := s2.issue env (.UnlockBitMap solidcolor)
      (true, s3)
    else (false, s1)
  else (false, s)

/-- The packed `Uint32` colour `a << 24 | r << 16 | g << 8 | b` of the draw colour. -/
def packColor (r : SDL_Renderer) : Nat :=
  ((r.a <<< 24) ||| (r.r <<< 16) ||| (r.g <<< 8) ||| r.b) % 2 ^ 32

/-- The rectangles `final_rects` of `OS4_RenderFillRects`: translated by the viewport
offset when there is one, sizes at least 1. -/
def finalRects (viewport : SDL_Rect) (rects : List SDL_FRect) : List SDL_Rect :=
  if viewport.x ≠ 0 ∨ viewport.y ≠ 0 then
    let x := viewport.x
    let y := viewport.y
    rects.map fun r =>
      { x := truncToInt ((x : ℚ) + r.x), y := truncToInt ((y : ℚ) + r.y),
        w := SDL_max (truncToInt r.w) 1, h := SDL_max (truncToInt r.h) 1 }
  else
    rects.map fun r =>
      { x := truncToInt r.x, y := truncToInt r.y,
        w := SDL_max (truncToInt r.w) 1, h := SDL_max (truncToInt r.h) 1 }

/-- One turn of the loop of the opaque path of `OS4_RenderFillRects`: clip, and fill what
is left. -/
def fillOpaqueStep (env : HwEnv) (color : Nat) (s : State) (rect : SDL_Rect) : State :=
  let data := s.renderer.driverdata
  match SDL_IntersectRect rect data.cliprect with
  | (false, _) => s
  | (true, clipped) =>
    (s.issue env (.RectFillColor data.rastport clipped.x clipped.y
      (clipped.x + clipped.w - 1) (clipped.y + clipped.h - 1) color)).2

/-- One turn of the loop of the blended path of `OS4_RenderFillRects`: one composite
request from the solid-colour bitmap; a failure is counted and reported every 100th time.
The source passes a null centre to `OS4_FillVertexData`, which does not read it because the
angle is `0.0`; the origin stands for it here. -/
def fillBlendedStep (sdk : SDK) (env : HwEnv) (hints : Hints) (bitmap : BitMapPtr)
    (s : State) (rect : SDL_Rect) : State :=
  let r := s.renderer
  let data := r.driverdata
  let srcrect : SDL_Rect := { x := 0, y := 0, w := 1, h := 1 }
  let vertices := OS4_FillVertexData sdk srcrect rect 0 { x := 0, y := 0 } SDL_FLIP_NONE
  let (ret_code, s1) := s.issue env (.CompositeTags (OS4_ConvertBlendMode r.blendMode)
    data.solidcolor bitmap
    [ .COMPTAG_DestX data.cliprect.x, .COMPTAG_DestY data.cliprect.y,
      .COMPTAG_DestWidth data.cliprect.w, .COMPTAG_DestHeight data.cliprect.h,
      .COMPTAG_Flags (OS4_GetCompositeFlags sdk hints r.blendMode),
      .COMPTAG_VertexArray vertices, .COMPTAG_VertexFormat .COMPVF_STW0_Present,
      .COMPTAG_NumTriangles 2, .COMPTAG_IndexArray OS4_QuadIndices ])
  if ret_code ≠ 0 then
    let counter := (s1.fillCounter + 1) % 2 ^ 32
    if s1.fillCounter % 100 = 0 then
      { s1 with fillCounter := counter, debug := s1.debug ++ [(ret_code, counter)] }
    else { s1 with fillCounter := counter }
  else s1

/-- The `OS4_RenderFillRects` of the source; `rects` is the array of `count` rectangles.
The stack allocation of `final_rects` is taken to succeed. -/
def OS4_RenderFillRects (sdk : SDK) (env : HwEnv) (hints : Hints) (s : State)
    (rects : List SDL_FRect) : Option (Int × State) :=
  match OS4_ActivateRenderer env s with
  | none => none
  | some (bitmap, s1) =>
    if bitmap = 0 then some (-1, s1)
    else
      let final_rects := finalRects s1.renderer.viewport rects
      if s1.renderer.blendMode = .SDL_BLENDMODE_NONE then
        let color := packColor s1.renderer
        some (0, final_rects.foldl (fillOpaqueStep env color) s1)
      else
        if s1.renderer.driverdata.solidcolor = 0 then some (-1, s1)
        else
          let colormod := packColor s1.renderer
          match OS4_SetSolidColor env s1 colormod with
          | (false, s2) => some (-1, s2)
          | (true, s2) =>
            some (0, final_rects.foldl (fillBlendedStep sdk env hints bitmap) s2)

/-! ## Texture copies -/

/-- The destination rectangle `final_rect` of `OS4_RenderCopy` and `OS4_RenderCopyEx`. -/
def finalRect (viewport : SDL_Rect) (dstrect : SDL_FRect) : SDL_Rect :=
  let xy : Int × Int :=
    if viewport.x ≠ 0 ∨ viewport.y ≠ 0 then
      (truncToInt ((viewport.x : ℚ) + dstrect.x), truncToInt ((viewport.y : ℚ) + dstrect.y))
    else
      (truncToInt dstrect.x, truncToInt dstrect.y)
  { x := xy.1, y := xy.2, w := truncToInt dstrect.w, h := truncToInt dstrect.h }

/-- The scale factor of `OS4_RenderCopy`, `src ? (float)dst / src : 1.0f`, for one axis. -/
def scaleFactor (dst src : Int) : Option ℚ :=
  if src ≠ 0 then floatDiv (dst : ℚ) (src : ℚ) else some 1

/-- The source bitmap of a copy: the final bitmap under colour modulation, else the
primary one. -/
def sourceBitmap (texture : SDL_Texture) : BitMapPtr :=
  if OS4_IsColorModEnabled texture then texture.driverdata.finalbitmap
  else texture.driverdata.bitmap

/-- The `OS4_RenderCopy` of the source. -/
def OS4_RenderCopy (sdk : SDK) (env : HwEnv) (hints : Hints) (s : State)
    (texture : SDL_Texture) (srcrect : SDL_Rect) (dstrect : SDL_FRect) : Option (Int × State) :=
  match OS4_ActivateRenderer env s with
  | none => none
  | some (dst, s1) =>
    let src := sourceBitmap texture
    if dst = 0 then some (-1, s1)
    else
      let data := s1.renderer.driverdata
      let final_rect := finalRect s1.renderer.viewport dstrect
      match scaleFactor final_rect.w srcrect.w, scaleFactor final_rect.h srcrect.h with
      | some scalex, some scaley =>
        let (ret_code, s2) := s1.issue env (.CompositeTags
          (OS4_ConvertBlendMode texture.blendMode) src dst
          [ .COMPTAG_SrcAlpha (sdk.COMP_FLOAT_TO_FIX (OS4_GetCompositeAlpha texture)),
            .COMPTAG_SrcX srcrect.x, .COMPTAG_SrcY srcrect.y,
            .COMPTAG_SrcWidth srcrect.w, .COMPTAG_SrcHeight srcrect.h,
            .COMPTAG_OffsetX final_rect.x, .COMPTAG_OffsetY final_rect.y,
            .COMPTAG_ScaleX (sdk.COMP_FLOAT_TO_FIX scalex),
            .COMPTAG_ScaleY (sdk.COMP_FLOAT_TO_FIX scaley),
            .COMPTAG_DestX data.cliprect.x, .COMPTAG_DestY data.cliprect.y,
            .COMPTAG_DestWidth data.cliprect.w, .COMPTAG_DestHeight data.cliprect.h,
            .COMPTAG_Flags (OS4_GetCompositeFlags sdk hints texture.blendMode) ])
        if ret_code ≠ 0 then
          let counter := (s2.copyCounter + 1) % 2 ^ 32
          if s2.copyCounter % 100 = 0 then
            some (-1, { s2 with copyCounter := counter, debug := s2.debug ++ [(ret_code, counter)] })
          else some (-1, { s2 with copyCounter := counter })
        else some (0, s2)
      | _, _ => none

/-- The `OS4_RenderCopyEx` of the source. -/
def OS4_RenderCopyEx (sdk : SDK) (env : HwEnv) (hints : Hints) (s : State)
    (texture : SDL_Texture) (srcrect : SDL_Rect) (dstrect : SDL_FRect) (angle : ℚ)
    (center : SDL_FPoint) (flip : SDL_RendererFlip) : Option (Int × State) :=
  match OS4_ActivateRenderer env s with
  | none => none
  | some (dst, s1) =>
    let src := sourceBitmap texture
    if dst = 0 then some (-1, s1)
    else
      let data := s1.renderer.driverdata
      let final_rect := finalRect s1.renderer.viewport dstrect
      let final_center : SDL_FPoint := { x := dstrect.x + center.x, y := dstrect.y + center.y }
      let vertices := OS4_FillVertexData sdk srcrect final_rect angle final_center flip
      let (ret_code, s2) := s1.issue env (.CompositeTags
        (OS4_ConvertBlendMode texture.blendMode) src dst
        [ .COMPTAG_SrcAlpha (sdk.COMP_FLOAT_TO_FIX (OS4_GetCompositeAlpha texture)),
          .COMPTAG_DestX data.cliprect.x, .COMPTAG_DestY data.cliprect.y,
          .COMPTAG_DestWidth data.cliprect.w, .COMPTAG_DestHeight data.cliprect.h,
          .COMPTAG_Flags (OS4_GetCompositeFlags sdk hints texture.blendMode),
          .COMPTAG_VertexArray vertices, .COMPTAG_VertexFormat .COMPVF_STW0_Present,
          .COMPTAG_NumTriangles 2, .COMPTAG_IndexArray OS4_QuadIndices ])
      if ret_code ≠ 0 then
        let counter := (s2.copyExCounter + 1) % 2 ^ 32
        if s2.copyExCounter % 100 = 0 then
          some (-1, { s2 with copyExCounter := counter, debug := s2.debug ++ [(ret_code, counter)] })
        else some (-1, { s2 with copyExCounter := counter })
      else some (0, s2)

/-! ## Clear, read-back, output size -/

/-- Modelled from the spec: the format constant `SDL_PIXELFORMAT_ARGB8888` is declared in
SDL's `SDL_pixels.h`, which is not among the sources; it names the 32-bit ARGB format, the
single pixel format the renderer supports. -/
def SDL_PIXELFORMAT_ARGB8888 : Nat := 0x16362004

/-- The `OS4_RenderClear` of the source. -/
def OS4_RenderClear (env : HwEnv) (s : State) : Option (Int × State) :=
  match OS4_ActivateRenderer env s with
  | none => none
  | some (bitmap, s1) =>
    if bitmap = 0 then some (-1, s1)
    else
      let data := s1.renderer.driverdata
      let color := packColor s1.renderer
      match s1.renderer.window with
      | none => none
      | some window =>
        some (0, (s1.issue env
          (.RectFillColor data.rastport 0 0 (window.w - 1) (window.h - 1) color)).2)

/-- The first statement of `OS4_RenderReadPixels`: under a viewport offset the request
rectangle is replaced by `final_rect`, the rectangle moved by the offset; the two sums are
`int` additions. -/
def adjustedRect (viewport rect : SDL_Rect) : SDL_Rect :=
  if viewport.x ≠ 0 ∨ viewport.y ≠ 0 then
    { x := addInt viewport.x rect.x, y := addInt viewport.y rect.y, w := rect.w, h := rect.h }
  else rect

/-- The `OS4_RenderReadPixels` of the source; `format` is a `Uint32`. The bounds test is
evaluated left to right, so the window is read only when `rect->x < 0` fails; its sums
`rect->x + rect->w` and `rect->y + rect->h` are `int` additions. -/
def OS4_RenderReadPixels (env : HwEnv) (s : State) (rect : SDL_Rect) (format : Nat)
    (pitch : Int) : Option (Int × State) :=
  match OS4_ActivateRenderer env s with
  | none => none
  | some (bitmap, s1) =>
    if bitmap = 0 then some (-1, s1)
    else
      let data := s1.renderer.driverdata
      let rect : SDL_Rect := adjustedRect s1.renderer.viewport rect
      if rect.x < 0 then some (-1, s1)
      else
        match s1.renderer.window with
        | none => none
        | some window =>
          if addInt rect.x rect.w > window.w ∨ rect.y < 0 ∨
              addInt rect.y rect.h > window.h then
            some (-1, s1)
          else if format ≠ SDL_PIXELFORMAT_ARGB8888 then some (-1, s1)
          else
            some (0, (s1.issue env
              (.ReadPixelArray data.rastport rect.x rect.y pitch .PIXF_A8R8G8B8 rect.w rect.h)).2)

/-- What `OS4_GetOutputSize` hands back: the status and the values written through the
pointers `w` and `h`, `none` where nothing is written. -/
structure OutputSize where
  status : Int
  w : Option Int
  h : Option Int
deriving DecidableEq

/-- The `OS4_GetOutputSize` of the source; `wantW` and `wantH` say whether the pointers `w`
and `h` are non-null. -/
def OS4_GetOutputSize (env : HwEnv) (s : State) (wantW wantH : Bool) :
    Option (OutputSize × State) :=
  match OS4_ActivateRenderer env s with
  | none => none
  | some (bitmap, s1) =>
    if bitmap ≠ 0 then
      let (w, s2) : Option Int × State :=
        if wantW then
          let (v, t) := s1.issue env (.GetBitMapAttr bitmap .BMA_WIDTH)
          (some (v : Int), t)
        else (none, s1)
      let (h, s3) : Option Int × State :=
        if wantH then
          let (v, t) := s2.issue env (.GetBitMapAttr bitmap .BMA_HEIGHT)
          (some (v : Int), t)
        else (none, s2)
      some ({ status := 0, w := w, h := h }, s3)
    else
      some ({ status := -1, w := none, h := none }, s1)

/-! ## Window events, present, life cycle -/

/-- Modelled from the spec: the event identifiers are declared in SDL's `SDL_video.h`, which
is not among the sources. The renderer tells the window resize notification
`SDL_WINDOWEVENT_SIZE_CHANGED` from every other event. -/
inductive SDL_WindowEventID where
  | SDL_WINDOWEVENT_SIZE_CHANGED
  | other (raw : Nat)
deriving DecidableEq

/-- The field of `SDL_WindowEvent` that the renderer reads. -/
structure SDL_WindowEvent where
  event : SDL_WindowEventID
deriving DecidableEq

/-- The `OS4_WindowEvent` of the source. -/
def OS4_WindowEvent (env : HwEnv) (s : State) (event : SDL_WindowEvent) : State :=
  let data := s.renderer.driverdata
  if event.event = .SDL_WINDOWEVENT_SIZE_CHANGED then
    if data.bitmap ≠ 0 then
      let (_, s1) := s.issue env (.FreeBitMap data.bitmap)
      s1.setData { s1.renderer.driverdata with bitmap := 0, target := 0 }
    else s
  else s

/-- The `OS4_IsVsyncEnabled` of the source. -/
def OS4_IsVsyncEnabled (hints : Hints) : Bool :=
  match hints.SDL_HINT_RENDER_VSYNC with
  | none => false
  | some hint => if hint.toList.head? = some '1' then true else false

/-- The `OS4_RenderPresent` of the source. -/
def OS4_RenderPresent (env : HwEnv) (hints : Hints) (s : State) : Option State :=
  let window := s.renderer.window
  match OS4_ActivateRenderer env s with
  | none => none
  | some (source, s1) =>
    match window with
    | none => some s1
    | some window =>
      if source ≠ 0 then
        match window.driverdata.syswin with
        | none => some s1
        | some syswin =>
          let s2 := if OS4_IsVsyncEnabled hints then (s1.issue env .WaitTOF).2 else s1
          let s3 := (s2.issue env (.LockLayer syswin.WLayer)).2
          let s4 := (s3.issue env (.BltBitMapTags source syswin.RPort
            syswin.BorderLeft syswin.BorderTop window.w window.h)).2
          let s5 := (s4.issue env (.UnlockLayer syswin.WLayer)).2
          some s5
      else some s1

/-- The `OS4_DestroyRenderer` of the source. `driverdata` is `renderer->driverdata`, which
is null when the private state was never allocated; the function reads `data->bitmap`
first, so null driver data has no defined result. The result is the state as it is when
the two records are handed to `SDL_free`. -/
def OS4_DestroyRenderer (env : HwEnv) (s : State) (driverdata : Option OS4_RenderData) :
    Option State :=
  match driverdata with
  | none => none
  | some data =>
    let s1 : State :=
      if data.bitmap ≠ 0 then
        let (_, t) := s.issue env (.FreeBitMap data.bitmap)
        t.setData { data with bitmap := 0 }
      else s.setData data
    let s2 : State :=
      if s1.renderer.driverdata.solidcolor ≠ 0 then
        let (_, t) := s1.issue env (.FreeBitMap s1.renderer.driverdata.solidcolor)
        t.setData { t.renderer.driverdata with solidcolor := 0 }
      else s1
    some s2

/-- The renderer that `SDL_calloc` hands to `OS4_CreateRenderer`: every field zero, no
window bound yet (the caller binds it after creation). -/
def zeroedRenderer : SDL_Renderer :=
  { window := none
    viewport := { x := 0, y := 0, w := 0, h := 0 }
    clip_rect := { x := 0, y := 0, w := 0, h := 0 }
    r := 0, g := 0, b := 0, a := 0
    blendMode := .SDL_BLENDMODE_NONE
    driverdata :=
      { bitmap := 0, target := 0, solidcolor := 0
        cliprect := { x := 0, y := 0, w := 0, h := 0 }
        rastport := { BitMap := 0 } } }

/-- The `OS4_CreateRenderer` of the source; `rendererAllocated` and `dataAllocated` say
whether the two `SDL_calloc` calls succeed. The outer `none` is an execution without defined
behaviour, the inner `none` the result `NULL`. No library call has been issued before. -/
def OS4_CreateRenderer (env : HwEnv) (rendererAllocated dataAllocated : Bool) :
    Option (Option State) :=
  let s0 : State :=
    { renderer := zeroedRenderer, calls := [], fillCounter := 0, copyCounter := 0,
      copyExCounter := 0, debug := [] }
  if !rendererAllocated then some none
  else if !dataAllocated then
    match OS4_DestroyRenderer env s0 none with
    | none => none
    | some _ => some none
  else
    some (some (s0.issue env .InitRastPort).2)

/-- The texture coordinates of the unflipped quad as the inclusive edges of the source
rectangle: left `x`, right `x + w - 1`, top `y`, bottom `y + h - 1`, in the order
`v0 v1 v2 v3`. -/
def inclusiveEdgeCoords (srcrect : SDL_Rect) : List (ℚ × ℚ) :=
  [ ((srcrect.x : ℚ), (srcrect.y : ℚ)),
    ((srcrect.x : ℚ), ((srcrect.y + srcrect.h - 1 : Int) : ℚ)),
    (((srcrect.x + srcrect.w - 1 : Int) : ℚ), ((srcrect.y + srcrect.h - 1 : Int) : ℚ)),
    (((srcrect.x + srcrect.w - 1 : Int) : ℚ), (srcrect.y : ℚ)) ]

/-- The inclusive edges of a rectangle all lie in the range of `Uint16`. -/
def EdgesFitUint16 (r : SDL_Rect) : Prop :=
  (0 ≤ r.x ∧ r.x ≤ 65535) ∧ (0 ≤ r.x + r.w - 1 ∧ r.x + r.w - 1 ≤ 65535) ∧
  (0 ≤ r.y ∧ r.y ≤ 65535) ∧ (0 ≤ r.y + r.h - 1 ∧ r.y + r.h - 1 ≤ 65535)

instance (r : SDL_Rect) : Decidable (EdgesFitUint16 r) := by
  unfold EdgesFitUint16; infer_instance

/-- The pixel `(px, py)` lies in the rectangle: `x ≤ px < x + w` and `y ≤ py < y + h`. -/
def SDL_Rect.Contains (r : SDL_Rect) (px py : Int) : Prop :=
  r.x ≤ px ∧ px < r.x + r.w ∧ r.y ≤ py ∧ py < r.y + r.h

/-- Two rectangles have a non-empty intersection: some pixel lies in both. -/
def Overlap (A B : SDL_Rect) : Prop := ∃ px py : Int, A.Contains px py ∧ B.Contains px py

/-- A rectangle with integer-valued fields, as an `SDL_FRect`. -/
def SDL_Rect.toFRect (r : SDL_Rect) : SDL_FRect :=
  { x := (r.x : ℚ), y := (r.y : ℚ), w := (r.w : ℚ), h := (r.h : ℚ) }

/-- The translated form of an input rectangle of a fill:
`(x + viewport.x, y + viewport.y, max (w, 1), max (h, 1))`. -/
def translatedRect (viewport : SDL_Rect) (r : SDL_Rect) : SDL_Rect :=
  { x := r.x + viewport.x, y := r.y + viewport.y, w := max r.w 1, h := max r.h 1 }

/-- The fill expected for a translated rectangle `R` under the clip rectangle: none when the
two do not meet on some axis, otherwise the fill whose inclusive corners are the larger of
the two minima and the smaller of the two maxima less one, on each axis. -/
def expectedFill (rp : RastPort) (color : Nat) (clip R : SDL_Rect) : Option HwCall :=
  if max R.x clip.x < min (R.x + R.w) (clip.x + clip.w) ∧
      max R.y clip.y < min (R.y + R.h) (clip.y + clip.h) then
    some (.RectFillColor rp (max R.x clip.x) (max R.y clip.y)
      (min (R.x + R.w) (clip.x + clip.w) - 1) (min (R.y + R.h) (clip.y + clip.h) - 1) color)
  else none

/-- The state `t` has the window, viewport, clip rectangle, draw colour and blend mode of
the renderer of `s`, and the same failure counters and report lines. -/
def SameSettings (s t : State) : Prop :=
  t.renderer.window = s.renderer.window ∧ t.renderer.viewport = s.renderer.viewport ∧
  t.renderer.clip_rect = s.renderer.clip_rect ∧
  t.renderer.r = s.renderer.r ∧ t.renderer.g = s.renderer.g ∧
  t.renderer.b = s.renderer.b ∧ t.renderer.a = s.renderer.a ∧
  t.renderer.blendMode = s.renderer.blendMode ∧
  t.fillCounter = s.fillCounter ∧ t.copyCounter = s.copyCounter ∧
  t.copyExCounter = s.copyExCounter ∧ t.debug = s.debug

/-- The scale factor of one axis as the claim words it: 1 when the source dimension is 0,
otherwise destination dimension over source dimension. -/
def expectedScale (dst src : Int) : ℚ := if src = 0 then 1 else (dst : ℚ) / (src : ℚ)

/-- The tags that `OS4_RenderCopy` and `OS4_RenderCopyEx` have in common after the source
alpha: the destination bounds, taken from the clip rectangle, and the flag word. -/
def commonTags (sdk : SDK) (hints : Hints) (clip : SDL_Rect) (texture : SDL_Texture) :
    List CompTag :=
  [ .COMPTAG_DestX clip.x, .COMPTAG_DestY clip.y, .COMPTAG_DestWidth clip.w,
    .COMPTAG_DestHeight clip.h,
    .COMPTAG_Flags (OS4_GetCompositeFlags sdk hints texture.blendMode) ]

/-- The geometry tags of `OS4_RenderCopy`: source rectangle, offset and scale. -/
def rectGeometryTags (sdk : SDK) (viewport : SDL_Rect) (srcrect : SDL_Rect)
    (dstrect : SDL_FRect) : List CompTag :=
  [ .COMPTAG_SrcX srcrect.x, .COMPTAG_SrcY srcrect.y,
    .COMPTAG_SrcWidth srcrect.w, .COMPTAG_SrcHeight srcrect.h,
    .COMPTAG_OffsetX (finalRect viewport dstrect).x, .COMPTAG_OffsetY (finalRect viewport dstrect).y,
    .COMPTAG_ScaleX (sdk.COMP_FLOAT_TO_FIX (expectedScale (truncToInt dstrect.w) srcrect.w)),
    .COMPTAG_ScaleY (sdk.COMP_FLOAT_TO_FIX (expectedScale (truncToInt dstrect.h) srcrect.h)) ]

/-- The geometry tags of `OS4_RenderCopyEx`: a quad of four vertices, two triangles, the
index list `0 1 2 2 3 0`. -/
def quadGeometryTags (vertices : List OS4_Vertex) : List CompTag :=
  [ .COMPTAG_VertexArray vertices, .COMPTAG_VertexFormat .COMPVF_STW0_Present,
    .COMPTAG_NumTriangles 2, .COMPTAG_IndexArray [0, 1, 2, 2, 3, 0] ]

/-- The request for a render-target bitmap that an activation makes: none when a target or
a stored bitmap exists or when there is no window, else one bitmap of the size of the
window, 32 bits deep. -/
def targetRequest (s : State) : Option HwCall :=
  match s.renderer.window with
  | none => none
  | some window =>
    if s.renderer.driverdata.target = 0 ∧ s.renderer.driverdata.bitmap = 0 then
      some (.AllocBitMapTags window.w window.h 32)
    else none

/-- The request for the 1x1 solid-colour bitmap that an activation makes when none is
stored. -/
def solidRequest (s : State) : Option HwCall :=
  if s.renderer.driverdata.solidcolor = 0 then some (.AllocBitMapTags 1 1 32) else none

/-- The target an activation yields: the bound target, else the stored bitmap, else the
result of the render-target request, else null. -/
def activatedTarget (env : HwEnv) (s : State) : BitMapPtr :=
  if s.renderer.driverdata.target ≠ 0 then s.renderer.driverdata.target
  else if s.renderer.driverdata.bitmap ≠ 0 then s.renderer.driverdata.bitmap
  else
    match targetRequest s with
    | some c => env s.calls c
    | none => 0

/-- A concrete environment in which allocations and locks succeed: an allocation returns a
handle that no earlier call returned, a lock returns 1, every other call 0. -/
def envFresh : HwEnv := fun calls c =>
  match c with
  | .AllocBitMapTags _ _ _ => calls.length + 1
  | .LockBitMapTags _ => 1
  | _ => 0

/-- A concrete renderer state right after creation, a 640x480 window bound, red as draw
colour, no bitmap allocated yet. -/
def stateFresh : State :=
  { renderer :=
      { window := some { w := 640, h := 480, driverdata := { syswin := none } }
        viewport := { x := 0, y := 0, w := 640, h := 480 }
        clip_rect := { x := 0, y := 0, w := 0, h := 0 }
        r := 255, g := 0, b := 0, a := 255
        blendMode := .SDL_BLENDMODE_NONE
        driverdata :=
          { bitmap := 0, target := 0, solidcolor := 0
            cliprect := { x := 0, y := 0, w := 0, h := 0 }
            rastport := { BitMap := 0 } } }
    calls := [.InitRastPort], fillCounter := 0, copyCounter := 0, copyExCounter := 0,
    debug := [] }

/-- The state `stateFresh` after its first activation under `envFresh`: render target 2 and
solid-colour bitmap 3 allocated, the clip rectangle at the window bounds. -/
def stateFreshActive : State :=
  { renderer :=
      { window := some { w := 640, h := 480, driverdata := { syswin := none } }
        viewport := { x := 0, y := 0, w := 640, h := 480 }
        clip_rect := { x := 0, y := 0, w := 0, h := 0 }
        r := 255, g := 0, b := 0, a := 255
        blendMode := .SDL_BLENDMODE_NONE
        driverdata :=
          { bitmap := 2, target := 2, solidcolor := 3
            cliprect := { x := 0, y := 0, w := 640, h := 480 }
            rastport := { BitMap := 2 } } }
    calls := [.InitRastPort, .AllocBitMapTags 640 480 32, .AllocBitMapTags 1 1 32],
    fillCounter := 0, copyCounter := 0, copyExCounter := 0, debug := [] }

/-- The state `stateFresh` after an activation under `envSample`, where every allocation
fails: two requests issued, nothing stored. -/
def stateFreshFailed : State :=
  { stateFresh with
    calls := [.InitRastPort, .AllocBitMapTags 640 480 32, .AllocBitMapTags 1 1 32] }

/-- The composite request of `OS4_RenderCopy` for a renderer whose active target is `dst`. -/
def copyRequest (sdk : SDK) (hints : Hints) (r : SDL_Renderer) (dst : BitMapPtr)
    (texture : SDL_Texture) (srcrect : SDL_Rect) (dstrect : SDL_FRect) : HwCall :=
  .CompositeTags (OS4_ConvertBlendMode texture.blendMode) (sourceBitmap texture) dst
    ([.COMPTAG_SrcAlpha (sdk.COMP_FLOAT_TO_FIX (OS4_GetCompositeAlpha texture))] ++
      rectGeometryTags sdk r.viewport srcrect dstrect ++
      commonTags sdk hints r.driverdata.cliprect texture)

/-- The composite request of `OS4_RenderCopyEx` for a renderer whose active target is
`dst`. -/
def copyExRequest (sdk : SDK) (hints : Hints) (r : SDL_Renderer) (dst : BitMapPtr)
    (texture : SDL_Texture) (srcrect : SDL_Rect) (dstrect : SDL_FRect) (angle : ℚ)
    (center : SDL_FPoint) (flip : SDL_RendererFlip) : HwCall :=
  .CompositeTags (OS4_ConvertBlendMode texture.blendMode) (sourceBitmap texture) dst
    ([.COMPTAG_SrcAlpha (sdk.COMP_FLOAT_TO_FIX (OS4_GetCompositeAlpha texture))] ++
      commonTags sdk hints r.driverdata.cliprect texture ++
      quadGeometryTags (OS4_FillVertexData sdk srcrect (finalRect r.viewport dstrect) angle
        { x := dstrect.x + center.x, y := dstrect.y + center.y } flip))

/-- The destination of the fill of the input rectangle `r`, read off the input: the position
moved by the viewport offset and truncated towards zero, the size truncated and at least
1. -/
def fillDestination (viewport : SDL_Rect) (r : SDL_FRect) : SDL_Rect :=
  { x := truncToInt (r.x + (viewport.x : ℚ)), y := truncToInt (r.y + (viewport.y : ℚ)),
    w := max (truncToInt r.w) 1, h := max (truncToInt r.h) 1 }

/-- The quad of a blended fill over the rectangle `R`: the inclusive corners of `R` in the
order top-left, bottom-left, bottom-right, top-right; every texture coordinate is 0, the one
pixel of the source rectangle `(0, 0, 1, 1)`, and every weight is 1. -/
def solidQuad (R : SDL_Rect) : List OS4_Vertex :=
  [ { x := (R.x : ℚ), y := (R.y : ℚ), s := 0, t := 0, w := 1 },
    { x := (R.x : ℚ), y := ((R.y + R.h - 1 : Int) : ℚ), s := 0, t := 0, w := 1 },
    { x := ((R.x + R.w - 1 : Int) : ℚ), y := ((R.y + R.h - 1 : Int) : ℚ), s := 0, t := 0, w := 1 },
    { x := ((R.x + R.w - 1 : Int) : ℚ), y := (R.y : ℚ), s := 0, t := 0, w := 1 } ]

/-- The composite request of a blended fill of the rectangle `R`: the solid-colour bitmap as
source, the clip rectangle as destination bounds, and a quad built from the source
rectangle `(0, 0, 1, 1)` with angle 0 and no flip. -/
def blendRequest (sdk : SDK) (hints : Hints) (r : SDL_Renderer) (bitmap : BitMapPtr)
    (R : SDL_Rect) : HwCall :=
  .CompositeTags (OS4_ConvertBlendMode r.blendMode) r.driverdata.solidcolor bitmap
    [ .COMPTAG_DestX r.driverdata.cliprect.x, .COMPTAG_DestY r.driverdata.cliprect.y,
      .COMPTAG_DestWidth r.driverdata.cliprect.w, .COMPTAG_DestHeight r.driverdata.cliprect.h,
      .COMPTAG_Flags (OS4_GetCompositeFlags sdk hints r.blendMode),
      .COMPTAG_VertexArray
        (OS4_FillVertexData sdk { x := 0, y := 0, w := 1, h := 1 } R 0 { x := 0, y := 0 }
          SDL_FLIP_NONE),
      .COMPTAG_VertexFormat .COMPVF_STW0_Present,
      .COMPTAG_NumTriangles 2, .COMPTAG_IndexArray [0, 1, 2, 2, 3, 0] ]

/-- The request rectangle of a pixel read after adding the viewport offset. -/
def readRect (viewport rect : SDL_Rect) : SDL_Rect :=
  { x := rect.x + viewport.x, y := rect.y + viewport.y, w := rect.w, h := rect.h }

/-- The request rectangle reaches outside the window: `x < 0`, `y < 0`, `x + w` beyond the
width or `y + h` beyond the height of the window. -/
def OutsideWindow (R : SDL_Rect) (window : SDL_Window) : Prop :=
  R.x < 0 ∨ R.y < 0 ∨ R.x + R.w > window.w ∨ R.y + R.h > window.h

instance (R : SDL_Rect) (window : SDL_Window) : Decidable (OutsideWindow R window) := by
  unfold OutsideWindow; infer_instance

/-- Modelled from the spec: what one library call does to the pixel `(x, y)` of the bitmap
`bm`; `graphics.library` is not among the sources. A rectangle fill against a raster port
of the bitmap sets the pixels between its inclusive corners to the packed ARGB colour, the
store through the base address of the locked bitmap sets its first pixel, a composite
request onto the bitmap or freeing it leaves an unknown value (`none`), and every other
call leaves the pixel as it is. -/
def pixelStep (bm : BitMapPtr) (x y : Int) (px : Option Nat) (c : HwCall) : Option Nat :=
  match c with
  | .RectFillColor rp x0 y0 x1 y1 color =>
    if rp.BitMap = bm ∧ x0 ≤ x ∧ x ≤ x1 ∧ y0 ≤ y ∧ y ≤ y1 then some color else px
  | .StoreUint32 b color => if b = bm ∧ x = 0 ∧ y = 0 then some color else px
  | .CompositeTags _ _ dst _ => if dst = bm then none else px
  | .FreeBitMap b => if b = bm then none else px
  | _ => px

/-- Modelled from the spec: the value of the pixel `(x, y)` of the bitmap `bm` after a
sequence of library calls, `none` when it is not known; this is what a `ReadPixelArray` in
the format A8R8G8B8 issued next delivers for that pixel. -/
def pixelAfter (calls : List HwCall) (bm : BitMapPtr) (x y : Int) : Option Nat :=
  calls.foldl (pixelStep bm x y) none

/-- The bitmaps held by a pointer: none for the null pointer, else the one it points to. -/
def handle (p : BitMapPtr) : Multiset Nat := if p = 0 then 0 else {p}

/-- One step of the account of live bitmaps along the calls issued: a successful
`AllocBitMapTags` adds the bitmap it returns, a `FreeBitMap` of a live bitmap removes it, a
`FreeBitMap` of a bitmap that is not live (never allocated, or freed already) spoils the
account (`none`), every other call leaves it. The first component is the calls seen so
far, which the environment needs to answer. -/
def liveStep (env : HwEnv) (acc : List HwCall × Option (Multiset Nat)) (c : HwCall) :
    List HwCall × Option (Multiset Nat) :=
  (acc.1 ++ [c],
    match acc.2 with
    | none => none
    | some live =>
      match c with
      | .AllocBitMapTags _ _ _ => some (handle (env acc.1 c) + live)
      | .FreeBitMap b => if b ∈ live then some (live.erase b) else none
      | _ => some live)

/-- The bitmaps allocated and not yet freed after the calls `calls`, as a multiset; `none`
when some bitmap was freed that was not live. -/
def liveBitmaps (env : HwEnv) (calls : List HwCall) : Option (Multiset Nat) :=
  (calls.foldl (liveStep env) ([], some 0)).2

/-- A call that neither allocates nor frees a bitmap. -/
def isNeutral (c : HwCall) : Bool :=
  match c with
  | .AllocBitMapTags _ _ _ => false
  | .FreeBitMap _ => false
  | _ => true

/-- The live bitmaps are the stored render-target bitmap and the solid-colour bitmap, each
when non-null, and no bitmap was freed that was not live. -/
def LiveMatches (env : HwEnv) (s : State) : Prop :=
  liveBitmaps env s.calls =
    some (handle s.renderer.driverdata.bitmap + handle s.renderer.driverdata.solidcolor)

/-- The state `t` holds the stored bitmap and the solid-colour bitmap of `s`, and its calls
are those of `s` followed by calls that neither allocate nor free. -/
def NeutralExt (s t : State) : Prop :=
  t.renderer.driverdata.bitmap = s.renderer.driverdata.bitmap ∧
  t.renderer.driverdata.solidcolor = s.renderer.driverdata.solidcolor ∧
  ∃ extra : List HwCall, t.calls = s.calls ++ extra ∧ ∀ c ∈ extra, isNeutral c = true

/-- An operation on the renderer: one of the entry points of the back end with its
arguments, or `settings`, the caller replacing the fields of the renderer that it owns
(window, viewport, clip rectangle, draw colour, blend mode) between two calls. -/
inductive Op where
  | clear
  | fillRects (rects : List SDL_FRect)
  | copy (texture : SDL_Texture) (srcrect : SDL_Rect) (dstrect : SDL_FRect)
  | copyEx (texture : SDL_Texture) (srcrect : SDL_Rect) (dstrect : SDL_FRect) (angle : ℚ)
      (center : SDL_FPoint) (flip : SDL_RendererFlip)
  | readPixels (rect : SDL_Rect) (format : Nat) (pitch : Int)
  | getOutputSize (wantW wantH : Bool)
  | windowEvent (event : SDL_WindowEvent)
  | updateViewport
  | updateClipRect
  | present
  | settings (r : SDL_Renderer)

/-- The state after one operation; `none` when the operation has no defined result. -/
def step (sdk : SDK) (env : HwEnv) (hints : Hints) (s : State) : Op → Option State
  | .clear => (OS4_RenderClear env s).map Prod.snd
  | .fillRects rects => (OS4_RenderFillRects sdk env hints s rects).map Prod.snd
  | .copy texture srcrect dstrect =>
    (OS4_RenderCopy sdk env hints s texture srcrect dstrect).map Prod.snd
  | .copyEx texture srcrect dstrect angle center flip =>
    (OS4_RenderCopyEx sdk env hints s texture srcrect dstrect angle center flip).map Prod.snd
  | .readPixels rect format pitch => (OS4_RenderReadPixels env s rect format pitch).map Prod.snd
  | .getOutputSize wantW wantH => (OS4_GetOutputSize env s wantW wantH).map Prod.snd
  | .windowEvent event => some (OS4_WindowEvent env s event)
  | .updateViewport => (OS4_UpdateViewport s).map Prod.snd
  | .updateClipRect => (OS4_UpdateClipRect s).map Prod.snd
  | .present => OS4_RenderPresent env hints s
  | .settings r => some { s with renderer := { r with driverdata := s.renderer.driverdata } }

/-- The state after a sequence of operations. -/
def run (sdk : SDK) (env : HwEnv) (hints : Hints) : State → List Op → Option State
  | s, [] => some s
  | s, op :: ops =>
    match step sdk env hints s op with
    | none => none
    | some t => run sdk env hints t ops

/-- The calls that `OS4_RenderPresent` adds after the activation when window, target and
native window exist, in the order of the source: the wait for the vertical blank when the
vsync hint is enabled, the lock of the window layer, the blit, the unlock. -/
def presentCalls (hints : Hints) (source : BitMapPtr) (window : SDL_Window) (syswin : Window) :
    List HwCall :=
  (if OS4_IsVsyncEnabled hints then [HwCall.WaitTOF] else []) ++
    [ .LockLayer syswin.WLayer,
      .BltBitMapTags source syswin.RPort syswin.BorderLeft syswin.BorderTop window.w window.h,
      .UnlockLayer syswin.WLayer ]

/-- Whether a call locks a layer, unlocks one, or blits. -/
def isLayerCall (c : HwCall) : Bool :=
  match c with
  | .LockLayer _ => true
  | .UnlockLayer _ => true
  | .BltBitMapTags _ _ _ _ _ _ => true
  | _ => false

/-- The calls of a trace that lock a layer, unlock one, or blit, in the order issued. -/
def layerCalls (calls : List HwCall) : List HwCall := calls.filter isLayerCall

/-- One step of the account of held layers: `LockLayer` adds a hold on its layer,
`UnlockLayer` removes one. -/
def heldStep (held : Multiset Nat) (c : HwCall) : Multiset Nat :=
  match c with
  | .LockLayer layer => layer ::ₘ held
  | .UnlockLayer layer => held.erase layer
  | _ => held

/-- The layers held after a trace of calls, with multiplicity. -/
def heldLayers (calls : List HwCall) : Multiset Nat := calls.foldl heldStep 0

/-- The corners of the destination rectangle in the order of the quad: top-left,
bottom-left, bottom-right, top-right, with inclusive right and bottom edges. -/
def unrotatedCorners (dstrect : SDL_Rect) : List (ℚ × ℚ) :=
  [ ((dstrect.x : ℚ), (dstrect.y : ℚ)),
    ((dstrect.x : ℚ), ((dstrect.y + dstrect.h - 1 : Int) : ℚ)),
    (((dstrect.x + dstrect.w - 1 : Int) : ℚ), ((dstrect.y + dstrect.h - 1 : Int) : ℚ)),
    (((dstrect.x + dstrect.w - 1 : Int) : ℚ), (dstrect.y : ℚ)) ]

/-- The angle in radians that `OS4_RotateVertices` hands to sine and cosine. -/
def radians (sdk : SDK) (angle : ℚ) : ℚ := angle * sdk.M_PI / 180

/-- The position `p` lies within `eps` times the distance of `q` from `center` (the sum of
the distances along the two axes) of the position `q`, along each axis. -/
def CloseTo (eps : ℚ) (center : SDL_FPoint) (p q : ℚ × ℚ) : Prop :=
  |p.1 - q.1| ≤ eps * (|q.1 - center.x| + |q.2 - center.y|) ∧
  |p.2 - q.2| ≤ eps * (|q.1 - center.x| + |q.2 - center.y|)

/-! ## The sample conversion of `OS4_PlayAudio` (`SDL_os4audio.c`)

The mix buffer is seen through the memory that starts at its address: a list of `uint8`
values, the buffer first, then whatever follows it. -/

/-- The `uint32` that `*mixbuf` reads at word index `i`: four bytes, the most significant
first (the PowerPC is big-endian). -/
def readWord (mem : List Nat) (i : Nat) : Nat :=
  mem.getD (4 * i) 0 * 2 ^ 24 + mem.getD (4 * i + 1) 0 * 2 ^ 16 +
    mem.getD (4 * i + 2) 0 * 2 ^ 8 + mem.getD (4 * i + 3) 0

/-- The store of the `uint32` value `w` at word index `i`. -/
def writeWord (mem : List Nat) (i : Nat) (w : Nat) : List Nat :=
  (((mem.set (4 * i) (w / 2 ^ 24 % 256)).set (4 * i + 1) (w / 2 ^ 16 % 256)).set
    (4 * i + 2) (w / 2 ^ 8 % 256)).set (4 * i + 3) (w % 256)

/-- The statement `*(mixbuf++) ^= 0x80808080` at word index `i`. -/
def xorWord (mem : List Nat) (i : Nat) : List Nat :=
  writeWord mem i (readWord mem i ^^^ 0x80808080)

/-- The statement `*p -= 128` on the `uint8` at byte index `j`: the difference is taken in
`int` and stored modulo 256. -/
def subByte (mem : List Nat) (j : Nat) : List Nat :=
  mem.set j ((((mem.getD j 0 : Nat) : Int) - 128) % 256).toNat

/-- The conversion to signed samples in `OS4_PlayAudio`, the part of the function that
changes the mix buffer (the request it then sends to the audio device is not part of the
embedding). `optimisation` is the macro `POSSIBLY_DANGEROUS_OPTIMISATION`, which selects
between the two bodies; `isU8` is `spec->format == AUDIO_U8`; `size` is
`audio_MixBufferSize`. The source defines the macro as 1. -/
def OS4_PlayAudio (optimisation isU8 : Bool) (mem : List Nat) (size : Nat) : List Nat :=
  if isU8 then
    if optimisation then
      let n := size / 4
      let mem1 := (List.range n).foldl xorWord mem
      let n2 := size &&& 3
      if n2 ≠ 0 then (List.range n2).foldl (fun m i => subByte m (4 * n + i)) mem1 else mem1
    else
      (List.range size).foldl subByte mem
  else mem

/-- The conversion of one byte as the alternative code path computes it:
`(byte - 128) mod 256`. -/
def naiveByte (b : Nat) : Nat := (((b : Int) - 128) % 256).toNat

/-- The memory in which the first `k` bytes are converted by `f` and all others are as
before. -/
def convertedPrefix (f : Nat → Nat) (k : Nat) (mem : List Nat) : List Nat :=
  (mem.take k).map f ++ mem.drop k

/-! ## The window drag and resize of `OS4_HandleHitTestMotion` (`SDL_os4events.c`) -/

/-- Modelled from the spec: the enumeration `SDL_HitTestResult` is declared in SDL's
`SDL_video.h`, which is not among the sources. It names the normal area, the draggable area
and the eight resize areas of a window, by the edges they hold. -/
inductive SDL_HitTestResult where
  | SDL_HITTEST_NORMAL
  | SDL_HITTEST_DRAGGABLE
  | SDL_HITTEST_RESIZE_TOPLEFT
  | SDL_HITTEST_RESIZE_TOP
  | SDL_HITTEST_RESIZE_TOPRIGHT
  | SDL_HITTEST_RESIZE_RIGHT
  | SDL_HITTEST_RESIZE_BOTTOMRIGHT
  | SDL_HITTEST_RESIZE_BOTTOM
  | SDL_HITTEST_RESIZE_BOTTOMLEFT
  | SDL_HITTEST_RESIZE_LEFT
deriving DecidableEq

/-- The conversion of an `int` to `int16`: the value modulo `2 ^ 16` in the range
`-32768 .. 32767`. -/
def toInt16 (i : Int) : Int := (i + 32768) % 65536 - 32768

/-- The `SDL_Point` of `SDL_rect.h`: two `int` fields. -/
structure SDL_Point where
  x : Int
  y : Int
deriving DecidableEq

/-- The `HitTestInfo` of the source: the area the drag started in and the pointer position
last seen. -/
structure HitTestInfo where
  htr : SDL_HitTestResult
  point : SDL_Point
deriving DecidableEq

/-- The fields of `SDL_Window` that `OS4_HandleHitTestMotion` reads and writes. -/
structure SDL_WindowGeometry where
  x : Int
  y : Int
  w : Int
  h : Int
deriving DecidableEq

/-- A call into `intuition.library`, with the arguments that vary. -/
inductive IntuitionCall where
  | SetWindowAttrs (innerWidth innerHeight left top : Int)
deriving DecidableEq

/-- The window, the file-level `static HitTestInfo hti`, and the calls into
`intuition.library` in the order issued. -/
structure EventState where
  sdlwin : SDL_WindowGeometry
  hti : HitTestInfo
  calls : List IntuitionCall
deriving DecidableEq

/-- The `OS4_HandleHitTestMotion` of the source; `mouseX` and `mouseY` are the `int16`
fields `MouseX` and `MouseY` of the screen of the window. Every local is an `int16`, so
each assignment converts. -/
def OS4_HandleHitTestMotion (s : EventState) (mouseX mouseY : Int) : EventState :=
  let newx := mouseX
  let newy := mouseY
  let deltax := toInt16 (newx - s.hti.point.x)
  let deltay := toInt16 (newy - s.hti.point.y)
  if deltax = 0 ∧ deltay = 0 then s
  else
    let x := toInt16 s.sdlwin.x
    let y := toInt16 s.sdlwin.y
    let w := toInt16 s.sdlwin.w
    let h := toInt16 s.sdlwin.h
    let hti : HitTestInfo := { s.hti with point := { x := newx, y := newy } }
    let g : SDL_WindowGeometry :=
      match hti.htr with
      | .SDL_HITTEST_DRAGGABLE =>
        { x := toInt16 (x + deltax), y := toInt16 (y + deltay), w := w, h := h }
      | .SDL_HITTEST_RESIZE_TOPLEFT =>
        { x := toInt16 (x + deltax), y := toInt16 (y + deltay), w := toInt16 (w - deltax),
          h := toInt16 (h - deltay) }
      | .SDL_HITTEST_RESIZE_TOP =>
        { x := x, y := toInt16 (y + deltay), w := w, h := toInt16 (h - deltay) }
      | .SDL_HITTEST_RESIZE_TOPRIGHT =>
        { x := x, y := toInt16 (y + deltay), w := toInt16 (w + deltax),
          h := toInt16 (h - deltay) }
      | .SDL_HITTEST_RESIZE_RIGHT =>
        { x := x, y := y, w := toInt16 (w + deltax), h := h }
      | .SDL_HITTEST_RESIZE_BOTTOMRIGHT =>
        { x := x, y := y, w := toInt16 (w + deltax), h := toInt16 (h + deltay) }
      | .SDL_HITTEST_RESIZE_BOTTOM =>
        { x := x, y := y, w := w, h := toInt16 (h + deltay) }
      | .SDL_HITTEST_RESIZE_BOTTOMLEFT =>
        { x := toInt16 (x + deltax), y := y, w := toInt16 (w - deltax),
          h := toInt16 (h + deltay) }
      | .SDL_HITTEST_RESIZE_LEFT =>
        { x := toInt16 (x + deltax), y := y, w := toInt16 (w - deltax), h := h }
      | _ => { x := x, y := y, w := w, h := h }
    { sdlwin := g, hti := hti, calls := s.calls ++ [.SetWindowAttrs g.w g.h g.x g.y] }

/-- The resize modes that hold the left edge. -/
def containsLeft (htr : SDL_HitTestResult) : Bool :=
  match htr with
  | .SDL_HITTEST_RESIZE_TOPLEFT => true
  | .SDL_HITTEST_RESIZE_BOTTOMLEFT => true
  | .SDL_HITTEST_RESIZE_LEFT => true
  | _ => false

/-- The resize modes that hold the top edge. -/
def containsTop (htr : SDL_HitTestResult) : Bool :=
  match htr with
  | .SDL_HITTEST_RESIZE_TOPLEFT => true
  | .SDL_HITTEST_RESIZE_TOP => true
  | .SDL_HITTEST_RESIZE_TOPRIGHT => true
  | _ => false

/-- The value is one an `int16` holds. -/
def FitsInt16 (i : Int) : Prop := -32768 ≤ i ∧ i ≤ 32767

instance (i : Int) : Decidable (FitsInt16 i) := by
  unfold FitsInt16; infer_instance

/-- No value of an execution of `OS4_HandleHitTestMotion` overflows 16 bits: the pointer
position, the pointer delta, the window position and size, and the sums and differences the
modes form from them. -/
def NoOverflow16 (s : EventState) (mouseX mouseY : Int) : Prop :=
  FitsInt16 mouseX ∧ FitsInt16 mouseY ∧
  FitsInt16 (mouseX - s.hti.point.x) ∧ FitsInt16 (mouseY - s.hti.point.y) ∧
  FitsInt16 s.sdlwin.x ∧ FitsInt16 s.sdlwin.y ∧ FitsInt16 s.sdlwin.w ∧ FitsInt16 s.sdlwin.h ∧
  FitsInt16 (s.sdlwin.x + (mouseX - s.hti.point.x)) ∧
  FitsInt16 (s.sdlwin.y + (mouseY - s.hti.point.y)) ∧
  FitsInt16 (s.sdlwin.w + (mouseX - s.hti.point.x)) ∧
  FitsInt16 (s.sdlwin.w - (mouseX - s.hti.point.x)) ∧
  FitsInt16 (s.sdlwin.h + (mouseY - s.hti.point.y)) ∧
  FitsInt16 (s.sdlwin.h - (mouseY - s.hti.point.y))

instance (s : EventState) (mouseX mouseY : Int) : Decidable (NoOverflow16 s mouseX mouseY) := by
  unfold NoOverflow16; infer_instance

/-- The position and size a mode gives the window for the pointer delta `(dx, dy)`, in
unbounded integers: the draggable mode moves it, a resize mode moves the edges it holds. -/
def movedGeometry (htr : SDL_HitTestResult) (g : SDL_WindowGeometry) (dx dy : Int) :
    SDL_WindowGeometry :=
  match htr with
  | .SDL_HITTEST_NORMAL => g
  | .SDL_HITTEST_DRAGGABLE => { x := g.x + dx, y := g.y + dy, w := g.w, h := g.h }
  | .SDL_HITTEST_RESIZE_TOPLEFT => { x := g.x + dx, y := g.y + dy, w := g.w - dx, h := g.h - dy }
  | .SDL_HITTEST_RESIZE_TOP => { x := g.x, y := g.y + dy, w := g.w, h := g.h - dy }
  | .SDL_HITTEST_RESIZE_TOPRIGHT => { x := g.x, y := g.y + dy, w := g.w + dx, h := g.h - dy }
  | .SDL_HITTEST_RESIZE_RIGHT => { x := g.x, y := g.y, w := g.w + dx, h := g.h }
  | .SDL_HITTEST_RESIZE_BOTTOMRIGHT => { x := g.x, y := g.y, w := g.w + dx, h := g.h + dy }
  | .SDL_HITTEST_RESIZE_BOTTOM => { x := g.x, y := g.y, w := g.w, h := g.h + dy }
  | .SDL_HITTEST_RESIZE_BOTTOMLEFT => { x := g.x + dx, y := g.y, w := g.w - dx, h := g.h + dy }
  | .SDL_HITTEST_RESIZE_LEFT => { x := g.x + dx, y := g.y, w := g.w - dx, h := g.h }

/-! ## Concrete inputs -/

/-- A concrete instance of the SDK parameters, with the flag bits 0, 2, 3 and 4 and the
16.16 fixed-point conversion. -/
def sdkSample : SDK :=
  { COMPFLAG_SrcAlphaOverride := 1
    COMPFLAG_SrcFilter := 4
    COMPFLAG_HardwareOnly := 8
    COMPFLAG_IgnoreDestAlpha := 16
    COMP_FLOAT_TO_FIX := fun x => truncToInt (x * 65536)
    SDL_sinf := fun _ => 0
    SDL_cosf := fun _ => 1
    M_PI := 355 / 113 }

/-- A concrete renderer state: a 640x480 window, a stored render target (bitmap 1) and
solid-colour bitmap (bitmap 2), viewport and clip rectangle `(10, 20, 100, 100)`, opaque
red as draw colour, nothing issued yet. -/
def stateSample : State :=
  { renderer :=
      { window := some { w := 640, h := 480, driverdata := { syswin := none } }
        viewport := { x := 10, y := 20, w := 100, h := 100 }
        clip_rect := { x := 0, y := 0, w := 0, h := 0 }
        r := 255, g := 0, b := 0, a := 255
        blendMode := .SDL_BLENDMODE_NONE
        driverdata :=
          { bitmap := 1, target := 1, solidcolor := 2
            cliprect := { x := 10, y := 20, w := 100, h := 100 }
            rastport := { BitMap := 1 } } }
    calls := [], fillCounter := 0, copyCounter := 0, copyExCounter := 0, debug := [] }

/-- A concrete environment: every library call returns 0. -/
def envSample : HwEnv := fun _ _ => 0

/-- Concrete hints: none set. -/
def hintsSample : Hints :=
  { SDL_HINT_RENDER_SCALE_QUALITY := none, SDL_HINT_RENDER_VSYNC := none }

/-- A concrete texture: blended, half transparent, modulated with a red tint. -/
def textureSample : SDL_Texture :=
  { r := 255, g := 128, b := 128, a := 128, blendMode := .SDL_BLENDMODE_BLEND,
    driverdata := { bitmap := 7, finalbitmap := 8 } }

/-- A concrete renderer state like `stateSample`, with blend mode Blend for the draw
operations. -/
def stateBlend : State :=
  { stateSample with
    renderer := { stateSample.renderer with blendMode := .SDL_BLENDMODE_BLEND } }

/-- A concrete renderer state like `stateSample` whose viewport is the empty rectangle
`(0, 0, 0, 0)` and whose explicit clip rectangle is empty as well. -/
def stateEmptyViewport : State :=
  { stateSample with
    renderer := { stateSample.renderer with viewport := { x := 0, y := 0, w := 0, h := 0 } } }

/-- The window event that reports a changed size. -/
def eventSizeChanged : SDL_WindowEvent := { event := .SDL_WINDOWEVENT_SIZE_CHANGED }

/-- The state that `OS4_CreateRenderer` yields when both allocations succeed. -/
def stateCreated : State :=
  { renderer := zeroedRenderer, calls := [.InitRastPort], fillCounter := 0, copyCounter := 0,
    copyExCounter := 0, debug := [] }

/-- A concrete sequence of operations: the caller binds a 640x480 window, then a clear, a
size-changed event, an output-size query and a present. -/
def opsSample : List Op :=
  [ .settings stateFresh.renderer, .clear, .windowEvent eventSizeChanged,
    .getOutputSize true true, .present ]

/-- A concrete environment like `envFresh` in which `GetBitMapAttr` reports a width of 640
and a height of 480 for every bitmap. -/
def envSized : HwEnv := fun calls c =>
  match c with
  | .AllocBitMapTags _ _ _ => calls.length + 1
  | .LockBitMapTags _ => 1
  | .GetBitMapAttr _ .BMA_WIDTH => 640
  | .GetBitMapAttr _ .BMA_HEIGHT => 480
  | _ => 0

/-- A concrete renderer state like `stateFreshActive` whose window has just been resized to
630x480 while bitmap 2, of the former size, is still stored. -/
def stateNarrowActive : State :=
  { stateFreshActive with
    renderer :=
      { stateFreshActive.renderer with
        window := some { w := 630, h := 480, driverdata := { syswin := none } } } }

/-- A concrete native window: layer 7, raster port 9, borders 4 (left) and 20 (top). -/
def syswinSample : Window := { WLayer := 7, RPort := 9, BorderLeft := 4, BorderTop := 20 }

/-- A concrete renderer state like `stateSample` whose window has the native window
`syswinSample`. -/
def statePresent : State :=
  { stateSample with
    renderer :=
      { stateSample.renderer with
        window := some { w := 640, h := 480, driverdata := { syswin := some syswinSample } } } }

/-- Concrete hints: the vsync hint set to "1". -/
def hintsVsync : Hints :=
  { SDL_HINT_RENDER_SCALE_QUALITY := none, SDL_HINT_RENDER_VSYNC := some "1" }

/-- A concrete instance of the SDK parameters like `sdkSample` whose sine and cosine have
their exact values at the two angles the examples use: 1 and 0 at the quarter turn
`M_PI / 2`, and 0 and 1 at every other argument, the full turn `2 * M_PI` among them. -/
def sdkTurns : SDK :=
  { sdkSample with
    SDL_sinf := fun rads => if rads = 355 / 226 then 1 else 0
    SDL_cosf := fun rads => if rads = 355 / 226 then 0 else 1 }

/-- Concrete hints: the scale quality hint set to "01". -/
def hintsScale01 : Hints :=
  { SDL_HINT_RENDER_SCALE_QUALITY := some "01", SDL_HINT_RENDER_VSYNC := none }

/-- A concrete memory: a mix buffer of seven bytes followed by the two bytes 9 and 255. -/
def memSample : List Nat := [0, 127, 128, 255, 1, 200, 64, 9, 255]

/-- A concrete event state: the window at `(100, 50)` of size 640x480, a resize by the
top-left corner started with the pointer at `(10, 10)`, no call issued. -/
def eventStateSample : EventState :=
  { sdlwin := { x := 100, y := 50, w := 640, h := 480 }
    hti := { htr := .SDL_HITTEST_RESIZE_TOPLEFT, point := { x := 10, y := 10 } }
    calls := [] }

/-! ## Helper lemmas -/

lemma hasFlag_two_pow (x k : Nat) : hasFlag x (2 ^ k) ↔ x.testBit k = true := by
  unfold hasFlag
  constructor
  · intro h
    have := congrArg (fun n => n.testBit k) h
    simpa [Nat.testBit_and, Nat.testBit_two_pow] using this
  · intro h
    apply Nat.eq_of_testBit_eq
    intro i
    simp only [Nat.testBit_and, Nat.testBit_two_pow]
    by_cases hik : k = i
    · subst hik; simp [h]
    · simp [hik]

lemma and3_eq_255 (r g b : Nat) (hr : r ≤ 255) (hg : g ≤ 255) (hb : b ≤ 255) :
    (r &&& g &&& b) = 255 ↔ (r = 255 ∧ g = 255 ∧ b = 255) := by
  constructor
  · intro h
    have h1 : r &&& g &&& b ≤ b := Nat.and_le_right
    have h2 : r &&& g &&& b ≤ r &&& g := Nat.and_le_left
    have h3 : r &&& g ≤ r := Nat.and_le_left
    have h4 : r &&& g ≤ g := Nat.and_le_right
    omega
  · rintro ⟨rfl, rfl, rfl⟩; decide

lemma sdkSample_distinct : sdkSample.DistinctFlagBits :=
  ⟨0, 2, 3, 4, by decide⟩

/-! ## Blend mode, flags, alpha, colour modulation -/

/-- C5: `OS4_ConvertBlendMode` maps None to `COMPOSITE_Src`, Blend to source-over-destination,
Add to `COMPOSITE_Plus`, Modulate to source-over-destination (so Modulate and Blend give the
same operation), every other value to source-over-destination, and every mode has exactly
one result. -/
theorem convertBlendMode_table :
    OS4_ConvertBlendMode .SDL_BLENDMODE_NONE = .COMPOSITE_Src ∧
    OS4_ConvertBlendMode .SDL_BLENDMODE_BLEND = .COMPOSITE_Src_Over_Dest ∧
    OS4_ConvertBlendMode .SDL_BLENDMODE_ADD = .COMPOSITE_Plus ∧
    OS4_ConvertBlendMode .SDL_BLENDMODE_MOD = .COMPOSITE_Src_Over_Dest ∧
    OS4_ConvertBlendMode .SDL_BLENDMODE_MOD = OS4_ConvertBlendMode .SDL_BLENDMODE_BLEND ∧
    (∀ raw : Nat, OS4_ConvertBlendMode (.other raw) = .COMPOSITE_Src_Over_Dest) ∧
    (∀ mode : SDL_BlendMode, ∃! op : CompositeOperator, OS4_ConvertBlendMode mode = op) := by
  refine ⟨rfl, rfl, rfl, rfl, rfl, fun _ => rfl, fun mode => ⟨_, rfl, fun _ h => h.symm⟩⟩

/-- C8: `OS4_GetCompositeAlpha` is 1 when the blend mode of the texture is None, whatever
its alpha modulation; for every other mode it is `a / 255`, which lies between 0 and 1 and
is 1 only when the alpha modulation is 255. -/
theorem compositeAlpha_value (texture : SDL_Texture) (ha : texture.a ≤ 255) :
    (texture.blendMode = .SDL_BLENDMODE_NONE → OS4_GetCompositeAlpha texture = 1) ∧
    (texture.blendMode ≠ .SDL_BLENDMODE_NONE →
      OS4_GetCompositeAlpha texture = (texture.a : ℚ) / 255 ∧
      0 ≤ OS4_GetCompositeAlpha texture ∧ OS4_GetCompositeAlpha texture ≤ 1 ∧
      (OS4_GetCompositeAlpha texture = 1 ↔ texture.a = 255)) := by
  constructor
  · intro h
    simp [OS4_GetCompositeAlpha, h]
  · intro h
    have hq : ((texture.a : ℕ) : ℚ) ≤ 255 := by exact_mod_cast ha
    have h0 : (0 : ℚ) ≤ (texture.a : ℚ) := by exact_mod_cast Nat.zero_le _
    have hα : OS4_GetCompositeAlpha texture = (texture.a : ℚ) / 255 := by
      simp [OS4_GetCompositeAlpha, h]
    rw [hα]
    refine ⟨rfl, by positivity, ?_, ?_⟩
    · rw [div_le_one (by norm_num)]; exact hq
    · rw [div_eq_one_iff_eq (by norm_num)]
      exact_mod_cast Iff.rfl

/-- Witness of C8: a blended texture with alpha modulation 128. -/
theorem compositeAlpha_value_witness :
    textureSample.a ≤ 255 ∧ OS4_GetCompositeAlpha textureSample = (textureSample.a : ℚ) / 255 :=
  ⟨by decide, ((compositeAlpha_value textureSample (by decide)).2 (by decide)).1⟩

/-- C10: for 8-bit modulation values, `OS4_IsColorModEnabled` is true exactly when
`(r, g, b)` is not `(255, 255, 255)`, and the bitwise test `(r & g & b) != 255` says the
same as "some channel differs from 255". -/
theorem isColorModEnabled_iff (texture : SDL_Texture)
    (hr : texture.r ≤ 255) (hg : texture.g ≤ 255) (hb : texture.b ≤ 255) :
    (OS4_IsColorModEnabled texture = true ↔
      (texture.r, texture.g, texture.b) ≠ (255, 255, 255)) ∧
    ((texture.r &&& texture.g &&& texture.b) ≠ 255 ↔
      (texture.r ≠ 255 ∨ texture.g ≠ 255 ∨ texture.b ≠ 255)) := by
  have key := and3_eq_255 texture.r texture.g texture.b hr hg hb
  constructor
  · simp only [OS4_IsColorModEnabled, ne_eq, ite_not, Prod.mk.injEq]
    rw [← key]
    by_cases h : texture.r &&& texture.g &&& texture.b = 255 <;> simp [h]
  · rw [ne_eq, key]
    tauto

/-- Witness of C10: the tint `(255, 128, 128)` enables colour modulation. -/
theorem isColorModEnabled_iff_witness :
    (textureSample.r ≤ 255 ∧ textureSample.g ≤ 255 ∧ textureSample.b ≤ 255) ∧
    OS4_IsColorModEnabled textureSample = true :=
  ⟨by decide,
    ((isColorModEnabled_iff textureSample (by decide) (by decide) (by decide)).1).2 (by decide)⟩

/-! ## The vertex builder -/

lemma toUint16_of_fits (i : Int) (h0 : 0 ≤ i) (h1 : i ≤ 65535) : ((toUint16 i : Nat) : ℚ) = (i : ℚ) := by
  have h : ((toUint16 i : Nat) : Int) = i := by
    unfold toUint16
    omega
  exact_mod_cast h

lemma toUint16_add (a b : Int) : toUint16 ((toUint16 a : Int) + b) = toUint16 (a + b) := by
  unfold toUint16
  omega

/-- C2: with angle 0 the vertex positions written by `OS4_FillVertexData` are, in the
order top-left, bottom-left, bottom-right, top-right, `(x, y)`, `(x, y+h-1)`,
`(x+w-1, y+h-1)`, `(x+w-1, y)` of the destination rectangle, and they are the same for
every source rectangle, centre and flip value. -/
theorem fillVertexData_positions (sdk : SDK) (srcrect dstrect : SDL_Rect) (center : SDL_FPoint)
    (flip : SDL_RendererFlip) :
    positions (OS4_FillVertexData sdk srcrect dstrect 0 center flip) =
      [ ((dstrect.x : ℚ), (dstrect.y : ℚ)),
        ((dstrect.x : ℚ), ((dstrect.y + dstrect.h - 1 : Int) : ℚ)),
        (((dstrect.x + dstrect.w - 1 : Int) : ℚ), ((dstrect.y + dstrect.h - 1 : Int) : ℚ)),
        (((dstrect.x + dstrect.w - 1 : Int) : ℚ), (dstrect.y : ℚ)) ] ∧
    (∀ (srcrect2 : SDL_Rect) (center2 : SDL_FPoint) (flip2 : SDL_RendererFlip),
      positions (OS4_FillVertexData sdk srcrect2 dstrect 0 center2 flip2) =
        positions (OS4_FillVertexData sdk srcrect dstrect 0 center flip)) := by
  constructor
  · simp [OS4_FillVertexData, positions]
  · intro srcrect2 center2 flip2
    simp [OS4_FillVertexData, positions]

/-- C3 as stated fails: for the source rectangle `(70000, 0, 10, 10)` the texture
coordinates of the unflipped quad are not its inclusive edges; the left edge 70000 passes
through a `Uint16` variable and comes out as 4464. -/
theorem fillVertexData_texCoords_counterexample :
    texCoords (OS4_FillVertexData sdkSample ⟨70000, 0, 10, 10⟩ ⟨0, 0, 10, 10⟩ 0 ⟨0, 0⟩
      SDL_FLIP_NONE) ≠ inclusiveEdgeCoords ⟨70000, 0, 10, 10⟩ := by
  simp [OS4_FillVertexData, texCoords, inclusiveEdgeCoords, toUint16, SDL_FLIP_NONE]

/-- C3 amended: with flip none the texture coordinates are the inclusive edges of the source
rectangle reduced modulo 65536 (they pass through `Uint16` variables), whatever the angle;
they are the inclusive edges themselves for every source rectangle whose edges `x`,
`x + w - 1`, `y`, `y + h - 1` lie in `0..65535`. -/
theorem fillVertexData_texCoords (sdk : SDK) (srcrect dstrect : SDL_Rect) (angle : ℚ)
    (center : SDL_FPoint) :
    texCoords (OS4_FillVertexData sdk srcrect dstrect angle center SDL_FLIP_NONE) =
      [ ((toUint16 srcrect.x : ℚ), (toUint16 srcrect.y : ℚ)),
        ((toUint16 srcrect.x : ℚ), (toUint16 (srcrect.y + srcrect.h - 1) : ℚ)),
        ((toUint16 (srcrect.x + srcrect.w - 1) : ℚ), (toUint16 (srcrect.y + srcrect.h - 1) : ℚ)),
        ((toUint16 (srcrect.x + srcrect.w - 1) : ℚ), (toUint16 srcrect.y : ℚ)) ] ∧
    (EdgesFitUint16 srcrect →
      texCoords (OS4_FillVertexData sdk srcrect dstrect angle center SDL_FLIP_NONE) =
        inclusiveEdgeCoords srcrect) := by
  have hx : toUint16 ((toUint16 srcrect.x : Int) + srcrect.w - 1) =
      toUint16 (srcrect.x + srcrect.w - 1) := by
    have := toUint16_add srcrect.x (srcrect.w - 1)
    rw [← add_sub_assoc, ← add_sub_assoc] at this
    exact this
  have hy : toUint16 ((toUint16 srcrect.y : Int) + srcrect.h - 1) =
      toUint16 (srcrect.y + srcrect.h - 1) := by
    have := toUint16_add srcrect.y (srcrect.h - 1)
    rw [← add_sub_assoc, ← add_sub_assoc] at this
    exact this
  have main : texCoords (OS4_FillVertexData sdk srcrect dstrect angle center SDL_FLIP_NONE) =
      [ ((toUint16 srcrect.x : ℚ), (toUint16 srcrect.y : ℚ)),
        ((toUint16 srcrect.x : ℚ), (toUint16 (srcrect.y + srcrect.h - 1) : ℚ)),
        ((toUint16 (srcrect.x + srcrect.w - 1) : ℚ), (toUint16 (srcrect.y + srcrect.h - 1) : ℚ)),
        ((toUint16 (srcrect.x + srcrect.w - 1) : ℚ), (toUint16 srcrect.y : ℚ)) ] := by
    unfold OS4_FillVertexData
    simp only [SDL_FLIP_NONE, Nat.zero_and, ne_eq, not_true_eq_false, if_false, hx, hy]
    by_cases ha : angle = 0
    · simp [ha, texCoords]
    · simp [ha, texCoords, OS4_RotateVertices]
  refine ⟨main, ?_⟩
  rintro ⟨⟨hx0, hx1⟩, ⟨hr0, hr1⟩, ⟨hy0, hy1⟩, ⟨hb0, hb1⟩⟩
  rw [main]
  simp only [inclusiveEdgeCoords]
  rw [toUint16_of_fits _ hx0 hx1, toUint16_of_fits _ hr0 hr1, toUint16_of_fits _ hy0 hy1,
    toUint16_of_fits _ hb0 hb1]

/-- Witness of C3 amended: the source rectangle `(16, 32, 64, 48)` has its edges in range. -/
theorem fillVertexData_texCoords_witness :
    EdgesFitUint16 ⟨16, 32, 64, 48⟩ ∧
    texCoords (OS4_FillVertexData sdkSample ⟨16, 32, 64, 48⟩ ⟨0, 0, 10, 10⟩ 0 ⟨0, 0⟩
      SDL_FLIP_NONE) = inclusiveEdgeCoords ⟨16, 32, 64, 48⟩ :=
  ⟨by decide,
    (fillVertexData_texCoords sdkSample ⟨16, 32, 64, 48⟩ ⟨0, 0, 10, 10⟩ 0 ⟨0, 0⟩).2 (by decide)⟩

/-- C4: relative to the quad built with flip none (same rectangles, angle and centre), the
horizontal flip exchanges the `s` coordinates of the left and the right vertices and nothing
else, the vertical flip exchanges the `t` coordinates of the top and the bottom vertices and
nothing else, both flags together do both exchanges, in either order, and doing the same
exchange twice gives the unflipped quad back. -/
theorem fillVertexData_flip (sdk : SDK) (srcrect dstrect : SDL_Rect) (angle : ℚ)
    (center : SDL_FPoint) :
    OS4_FillVertexData sdk srcrect dstrect angle center SDL_FLIP_HORIZONTAL =
      exchangeS (OS4_FillVertexData sdk srcrect dstrect angle center SDL_FLIP_NONE) ∧
    OS4_FillVertexData sdk srcrect dstrect angle center SDL_FLIP_VERTICAL =
      exchangeT (OS4_FillVertexData sdk srcrect dstrect angle center SDL_FLIP_NONE) ∧
    OS4_FillVertexData sdk srcrect dstrect angle center (SDL_FLIP_HORIZONTAL ||| SDL_FLIP_VERTICAL) =
      exchangeS (exchangeT (OS4_FillVertexData sdk srcrect dstrect angle center SDL_FLIP_NONE)) ∧
    exchangeS (exchangeT (OS4_FillVertexData sdk srcrect dstrect angle center SDL_FLIP_NONE)) =
      exchangeT (exchangeS (OS4_FillVertexData sdk srcrect dstrect angle center SDL_FLIP_NONE)) ∧
    exchangeS (OS4_FillVertexData sdk srcrect dstrect angle center SDL_FLIP_HORIZONTAL) =
      OS4_FillVertexData sdk srcrect dstrect angle center SDL_FLIP_NONE ∧
    exchangeT (OS4_FillVertexData sdk srcrect dstrect angle center SDL_FLIP_VERTICAL) =
      OS4_FillVertexData sdk srcrect dstrect angle center SDL_FLIP_NONE := by
  have e1 : (1 : Nat) &&& 1 = 1 := by decide
  have e2 : (1 : Nat) &&& 2 = 0 := by decide
  have e3 : (2 : Nat) &&& 1 = 0 := by decide
  have e4 : (2 : Nat) &&& 2 = 2 := by decide
  have e5 : ((1 : Nat) ||| 2) &&& 1 = 1 := by decide
  have e6 : ((1 : Nat) ||| 2) &&& 2 = 2 := by decide
  by_cases ha : angle = 0
  · simp [OS4_FillVertexData, ha, exchangeS, exchangeT, SDL_FLIP_NONE, SDL_FLIP_HORIZONTAL,
      SDL_FLIP_VERTICAL, e1, e2, e3, e4, e5, e6]
  · simp [OS4_FillVertexData, OS4_RotateVertices, ha, exchangeS, exchangeT, SDL_FLIP_NONE,
      SDL_FLIP_HORIZONTAL, SDL_FLIP_VERTICAL, e1, e2, e3, e4, e5, e6]

/-! ## Clipping -/

lemma overlap_iff (A B : SDL_Rect) :
    Overlap A B ↔ (max A.x B.x < min (A.x + A.w) (B.x + B.w) ∧
      max A.y B.y < min (A.y + A.h) (B.y + B.h)) := by
  unfold Overlap SDL_Rect.Contains
  constructor
  · rintro ⟨px, py, ⟨h1, h2, h3, h4⟩, ⟨h5, h6, h7, h8⟩⟩
    omega
  · rintro ⟨h1, h2⟩
    exact ⟨max A.x B.x, max A.y B.y, by omega, by omega⟩

lemma intersectRect_spec (A B : SDL_Rect) :
    (SDL_IntersectRect A B).1 = decide (max A.x B.x < min (A.x + A.w) (B.x + B.w) ∧
      max A.y B.y < min (A.y + A.h) (B.y + B.h)) ∧
    ((SDL_IntersectRect A B).1 = true →
      (SDL_IntersectRect A B).2 =
        { x := max A.x B.x, y := max A.y B.y,
          w := min (A.x + A.w) (B.x + B.w) - max A.x B.x,
          h := min (A.y + A.h) (B.y + B.h) - max A.y B.y }) := by
  unfold SDL_IntersectRect SDL_RectEmpty
  by_cases hA : A.w ≤ 0
  · simp [hA]
  by_cases hA2 : A.h ≤ 0
  · simp [hA2]
  by_cases hB : B.w ≤ 0
  · simp [hB]
  by_cases hB2 : B.h ≤ 0
  · simp [hB2]
  simp only [hA, hA2, hB, hB2, decide_False, Bool.or_self, Bool.false_eq_true, if_false]
  constructor
  · simp only [Bool.not_or, Bool.and_eq_true, Bool.not_eq_true', decide_eq_false_iff_not,
      not_le, gt_iff_lt]
    rw [Bool.eq_iff_iff]
    simp only [Bool.and_eq_true, Bool.not_eq_true', decide_eq_false_iff_not, not_le,
      decide_eq_true_eq]
    split_ifs <;> omega
  · intro _
    simp only [gt_iff_lt, SDL_Rect.mk.injEq]
    split_ifs <;> omega

/-! ## Activation -/

lemma sameSettings_refl (s : State) : SameSettings s s := by
  simp [SameSettings]

lemma sameSettings_trans {s t u : State} (h1 : SameSettings s t) (h2 : SameSettings t u) :
    SameSettings s u := by
  unfold SameSettings at *
  obtain ⟨a1, a2, a3, a4, a5, a6, a7, a8, a9, a10, a11, a12⟩ := h1
  obtain ⟨b1, b2, b3, b4, b5, b6, b7, b8, b9, b10, b11, b12⟩ := h2
  exact ⟨b1.trans a1, b2.trans a2, b3.trans a3, b4.trans a4, b5.trans a5, b6.trans a6,
    b7.trans a7, b8.trans a8, b9.trans a9, b10.trans a10, b11.trans a11, b12.trans a12⟩

lemma sameSettings_setData (s : State) (d : OS4_RenderData) : SameSettings s (s.setData d) := by
  simp [SameSettings, State.setData]

lemma sameSettings_issue (env : HwEnv) (s : State) (c : HwCall) :
    SameSettings s (s.issue env c).2 := by
  simp [SameSettings, State.issue]

lemma updateViewport_sameSettings {s t : State} {r : Int}
    (h : OS4_UpdateViewport s = some (r, t)) : SameSettings s t := by
  unfold OS4_UpdateViewport at h
  simp only [if_true] at h
  split_ifs at h
  · simp only [Option.some.injEq, Prod.mk.injEq] at h
    rw [← h.2]; exact sameSettings_refl s
  · simp only [Option.some.injEq, Prod.mk.injEq] at h
    rw [← h.2]; exact sameSettings_setData s _

lemma updateClipRect_sameSettings {s t : State} {r : Int}
    (h : OS4_UpdateClipRect s = some (r, t)) : SameSettings s t := by
  unfold OS4_UpdateClipRect at h
  dsimp only at h
  split_ifs at h
  · simp only [Option.some.injEq, Prod.mk.injEq] at h
    rw [← h.2]; exact sameSettings_setData s _
  · cases hw : s.renderer.window with
    | none => simp [hw] at h
    | some window =>
      simp only [hw, Option.some.injEq, Prod.mk.injEq] at h
      rw [← h.2]; exact sameSettings_setData s _
  · simp only [Option.some.injEq, Prod.mk.injEq] at h
    rw [← h.2]; exact sameSettings_refl s

lemma activateStored_sameSettings (s : State) : SameSettings s (activateStored s) := by
  unfold activateStored
  split_ifs
  · exact sameSettings_setData s _
  · exact sameSettings_refl s

lemma activateAllocate_sameSettings {env : HwEnv} {s t : State}
    (h : activateAllocate env s = some t) : SameSettings s t := by
  unfold activateAllocate OS4_AllocBitMap at h
  cases hw : s.renderer.window with
  | none =>
    simp only [hw, Option.some.injEq] at h
    rw [← h]; exact sameSettings_refl s
  | some window =>
    simp only [hw] at h
    split_ifs at h with h1 h2
    · have hb := sameSettings_trans (sameSettings_issue env s (.AllocBitMapTags window.w window.h 32))
        (sameSettings_setData (s.issue env (.AllocBitMapTags window.w window.h 32)).2
          { (s.issue env (.AllocBitMapTags window.w window.h 32)).2.renderer.driverdata with
            target := (s.issue env (.AllocBitMapTags window.w window.h 32)).1,
            bitmap := (s.issue env (.AllocBitMapTags window.w window.h 32)).1 })
      split at h
      · simp at h
      · rename_i r1 sc hv
        split at h
        · simp at h
        · rename_i r2 sd hc
          simp only [Option.some.injEq] at h
          rw [← h]
          exact sameSettings_trans hb
            (sameSettings_trans (updateViewport_sameSettings hv) (updateClipRect_sameSettings hc))
    · simp only [Option.some.injEq] at h
      rw [← h]
      exact sameSettings_trans (sameSettings_issue env s _) (sameSettings_setData _ _)
    · simp only [Option.some.injEq] at h
      rw [← h]; exact sameSettings_refl s

lemma activateSolidColor_sameSettings (env : HwEnv) (s : State) :
    SameSettings s (activateSolidColor env s) := by
  unfold activateSolidColor OS4_AllocBitMap
  split_ifs
  · exact sameSettings_trans (sameSettings_issue env s _) (sameSettings_setData _ _)
  · exact sameSettings_refl s

lemma activate_spec {env : HwEnv} {s s1 : State} {bm : BitMapPtr}
    (h : OS4_ActivateRenderer env s = some (bm, s1)) :
    SameSettings s s1 ∧ bm = s1.renderer.driverdata.target ∧
      s1.renderer.driverdata.rastport.BitMap = bm := by
  unfold OS4_ActivateRenderer at h
  split at h
  · simp at h
  · rename_i s2 h2
    simp only [Option.some.injEq, Prod.mk.injEq] at h
    obtain ⟨hbm, hs1⟩ := h
    refine ⟨?_, ?_, ?_⟩
    · rw [← hs1]
      exact sameSettings_trans (activateStored_sameSettings s)
        (sameSettings_trans (activateAllocate_sameSettings h2)
          (sameSettings_trans (activateSolidColor_sameSettings env s2) (sameSettings_setData _ _)))
    · rw [← hs1, ← hbm]
    · rw [← hs1, ← hbm]; simp [State.setData]

lemma activate_stateSample :
    OS4_ActivateRenderer envSample stateSample = some (1, stateSample) := by
  rfl

/-! ## Opaque fills -/

lemma truncToInt_intCast (n : Int) : truncToInt (n : ℚ) = n := by
  unfold truncToInt
  split_ifs <;> simp

lemma truncToInt_add_intCast (m n : Int) : truncToInt ((m : ℚ) + (n : ℚ)) = m + n := by
  rw [← Int.cast_add]
  exact truncToInt_intCast (m + n)

lemma SDL_max_eq_max (a b : Int) : SDL_max a b = max a b := by
  unfold SDL_max
  split_ifs <;> omega

lemma finalRects_toFRect (viewport : SDL_Rect) (rects : List SDL_Rect) :
    finalRects viewport (rects.map SDL_Rect.toFRect) = rects.map (translatedRect viewport) := by
  unfold finalRects
  split_ifs with h
  · simp only [List.map_map]
    apply List.map_congr_left
    intro r _
    simp only [Function.comp, SDL_Rect.toFRect, translatedRect, truncToInt_add_intCast,
      truncToInt_intCast, SDL_max_eq_max, SDL_Rect.mk.injEq, and_true]
    constructor <;> omega
  · simp only [List.map_map]
    apply List.map_congr_left
    intro r _
    simp only [Function.comp, SDL_Rect.toFRect, translatedRect,
      truncToInt_intCast, SDL_max_eq_max, SDL_Rect.mk.injEq, and_true]
    constructor <;> omega

lemma fillOpaqueStep_eq (env : HwEnv) (color : Nat) (s : State) (R : SDL_Rect) :
    fillOpaqueStep env color s R =
      { s with calls := s.calls ++
          (expectedFill s.renderer.driverdata.rastport color
            s.renderer.driverdata.cliprect R).toList } := by
  obtain ⟨hflag, hrect⟩ := intersectRect_spec R s.renderer.driverdata.cliprect
  unfold fillOpaqueStep expectedFill
  dsimp only
  rcases hI : SDL_IntersectRect R s.renderer.driverdata.cliprect with ⟨b, clipped⟩
  rw [hI] at hflag hrect
  cases b with
  | false =>
    have hc := of_decide_eq_false hflag.symm
    rw [if_neg hc]
    simp
  | true =>
    have hc := of_decide_eq_true hflag.symm
    have hcl := hrect rfl
    simp only at hcl
    subst hcl
    rw [if_pos hc]
    have e1 : max R.x s.renderer.driverdata.cliprect.x +
        (min (R.x + R.w) (s.renderer.driverdata.cliprect.x + s.renderer.driverdata.cliprect.w) -
          max R.x s.renderer.driverdata.cliprect.x) - 1 =
        min (R.x + R.w) (s.renderer.driverdata.cliprect.x + s.renderer.driverdata.cliprect.w) - 1 := by
      omega
    have e2 : max R.y s.renderer.driverdata.cliprect.y +
        (min (R.y + R.h) (s.renderer.driverdata.cliprect.y + s.renderer.driverdata.cliprect.h) -
          max R.y s.renderer.driverdata.cliprect.y) - 1 =
        min (R.y + R.h) (s.renderer.driverdata.cliprect.y + s.renderer.driverdata.cliprect.h) - 1 := by
      omega
    simp only [Option.toList, State.issue, e1, e2]

lemma foldl_fillOpaque (env : HwEnv) (color : Nat) (rects : List SDL_Rect) (s : State) :
    rects.foldl (fillOpaqueStep env color) s =
      { s with calls := s.calls ++
          rects.filterMap (expectedFill s.renderer.driverdata.rastport color
            s.renderer.driverdata.cliprect) } := by
  induction rects generalizing s with
  | nil => simp
  | cons R rest ih =>
    rw [List.foldl_cons, ih, fillOpaqueStep_eq]
    cases hE : expectedFill s.renderer.driverdata.rastport color
        s.renderer.driverdata.cliprect R with
    | none => simp [List.filterMap_cons, hE]
    | some c => simp [List.filterMap_cons, hE]

lemma expectedFill_eq_none_iff (rp : RastPort) (color : Nat) (clip R : SDL_Rect) :
    expectedFill rp color clip R = none ↔ ¬ Overlap R clip := by
  rw [overlap_iff]
  unfold expectedFill
  split_ifs with h
  · simp [h]
  · simp only [true_iff]; exact h

lemma expectedFill_covers (rp rp2 : RastPort) (color color2 : Nat) (clip R : SDL_Rect)
    (x0 y0 x1 y1 : Int)
    (h : expectedFill rp color clip R = some (.RectFillColor rp2 x0 y0 x1 y1 color2)) :
    rp2 = rp ∧ color2 = color ∧
    ∀ px py : Int, (x0 ≤ px ∧ px ≤ x1 ∧ y0 ≤ py ∧ py ≤ y1) ↔
      (R.Contains px py ∧ clip.Contains px py) := by
  unfold expectedFill at h
  split_ifs at h with hc
  simp only [Option.some.injEq, HwCall.RectFillColor.injEq] at h
  obtain ⟨h1, h2, h3, h4, h5, h6⟩ := h
  refine ⟨h1.symm, h6.symm, ?_⟩
  intro px py
  unfold SDL_Rect.Contains
  omega

lemma expectedFill_isFill (rp : RastPort) (color : Nat) (clip R : SDL_Rect) (c : HwCall)
    (h : expectedFill rp color clip R = some c) :
    ∃ x0 y0 x1 y1 : Int, c = .RectFillColor rp x0 y0 x1 y1 color := by
  unfold expectedFill at h
  split_ifs at h
  simp only [Option.some.injEq] at h
  exact ⟨_, _, _, _, h.symm⟩

lemma scaleFactor_eq (dst src : Int) : scaleFactor dst src = some (expectedScale dst src) := by
  unfold scaleFactor expectedScale floatDiv
  by_cases h : src = 0
  · simp [h]
  · have hq : (src : ℚ) ≠ 0 := by exact_mod_cast h
    simp [h, hq]

lemma renderCopy_eq (sdk : SDK) (env : HwEnv) (hints : Hints) (s s1 : State) (dst : BitMapPtr)
    (texture : SDL_Texture) (srcrect : SDL_Rect) (dstrect : SDL_FRect)
    (hact : OS4_ActivateRenderer env s = some (dst, s1)) (hdst : dst ≠ 0) :
    ∃ (status : Int) (s2 : State),
      OS4_RenderCopy sdk env hints s texture srcrect dstrect = some (status, s2) ∧
      s2.renderer = s1.renderer ∧
      s2.calls = s1.calls ++ [ .CompositeTags (OS4_ConvertBlendMode texture.blendMode)
        (sourceBitmap texture) dst
        ([.COMPTAG_SrcAlpha (sdk.COMP_FLOAT_TO_FIX (OS4_GetCompositeAlpha texture))] ++
          rectGeometryTags sdk s1.renderer.viewport srcrect dstrect ++
          commonTags sdk hints s1.renderer.driverdata.cliprect texture) ] := by
  unfold OS4_RenderCopy
  rw [hact]
  simp only [hdst, if_false, scaleFactor_eq, State.issue]
  split_ifs <;>
    exact ⟨_, _, rfl, rfl, rfl⟩

lemma renderCopyEx_eq (sdk : SDK) (env : HwEnv) (hints : Hints) (s s1 : State) (dst : BitMapPtr)
    (texture : SDL_Texture) (srcrect : SDL_Rect) (dstrect : SDL_FRect) (angle : ℚ)
    (center : SDL_FPoint) (flip : SDL_RendererFlip)
    (hact : OS4_ActivateRenderer env s = some (dst, s1)) (hdst : dst ≠ 0) :
    ∃ (status : Int) (s2 : State),
      OS4_RenderCopyEx sdk env hints s texture srcrect dstrect angle center flip =
        some (status, s2) ∧
      s2.renderer = s1.renderer ∧
      s2.calls = s1.calls ++ [ .CompositeTags (OS4_ConvertBlendMode texture.blendMode)
        (sourceBitmap texture) dst
        ([.COMPTAG_SrcAlpha (sdk.COMP_FLOAT_TO_FIX (OS4_GetCompositeAlpha texture))] ++
          commonTags sdk hints s1.renderer.driverdata.cliprect texture ++
          quadGeometryTags (OS4_FillVertexData sdk srcrect (finalRect s1.renderer.viewport dstrect)
            angle { x := dstrect.x + center.x, y := dstrect.y + center.y } flip)) ] := by
  unfold OS4_RenderCopyEx
  rw [hact]
  simp only [hdst, if_false, State.issue]
  split_ifs <;>
    exact ⟨_, _, rfl, rfl, rfl⟩

lemma updateViewport_ne_none (s : State) : OS4_UpdateViewport s ≠ none := by
  unfold OS4_UpdateViewport
  simp only [if_true]
  split_ifs <;> simp

lemma updateClipRect_ne_none (s : State) (window : SDL_Window)
    (hw : s.renderer.window = some window) : OS4_UpdateClipRect s ≠ none := by
  unfold OS4_UpdateClipRect
  dsimp only
  rw [hw]
  split_ifs <;> simp

lemma activateAllocate_ne_none (env : HwEnv) (s : State) : activateAllocate env s ≠ none := by
  unfold activateAllocate OS4_AllocBitMap
  cases hw : s.renderer.window with
  | none => simp
  | some window =>
    dsimp only
    split_ifs with h1 h2
    · split
      · rename_i hv
        exact absurd hv (updateViewport_ne_none _)
      · rename_i r1 sc hv
        split
        · rename_i hc
          have hwin : sc.renderer.window = some window := by
            rw [(updateViewport_sameSettings hv).1]
            simpa [State.setData, State.issue] using hw
          exact absurd hc (updateClipRect_ne_none sc window hwin)
        · simp
    · simp
    · simp

lemma activate_total (env : HwEnv) (s : State) :
    ∃ (bm : BitMapPtr) (s1 : State), OS4_ActivateRenderer env s = some (bm, s1) := by
  unfold OS4_ActivateRenderer
  cases h : activateAllocate env (activateStored s) with
  | none => exact absurd h (activateAllocate_ne_none env _)
  | some s2 => exact ⟨_, _, rfl⟩

/-- C7: in `OS4_RenderCopy` the scale factor of each axis is 1 when the source dimension is
0 and otherwise the destination dimension, truncated to an integer, over the source
dimension; the division never has a zero divisor, so the call always has a result; with an
active render target these two factors, converted to fixed point, are the `ScaleX` and
`ScaleY` of the one composite request; and when the destination size equals a non-zero
source size both factors are 1. -/
theorem renderCopy_scale (sdk : SDK) (env : HwEnv) (hints : Hints) (s : State)
    (texture : SDL_Texture) (srcrect : SDL_Rect) (dstrect : SDL_FRect) :
    scaleFactor (truncToInt dstrect.w) srcrect.w =
      some (if srcrect.w = 0 then 1 else (truncToInt dstrect.w : ℚ) / (srcrect.w : ℚ)) ∧
    scaleFactor (truncToInt dstrect.h) srcrect.h =
      some (if srcrect.h = 0 then 1 else (truncToInt dstrect.h : ℚ) / (srcrect.h : ℚ)) ∧
    (∃ r : Int × State, OS4_RenderCopy sdk env hints s texture srcrect dstrect = some r) ∧
    (∀ (dst : BitMapPtr) (s1 : State),
      OS4_ActivateRenderer env s = some (dst, s1) → dst ≠ 0 →
      ∃ (status : Int) (s2 : State) (op : CompositeOperator) (src : BitMapPtr)
        (tags : List CompTag),
        OS4_RenderCopy sdk env hints s texture srcrect dstrect = some (status, s2) ∧
        s2.calls = s1.calls ++ [.CompositeTags op src dst tags] ∧
        CompTag.COMPTAG_ScaleX (sdk.COMP_FLOAT_TO_FIX
          (if srcrect.w = 0 then 1 else (truncToInt dstrect.w : ℚ) / (srcrect.w : ℚ))) ∈ tags ∧
        CompTag.COMPTAG_ScaleY (sdk.COMP_FLOAT_TO_FIX
          (if srcrect.h = 0 then 1 else (truncToInt dstrect.h : ℚ) / (srcrect.h : ℚ))) ∈ tags) ∧
    (srcrect.w ≠ 0 → dstrect.w = (srcrect.w : ℚ) →
      scaleFactor (truncToInt dstrect.w) srcrect.w = some 1) ∧
    (srcrect.h ≠ 0 → dstrect.h = (srcrect.h : ℚ) →
      scaleFactor (truncToInt dstrect.h) srcrect.h = some 1) := by
  refine ⟨scaleFactor_eq _ _, scaleFactor_eq _ _, ?_, ?_, ?_, ?_⟩
  · obtain ⟨bm, s1, hact⟩ := activate_total env s
    by_cases hbm : bm = 0
    · refine ⟨(-1, s1), ?_⟩
      unfold OS4_RenderCopy
      rw [hact]
      simp [hbm]
    · obtain ⟨status, s2, h, -⟩ :=
        renderCopy_eq sdk env hints s s1 bm texture srcrect dstrect hact hbm
      exact ⟨_, h⟩
  · intro dst s1 hact hdst
    obtain ⟨status, s2, h, -, hcalls⟩ :=
      renderCopy_eq sdk env hints s s1 dst texture srcrect dstrect hact hdst
    refine ⟨status, s2, _, _, _, h, hcalls, ?_, ?_⟩
    · simp [rectGeometryTags, expectedScale]
    · simp [rectGeometryTags, expectedScale]
  · intro hw hd
    rw [scaleFactor_eq, hd, truncToInt_intCast]
    have hq : (srcrect.w : ℚ) ≠ 0 := by exact_mod_cast hw
    simp [expectedScale, hw, hq]
  · intro hh hd
    rw [scaleFactor_eq, hd, truncToInt_intCast]
    have hq : (srcrect.h : ℚ) ≠ 0 := by exact_mod_cast hh
    simp [expectedScale, hh, hq]

/-- Witness of C7: a 64x48 source copied to a destination of the same size under the sample
state, whose activation yields bitmap 1. -/
theorem renderCopy_scale_witness :
    (OS4_ActivateRenderer envSample stateSample = some (1, stateSample) ∧ (1 : BitMapPtr) ≠ 0) ∧
    ((64 : Int) ≠ 0 ∧ ((64 : ℚ) = ((64 : Int) : ℚ))) ∧
    (∃ (status : Int) (s2 : State) (op : CompositeOperator) (src : BitMapPtr)
        (tags : List CompTag),
        OS4_RenderCopy sdkSample envSample hintsSample stateSample textureSample
          ⟨0, 0, 64, 48⟩ ⟨5, 5, 64, 48⟩ = some (status, s2) ∧
        s2.calls = stateSample.calls ++ [.CompositeTags op src 1 tags] ∧
        CompTag.COMPTAG_ScaleX (sdkSample.COMP_FLOAT_TO_FIX
          (if (64 : Int) = 0 then 1 else (truncToInt (64 : ℚ) : ℚ) / ((64 : Int) : ℚ))) ∈ tags ∧
        CompTag.COMPTAG_ScaleY (sdkSample.COMP_FLOAT_TO_FIX
          (if (48 : Int) = 0 then 1 else (truncToInt (48 : ℚ) : ℚ) / ((48 : Int) : ℚ))) ∈ tags) ∧
    scaleFactor (truncToInt (64 : ℚ)) 64 = some 1 :=
  ⟨⟨activate_stateSample, by decide⟩, ⟨by decide, by norm_num⟩,
    (renderCopy_scale sdkSample envSample hintsSample stateSample textureSample
      ⟨0, 0, 64, 48⟩ ⟨5, 5, 64, 48⟩).2.2.2.1 1 stateSample activate_stateSample (by decide),
    (renderCopy_scale sdkSample envSample hintsSample stateSample textureSample
      ⟨0, 0, 64, 48⟩ ⟨5, 5, 64, 48⟩).2.2.2.2.1 (by decide) (by norm_num)⟩

/-- C9: for the same state and texture, with an active render target, `OS4_RenderCopy` and
`OS4_RenderCopyEx` each add one composite request to the calls of the activation, and the
two requests have the same operation, the same source bitmap (the final bitmap exactly when
colour modulation is enabled, else the primary one), the same destination, the same source
alpha, the same destination bounds from the clip rectangle and the same flag word; they
differ in the geometry tags only: source rectangle, offset and scale for the one, a quad of
four vertices with two triangles and the index list `0 1 2 2 3 0` for the other. -/
theorem renderCopy_copyEx_common (sdk : SDK) (env : HwEnv) (hints : Hints) (s s1 : State)
    (dst : BitMapPtr) (texture : SDL_Texture) (srcrect : SDL_Rect) (dstrect : SDL_FRect)
    (angle : ℚ) (center : SDL_FPoint) (flip : SDL_RendererFlip)
    (hact : OS4_ActivateRenderer env s = some (dst, s1)) (hdst : dst ≠ 0) :
    ∃ (status1 status2 : Int) (t1 t2 : State) (vertices : List OS4_Vertex),
      OS4_RenderCopy sdk env hints s texture srcrect dstrect = some (status1, t1) ∧
      OS4_RenderCopyEx sdk env hints s texture srcrect dstrect angle center flip =
        some (status2, t2) ∧
      t1.calls = s1.calls ++ [ .CompositeTags (OS4_ConvertBlendMode texture.blendMode)
        (if OS4_IsColorModEnabled texture = true then texture.driverdata.finalbitmap
          else texture.driverdata.bitmap) dst
        ([.COMPTAG_SrcAlpha (sdk.COMP_FLOAT_TO_FIX (OS4_GetCompositeAlpha texture))] ++
          rectGeometryTags sdk s1.renderer.viewport srcrect dstrect ++
          commonTags sdk hints s1.renderer.driverdata.cliprect texture) ] ∧
      t2.calls = s1.calls ++ [ .CompositeTags (OS4_ConvertBlendMode texture.blendMode)
        (if OS4_IsColorModEnabled texture = true then texture.driverdata.finalbitmap
          else texture.driverdata.bitmap) dst
        ([.COMPTAG_SrcAlpha (sdk.COMP_FLOAT_TO_FIX (OS4_GetCompositeAlpha texture))] ++
          commonTags sdk hints s1.renderer.driverdata.cliprect texture ++
          quadGeometryTags vertices) ] ∧
      vertices = OS4_FillVertexData sdk srcrect (finalRect s1.renderer.viewport dstrect) angle
        { x := dstrect.x + center.x, y := dstrect.y + center.y } flip ∧
      vertices.length = 4 := by
  obtain ⟨status1, t1, h1, -, hc1⟩ :=
    renderCopy_eq sdk env hints s s1 dst texture srcrect dstrect hact hdst
  obtain ⟨status2, t2, h2, -, hc2⟩ :=
    renderCopyEx_eq sdk env hints s s1 dst texture srcrect dstrect angle center flip hact hdst
  refine ⟨status1, status2, t1, t2, _, h1, h2, hc1, hc2, rfl, ?_⟩
  unfold OS4_FillVertexData OS4_RotateVertices
  split_ifs <;> simp

/-- Witness of C9: the sample texture copied under the sample state, once axis-aligned and
once turned by 90 degrees and flipped horizontally. -/
theorem renderCopy_copyEx_common_witness :
    (OS4_ActivateRenderer envSample stateSample = some (1, stateSample) ∧ (1 : BitMapPtr) ≠ 0) ∧
    ∃ (status1 status2 : Int) (t1 t2 : State) (vertices : List OS4_Vertex),
      OS4_RenderCopy sdkSample envSample hintsSample stateSample textureSample
        ⟨0, 0, 64, 48⟩ ⟨5, 5, 64, 48⟩ = some (status1, t1) ∧
      OS4_RenderCopyEx sdkSample envSample hintsSample stateSample textureSample
        ⟨0, 0, 64, 48⟩ ⟨5, 5, 64, 48⟩ 90 ⟨32, 24⟩ SDL_FLIP_HORIZONTAL = some (status2, t2) ∧
      t1.calls = stateSample.calls ++ [ .CompositeTags
        (OS4_ConvertBlendMode textureSample.blendMode)
        (if OS4_IsColorModEnabled textureSample = true then textureSample.driverdata.finalbitmap
          else textureSample.driverdata.bitmap) 1
        ([.COMPTAG_SrcAlpha (sdkSample.COMP_FLOAT_TO_FIX (OS4_GetCompositeAlpha textureSample))] ++
          rectGeometryTags sdkSample stateSample.renderer.viewport ⟨0, 0, 64, 48⟩ ⟨5, 5, 64, 48⟩ ++
          commonTags sdkSample hintsSample stateSample.renderer.driverdata.cliprect
            textureSample) ] ∧
      t2.calls = stateSample.calls ++ [ .CompositeTags
        (OS4_ConvertBlendMode textureSample.blendMode)
        (if OS4_IsColorModEnabled textureSample = true then textureSample.driverdata.finalbitmap
          else textureSample.driverdata.bitmap) 1
        ([.COMPTAG_SrcAlpha (sdkSample.COMP_FLOAT_TO_FIX (OS4_GetCompositeAlpha textureSample))] ++
          commonTags sdkSample hintsSample stateSample.renderer.driverdata.cliprect
            textureSample ++
          quadGeometryTags vertices) ] ∧
      vertices = OS4_FillVertexData sdkSample ⟨0, 0, 64, 48⟩
        (finalRect stateSample.renderer.viewport ⟨5, 5, 64, 48⟩) 90
        { x := 5 + 32, y := 5 + 24 } SDL_FLIP_HORIZONTAL ∧
      vertices.length = 4 :=
  ⟨⟨activate_stateSample, by decide⟩,
    renderCopy_copyEx_common sdkSample envSample hintsSample stateSample stateSample 1
      textureSample ⟨0, 0, 64, 48⟩ ⟨5, 5, 64, 48⟩ 90 ⟨32, 24⟩ SDL_FLIP_HORIZONTAL
      activate_stateSample (by decide)⟩

/-! ## What an activation does -/

lemma setData_self (s : State) : s.setData s.renderer.driverdata = s := by
  cases s; rfl

lemma updateViewport_eq (s : State) :
    OS4_UpdateViewport s =
      some (0, if s.renderer.driverdata.bitmap = 0 then s
        else s.setData { s.renderer.driverdata with cliprect := s.renderer.viewport }) := by
  unfold OS4_UpdateViewport
  simp only [if_true]
  split_ifs <;> rfl

lemma updateClipRect_eq (s : State) (window : SDL_Window)
    (hw : s.renderer.window = some window) :
    OS4_UpdateClipRect s =
      some (0, if s.renderer.driverdata.bitmap = 0 then s
        else s.setData { s.renderer.driverdata with
          cliprect := if SDL_RectEmpty s.renderer.clip_rect = true then
              { x := 0, y := 0, w := window.w, h := window.h }
            else s.renderer.clip_rect }) := by
  unfold OS4_UpdateClipRect
  dsimp only
  rw [hw]
  by_cases hb : s.renderer.driverdata.bitmap = 0
  · simp [hb]
  · by_cases he : SDL_RectEmpty s.renderer.clip_rect = true
    · simp [hb, he]
    · simp [hb, he]

lemma activateStored_fields (s : State) :
    (activateStored s).calls = s.calls ∧
    (activateStored s).renderer.window = s.renderer.window ∧
    (activateStored s).renderer.driverdata.bitmap = s.renderer.driverdata.bitmap ∧
    (activateStored s).renderer.driverdata.solidcolor = s.renderer.driverdata.solidcolor ∧
    (activateStored s).renderer.driverdata.target =
      (if s.renderer.driverdata.target = 0 then s.renderer.driverdata.bitmap
        else s.renderer.driverdata.target) := by
  unfold activateStored
  split_ifs with h <;> simp [State.setData, h]

lemma activateAllocate_fields {env : HwEnv} {s t : State}
    (h : activateAllocate env s = some t) :
    t.renderer.driverdata.solidcolor = s.renderer.driverdata.solidcolor ∧
    ((∃ window, s.renderer.window = some window ∧ s.renderer.driverdata.target = 0 ∧
        t.calls = s.calls ++ [.AllocBitMapTags window.w window.h 32] ∧
        t.renderer.driverdata.bitmap = env s.calls (.AllocBitMapTags window.w window.h 32) ∧
        t.renderer.driverdata.target = env s.calls (.AllocBitMapTags window.w window.h 32)) ∨
      ((s.renderer.window = none ∨ s.renderer.driverdata.target ≠ 0) ∧ t = s)) := by
  unfold activateAllocate OS4_AllocBitMap at h
  cases hw : s.renderer.window with
  | none =>
    simp only [hw, Option.some.injEq] at h
    subst h
    exact ⟨rfl, Or.inr ⟨Or.inl rfl, rfl⟩⟩
  | some window =>
    simp only [hw] at h
    split_ifs at h with h1 h2
    · have hwb : ((s.issue env (.AllocBitMapTags window.w window.h 32)).2.setData
          { (s.issue env (.AllocBitMapTags window.w window.h 32)).2.renderer.driverdata with
            target := (s.issue env (.AllocBitMapTags window.w window.h 32)).1,
            bitmap := (s.issue env (.AllocBitMapTags window.w window.h 32)).1 }).renderer.window =
          some window := by
        simpa [State.setData, State.issue] using hw
      rw [updateViewport_eq] at h
      simp only at h
      rw [updateClipRect_eq _ window (by split_ifs <;> simpa [State.setData] using hwb)] at h
      simp only [Option.some.injEq] at h
      subst h
      refine ⟨?_, Or.inl ⟨window, rfl, h1, ?_, ?_, ?_⟩⟩ <;>
        (split_ifs <;> simp [State.setData, State.issue])
    · simp only [Option.some.injEq] at h
      subst h
      refine ⟨?_, Or.inl ⟨window, rfl, h1, ?_, ?_, ?_⟩⟩ <;> simp [State.setData, State.issue]
    · simp only [Option.some.injEq] at h
      exact ⟨by rw [← h], Or.inr ⟨Or.inr h1, h.symm⟩⟩

lemma activateSolidColor_fields (env : HwEnv) (s : State) :
    (activateSolidColor env s).calls = s.calls ++ (solidRequest s).toList ∧
    (activateSolidColor env s).renderer.driverdata.bitmap = s.renderer.driverdata.bitmap ∧
    (activateSolidColor env s).renderer.driverdata.target = s.renderer.driverdata.target ∧
    (activateSolidColor env s).renderer.driverdata.solidcolor =
      (if s.renderer.driverdata.solidcolor = 0 then env s.calls (.AllocBitMapTags 1 1 32)
        else s.renderer.driverdata.solidcolor) := by
  unfold activateSolidColor OS4_AllocBitMap solidRequest
  split_ifs with h <;> simp [State.setData, State.issue]

lemma activate_result {env : HwEnv} {s s1 : State} {bm : BitMapPtr}
    (h : OS4_ActivateRenderer env s = some (bm, s1)) :
    bm = activatedTarget env s ∧
    s1.renderer.driverdata.target = bm ∧
    s1.renderer.driverdata.rastport = { BitMap := bm } ∧
    s1.calls = s.calls ++ (targetRequest s).toList ++ (solidRequest s).toList ∧
    s1.renderer.driverdata.bitmap =
      (match targetRequest s with
        | some c => env s.calls c
        | none => s.renderer.driverdata.bitmap) ∧
    s1.renderer.driverdata.solidcolor =
      (if s.renderer.driverdata.solidcolor = 0 then
        env (s.calls ++ (targetRequest s).toList) (.AllocBitMapTags 1 1 32)
      else s.renderer.driverdata.solidcolor) := by
  unfold OS4_ActivateRenderer at h
  split at h
  · simp at h
  · rename_i s2 h2
    simp only [Option.some.injEq, Prod.mk.injEq] at h
    obtain ⟨hbm, hs1⟩ := h
    obtain ⟨hc, hw, hb, hsc, ht⟩ := activateStored_fields s
    obtain ⟨gc, gb, gt, gs⟩ := activateSolidColor_fields env s2
    obtain ⟨asol, acase⟩ := activateAllocate_fields h2
    have hsol2 : solidRequest s2 = solidRequest s := by
      unfold solidRequest; rw [asol, hsc]
    have e1 : s1.calls = (activateSolidColor env s2).calls := by rw [← hs1]; rfl
    have e2 : s1.renderer.driverdata.bitmap =
        (activateSolidColor env s2).renderer.driverdata.bitmap := by rw [← hs1]; rfl
    have e3 : s1.renderer.driverdata.target =
        (activateSolidColor env s2).renderer.driverdata.target := by rw [← hs1]; rfl
    have e4 : s1.renderer.driverdata.solidcolor =
        (activateSolidColor env s2).renderer.driverdata.solidcolor := by rw [← hs1]; rfl
    have e5 : s1.renderer.driverdata.rastport =
        { BitMap := (activateSolidColor env s2).renderer.driverdata.target } := by
      rw [← hs1]; rfl
    have e6 : bm = (activateSolidColor env s2).renderer.driverdata.target := by
      rw [← hbm]; rfl
    rw [e1, e2, e3, e4, e5, e6, gc, gb, gt, gs, hsol2, asol, hsc]
    rcases acase with ⟨window, hwin, htz, hcalls, hbit, htar⟩ | ⟨hno, heq⟩
    · rw [hw] at hwin
      rw [ht] at htz
      have hs0 : s.renderer.driverdata.target = 0 ∧ s.renderer.driverdata.bitmap = 0 := by
        split_ifs at htz with h0
        · exact ⟨h0, htz⟩
        · exact absurd htz h0
      have hreq : targetRequest s = some (.AllocBitMapTags window.w window.h 32) := by
        unfold targetRequest; rw [hwin]; simp [hs0.1, hs0.2]
      rw [hreq, hcalls, hbit, htar, hc]
      simp [activatedTarget, hs0.1, hs0.2, hreq]
    · subst heq
      rw [hw, ht] at hno
      have hreq : targetRequest s = none := by
        unfold targetRequest
        rcases hno with hn | hn
        · rw [hn]
        · cases hwin : s.renderer.window with
          | none => rfl
          | some window =>
            have : ¬ (s.renderer.driverdata.target = 0 ∧ s.renderer.driverdata.bitmap = 0) := by
              rintro ⟨a, b⟩
              rw [if_pos a] at hn
              exact hn b
            simp [this]
      rw [hreq, hc, hb, ht]
      unfold activatedTarget
      rw [hreq]
      by_cases a : s.renderer.driverdata.target = 0 <;>
        by_cases b : s.renderer.driverdata.bitmap = 0 <;> simp [a, b]

lemma activate_stateFresh :
    OS4_ActivateRenderer envFresh stateFresh = some (2, stateFreshActive) := by
  rfl

lemma activate_stateFresh_failed :
    OS4_ActivateRenderer envSample stateFresh = some (0, stateFreshFailed) := by
  rfl

/-- C15: `OS4_ActivateRenderer` returns the bound target when there is one, and then makes
no render-target request; else it returns the stored bitmap, which becomes the target,
again without a render-target request; else, with a window, it makes exactly one request
for a bitmap of the size of the window, 32 bits deep, and returns its result (null when
the allocation failed), which becomes stored bitmap and target. The only other call of an
activation is the request for the 1x1 solid-colour bitmap, and the value returned does not
depend on what that request returns. -/
theorem activateRenderer_target (env : HwEnv) (s s1 : State) (bm : BitMapPtr)
    (h : OS4_ActivateRenderer env s = some (bm, s1)) :
    (s.renderer.driverdata.target ≠ 0 →
      bm = s.renderer.driverdata.target ∧
      s1.calls = s.calls ++ (solidRequest s).toList ∧
      s1.renderer.driverdata.bitmap = s.renderer.driverdata.bitmap) ∧
    (s.renderer.driverdata.target = 0 → s.renderer.driverdata.bitmap ≠ 0 →
      bm = s.renderer.driverdata.bitmap ∧
      s1.renderer.driverdata.target = s.renderer.driverdata.bitmap ∧
      s1.calls = s.calls ++ (solidRequest s).toList ∧
      s1.renderer.driverdata.bitmap = s.renderer.driverdata.bitmap) ∧
    (∀ window : SDL_Window,
      s.renderer.driverdata.target = 0 → s.renderer.driverdata.bitmap = 0 →
      s.renderer.window = some window →
      bm = env s.calls (.AllocBitMapTags window.w window.h 32) ∧
      s1.calls = s.calls ++ [.AllocBitMapTags window.w window.h 32] ++ (solidRequest s).toList ∧
      s1.renderer.driverdata.bitmap = bm ∧ s1.renderer.driverdata.target = bm) ∧
    (∀ env2 : HwEnv,
      (∀ c : HwCall, targetRequest s = some c → env2 s.calls c = env s.calls c) →
      ∃ t : State, OS4_ActivateRenderer env2 s = some (bm, t)) := by
  obtain ⟨hbm, htar, -, hcalls, hbit, -⟩ := activate_result h
  refine ⟨?_, ?_, ?_, ?_⟩
  · intro ht
    have hreq : targetRequest s = none := by
      unfold targetRequest
      cases s.renderer.window with
      | none => rfl
      | some window => simp [ht]
    rw [hreq] at hcalls hbit
    refine ⟨?_, by simpa using hcalls, hbit⟩
    rw [hbm]; simp [activatedTarget, ht]
  · intro ht hb
    have hreq : targetRequest s = none := by
      unfold targetRequest
      cases s.renderer.window with
      | none => rfl
      | some window => simp [hb]
    rw [hreq] at hcalls hbit
    have hval : bm = s.renderer.driverdata.bitmap := by
      rw [hbm]; simp [activatedTarget, ht, hb]
    exact ⟨hval, by rw [htar, hval], by simpa using hcalls, hbit⟩
  · intro window ht hb hw
    have hreq : targetRequest s = some (.AllocBitMapTags window.w window.h 32) := by
      unfold targetRequest; rw [hw]; simp [ht, hb]
    rw [hreq] at hcalls hbit
    have hval : bm = env s.calls (.AllocBitMapTags window.w window.h 32) := by
      rw [hbm]; simp [activatedTarget, ht, hb, hreq]
    exact ⟨hval, by simpa using hcalls, by rw [hval]; exact hbit, htar⟩
  · intro env2 hagree
    obtain ⟨bm2, t, h2⟩ := activate_total env2 s
    obtain ⟨hbm2, -⟩ := activate_result h2
    refine ⟨t, ?_⟩
    rw [h2, hbm2, hbm]
    have : activatedTarget env2 s = activatedTarget env s := by
      unfold activatedTarget
      cases hreq : targetRequest s with
      | none => rfl
      | some c => simp only [hagree c hreq]
    rw [this]

/-- Witness of C15: the first activation of a fresh renderer with a 640x480 window, under
an environment whose allocations succeed. -/
theorem activateRenderer_target_witness :
    OS4_ActivateRenderer envFresh stateFresh = some (2, stateFreshActive) ∧
    ((2 : BitMapPtr) = envFresh stateFresh.calls (.AllocBitMapTags 640 480 32) ∧
      stateFreshActive.calls = stateFresh.calls ++ [.AllocBitMapTags 640 480 32] ++
        (solidRequest stateFresh).toList ∧
      stateFreshActive.renderer.driverdata.bitmap = 2 ∧
      stateFreshActive.renderer.driverdata.target = 2) :=
  ⟨activate_stateFresh,
    (activateRenderer_target envFresh stateFresh stateFreshActive 2 activate_stateFresh).2.2.1
      { w := 640, h := 480, driverdata := { syswin := none } } rfl rfl rfl⟩

lemma activatedTarget_eq_zero_iff (env : HwEnv) (s : State) :
    activatedTarget env s = 0 ↔
      (s.renderer.driverdata.target = 0 ∧ s.renderer.driverdata.bitmap = 0 ∧
        (s.renderer.window = none ∨
          ∃ window : SDL_Window, s.renderer.window = some window ∧
            env s.calls (.AllocBitMapTags window.w window.h 32) = 0)) := by
  unfold activatedTarget targetRequest
  by_cases ht : s.renderer.driverdata.target = 0
  · by_cases hb : s.renderer.driverdata.bitmap = 0
    · cases hw : s.renderer.window with
      | none => simp [ht, hb]
      | some window => simp [ht, hb]
    · simp [ht, hb]
  · simp [ht]

lemma activate_calls_are_allocs {env : HwEnv} {s s1 : State} {bm : BitMapPtr}
    (h : OS4_ActivateRenderer env s = some (bm, s1)) :
    ∃ extra : List HwCall, s1.calls = s.calls ++ extra ∧
      ∀ c ∈ extra, ∃ w h d : Int, c = .AllocBitMapTags w h d := by
  obtain ⟨-, -, -, hcalls, -⟩ := activate_result h
  refine ⟨(targetRequest s).toList ++ (solidRequest s).toList, by rw [hcalls, List.append_assoc], ?_⟩
  intro c hc
  rw [List.mem_append] at hc
  rcases hc with hc | hc
  · unfold targetRequest at hc
    cases hw : s.renderer.window with
    | none => simp [hw] at hc
    | some window =>
      simp only [hw] at hc
      split_ifs at hc
      · simp at hc; exact ⟨_, _, _, hc⟩
      · simp at hc
  · unfold solidRequest at hc
    split_ifs at hc
    · simp at hc; exact ⟨_, _, _, hc⟩
    · simp at hc

/-- C14: when an activation yields no render target, which happens exactly when no target is
bound, no bitmap is stored and either there is no window or the allocation for the window
fails, each of `OS4_RenderClear`, `OS4_RenderFillRects`, `OS4_RenderCopy`,
`OS4_RenderCopyEx`, `OS4_RenderReadPixels` and `OS4_GetOutputSize` returns -1 and leaves the
state of the activation as it is: the only calls issued are the allocation requests of the
activation, no fill, composite or pixel read, and `OS4_GetOutputSize` writes neither
output. -/
theorem noTarget_returns_error (sdk : SDK) (env : HwEnv) (hints : Hints) (s s1 : State)
    (h : OS4_ActivateRenderer env s = some (0, s1))
    (rects : List SDL_FRect) (texture : SDL_Texture) (srcrect : SDL_Rect) (dstrect : SDL_FRect)
    (angle : ℚ) (center : SDL_FPoint) (flip : SDL_RendererFlip)
    (rect : SDL_Rect) (format : Nat) (pitch : Int) (wantW wantH : Bool) :
    (s.renderer.driverdata.target = 0 ∧ s.renderer.driverdata.bitmap = 0 ∧
      (s.renderer.window = none ∨
        ∃ window : SDL_Window, s.renderer.window = some window ∧
          env s.calls (.AllocBitMapTags window.w window.h 32) = 0)) ∧
    (∃ extra : List HwCall, s1.calls = s.calls ++ extra ∧
      ∀ c ∈ extra, ∃ w h d : Int, c = .AllocBitMapTags w h d) ∧
    OS4_RenderClear env s = some (-1, s1) ∧
    OS4_RenderFillRects sdk env hints s rects = some (-1, s1) ∧
    OS4_RenderCopy sdk env hints s texture srcrect dstrect = some (-1, s1) ∧
    OS4_RenderCopyEx sdk env hints s texture srcrect dstrect angle center flip =
      some (-1, s1) ∧
    OS4_RenderReadPixels env s rect format pitch = some (-1, s1) ∧
    OS4_GetOutputSize env s wantW wantH =
      some ({ status := -1, w := none, h := none }, s1) := by
  refine ⟨?_, activate_calls_are_allocs h, ?_, ?_, ?_, ?_, ?_, ?_⟩
  · exact (activatedTarget_eq_zero_iff env s).mp (activate_result h).1.symm
  · unfold OS4_RenderClear; rw [h]; simp
  · unfold OS4_RenderFillRects; rw [h]; simp
  · unfold OS4_RenderCopy; rw [h]; simp
  · unfold OS4_RenderCopyEx; rw [h]; simp
  · unfold OS4_RenderReadPixels; rw [h]; simp
  · unfold OS4_GetOutputSize; rw [h]; simp

/-- Witness of C14: a fresh renderer under an environment whose allocations all fail. -/
theorem noTarget_returns_error_witness :
    OS4_ActivateRenderer envSample stateFresh = some (0, stateFreshFailed) ∧
    OS4_RenderClear envSample stateFresh = some (-1, stateFreshFailed) ∧
    OS4_GetOutputSize envSample stateFresh true true =
      some ({ status := -1, w := none, h := none }, stateFreshFailed) :=
  ⟨activate_stateFresh_failed,
    (noTarget_returns_error sdkSample envSample hintsSample stateFresh stateFreshFailed
      activate_stateFresh_failed [] textureSample ⟨0, 0, 1, 1⟩ ⟨0, 0, 1, 1⟩ 0 ⟨0, 0⟩ 0
      ⟨0, 0, 1, 1⟩ SDL_PIXELFORMAT_ARGB8888 4 true true).2.2.1,
    (noTarget_returns_error sdkSample envSample hintsSample stateFresh stateFreshFailed
      activate_stateFresh_failed [] textureSample ⟨0, 0, 1, 1⟩ ⟨0, 0, 1, 1⟩ 0 ⟨0, 0⟩ 0
      ⟨0, 0, 1, 1⟩ SDL_PIXELFORMAT_ARGB8888 4 true true).2.2.2.2.2.2.2⟩

/-! ## Blended fills -/

lemma fillBlendedStep_fields (sdk : SDK) (env : HwEnv) (hints : Hints) (bitmap : BitMapPtr)
    (s : State) (R : SDL_Rect) :
    (fillBlendedStep sdk env hints bitmap s R).renderer = s.renderer ∧
    (fillBlendedStep sdk env hints bitmap s R).calls =
      s.calls ++ [blendRequest sdk hints s.renderer bitmap R] := by
  unfold fillBlendedStep blendRequest
  simp only [State.issue, OS4_QuadIndices]
  split_ifs <;> exact ⟨rfl, rfl⟩

lemma foldl_fillBlended (sdk : SDK) (env : HwEnv) (hints : Hints) (bitmap : BitMapPtr)
    (rects : List SDL_Rect) (s : State) :
    (rects.foldl (fillBlendedStep sdk env hints bitmap) s).renderer = s.renderer ∧
    (rects.foldl (fillBlendedStep sdk env hints bitmap) s).calls =
      s.calls ++ rects.map (blendRequest sdk hints s.renderer bitmap) := by
  induction rects generalizing s with
  | nil => simp
  | cons R rest ih =>
    obtain ⟨hr, hc⟩ := fillBlendedStep_fields sdk env hints bitmap s R
    obtain ⟨ihr, ihc⟩ := ih (fillBlendedStep sdk env hints bitmap s R)
    rw [List.foldl_cons]
    refine ⟨by rw [ihr, hr], ?_⟩
    rw [ihc, hc, hr]
    simp

lemma activate_stateBlend :
    OS4_ActivateRenderer envFresh stateBlend = some (1, stateBlend) := by
  rfl

lemma finalRects_eq_map (viewport : SDL_Rect) (rects : List SDL_FRect) :
    finalRects viewport rects = rects.map (fillDestination viewport) := by
  unfold finalRects
  split_ifs with h
  · apply List.map_congr_left
    intro r _
    simp only [fillDestination, SDL_max_eq_max, add_comm]
  · push_neg at h
    apply List.map_congr_left
    intro r _
    simp only [fillDestination, SDL_max_eq_max, h.1, h.2, Int.cast_zero, add_zero]

lemma fillDestination_toFRect (viewport : SDL_Rect) (R : SDL_Rect) :
    fillDestination viewport R.toFRect = translatedRect viewport R := by
  unfold fillDestination translatedRect SDL_Rect.toFRect
  simp only [truncToInt_add_intCast, truncToInt_intCast]

lemma fillVertexData_solid (sdk : SDK) (R : SDL_Rect) :
    OS4_FillVertexData sdk { x := 0, y := 0, w := 1, h := 1 } R 0 { x := 0, y := 0 }
      SDL_FLIP_NONE = solidQuad R := by
  simp [OS4_FillVertexData, solidQuad, toUint16, SDL_FLIP_NONE]

/-- C11: for a draw blend mode other than None and an active render target,
`OS4_RenderFillRects` returns -1 and issues no composite request when the solid-colour
bitmap is absent after the activation (no call at all) or cannot be locked (the lock
attempt is the only call); otherwise it locks the 1x1 bitmap, stores the packed draw colour
once, unlocks, then issues one composite request for each input rectangle, in the order of
the input, the request of the rectangle `r` being the composite of the solid-colour bitmap
onto the target with the clip rectangle as destination bounds and the quad over the
destination of `r` (position moved by the viewport offset and truncated, size at least 1)
whose texture coordinates are all 0 and whose weights are 1; and it returns 0 whatever the
environment answers to these requests. For integer-valued input the destinations are the
translated rectangles. -/
theorem renderFillRects_blended (sdk : SDK) (env : HwEnv) (hints : Hints) (s s1 : State)
    (bitmap : BitMapPtr) (rects : List SDL_FRect)
    (hact : OS4_ActivateRenderer env s = some (bitmap, s1)) (hbm : bitmap ≠ 0)
    (hmode : s.renderer.blendMode ≠ .SDL_BLENDMODE_NONE) :
    (s1.renderer.driverdata.solidcolor = 0 →
      OS4_RenderFillRects sdk env hints s rects = some (-1, s1)) ∧
    (s1.renderer.driverdata.solidcolor ≠ 0 →
      env s1.calls (.LockBitMapTags s1.renderer.driverdata.solidcolor) = 0 →
      ∃ t : State, OS4_RenderFillRects sdk env hints s rects = some (-1, t) ∧
        t.renderer = s1.renderer ∧
        t.calls = s1.calls ++ [.LockBitMapTags s1.renderer.driverdata.solidcolor]) ∧
    (s1.renderer.driverdata.solidcolor ≠ 0 →
      env s1.calls (.LockBitMapTags s1.renderer.driverdata.solidcolor) ≠ 0 →
      ∃ t : State, OS4_RenderFillRects sdk env hints s rects = some (0, t) ∧
        t.renderer = s1.renderer ∧
        t.calls = s1.calls ++
          [ .LockBitMapTags s1.renderer.driverdata.solidcolor,
            .StoreUint32 s1.renderer.driverdata.solidcolor (packColor s.renderer),
            .UnlockBitMap s1.renderer.driverdata.solidcolor ] ++
          rects.map (fun r =>
            HwCall.CompositeTags (OS4_ConvertBlendMode s.renderer.blendMode)
              s1.renderer.driverdata.solidcolor bitmap
              [ .COMPTAG_DestX s1.renderer.driverdata.cliprect.x,
                .COMPTAG_DestY s1.renderer.driverdata.cliprect.y,
                .COMPTAG_DestWidth s1.renderer.driverdata.cliprect.w,
                .COMPTAG_DestHeight s1.renderer.driverdata.cliprect.h,
                .COMPTAG_Flags (OS4_GetCompositeFlags sdk hints s.renderer.blendMode),
                .COMPTAG_VertexArray (solidQuad (fillDestination s.renderer.viewport r)),
                .COMPTAG_VertexFormat .COMPVF_STW0_Present,
                .COMPTAG_NumTriangles 2, .COMPTAG_IndexArray [0, 1, 2, 2, 3, 0] ])) ∧
    (∀ ints : List SDL_Rect,
      (ints.map SDL_Rect.toFRect).map (fillDestination s.renderer.viewport) =
        ints.map (translatedRect s.renderer.viewport)) := by
  obtain ⟨hsame, -, -⟩ := activate_spec hact
  obtain ⟨-, hvp, -, hr, hg, hb, ha, hbl, -⟩ := hsame
  have hcolor : packColor s1.renderer = packColor s.renderer := by
    unfold packColor; rw [hr, hg, hb, ha]
  have hmode1 : s1.renderer.blendMode ≠ .SDL_BLENDMODE_NONE := by rw [hbl]; exact hmode
  refine ⟨?_, ?_, ?_, ?_⟩
  · intro hsc
    unfold OS4_RenderFillRects
    rw [hact]
    simp [hbm, hmode1, hsc]
  · intro hsc hlock
    unfold OS4_RenderFillRects
    rw [hact]
    simp only [hbm, if_false, hmode1, hsc, OS4_SetSolidColor, State.issue, ne_eq,
      not_false_eq_true, if_true, hlock, not_true_eq_false]
    exact ⟨_, rfl, rfl, rfl⟩
  · intro hsc hlock
    unfold OS4_RenderFillRects
    rw [hact]
    simp only [hbm, if_false, hmode1, hsc, OS4_SetSolidColor, State.issue, ne_eq,
      not_false_eq_true, if_true, hlock, hcolor, hvp]
    refine ⟨_, rfl, ?_, ?_⟩
    · rw [(foldl_fillBlended sdk env hints bitmap _ _).1]
    · rw [(foldl_fillBlended sdk env hints bitmap _ _).2, finalRects_eq_map, List.map_map]
      simp only [List.append_assoc, List.cons_append, List.nil_append, List.append_cancel_left_eq,
        List.cons.injEq, true_and]
      apply List.map_congr_left
      intro r _
      simp only [Function.comp, blendRequest, fillVertexData_solid, hbl]
  · intro ints
    rw [List.map_map]
    apply List.map_congr_left
    intro R _
    exact fillDestination_toFRect _ R

/-- Witness of C11: two rectangles filled with blend mode Blend under the viewport offset
`(10, 20)` and an environment whose lock succeeds; the calls are lock, store, unlock and
the two composite requests, over `(10, 20, 50, 50)` and `(17, 27, 1, 1)`, and the result is
0. -/
theorem renderFillRects_blended_witness :
    (OS4_ActivateRenderer envFresh stateBlend = some (1, stateBlend) ∧ (1 : BitMapPtr) ≠ 0 ∧
      stateBlend.renderer.blendMode ≠ .SDL_BLENDMODE_NONE) ∧
    (stateBlend.renderer.driverdata.solidcolor ≠ 0 ∧
      envFresh stateBlend.calls (.LockBitMapTags stateBlend.renderer.driverdata.solidcolor) ≠ 0) ∧
    ∃ t : State,
      OS4_RenderFillRects sdkSample envFresh hintsSample stateBlend
        [⟨0, 0, 50, 50⟩, ⟨7, 7, 1, 1⟩] = some (0, t) ∧
      t.renderer = stateBlend.renderer ∧
      t.calls =
        [ .LockBitMapTags 2, .StoreUint32 2 0xFFFF0000, .UnlockBitMap 2,
          .CompositeTags .COMPOSITE_Src_Over_Dest 2 1
            [ .COMPTAG_DestX 10, .COMPTAG_DestY 20, .COMPTAG_DestWidth 100,
              .COMPTAG_DestHeight 100, .COMPTAG_Flags 24,
              .COMPTAG_VertexArray (solidQuad ⟨10, 20, 50, 50⟩),
              .COMPTAG_VertexFormat .COMPVF_STW0_Present,
              .COMPTAG_NumTriangles 2, .COMPTAG_IndexArray [0, 1, 2, 2, 3, 0] ],
          .CompositeTags .COMPOSITE_Src_Over_Dest 2 1
            [ .COMPTAG_DestX 10, .COMPTAG_DestY 20, .COMPTAG_DestWidth 100,
              .COMPTAG_DestHeight 100, .COMPTAG_Flags 24,
              .COMPTAG_VertexArray (solidQuad ⟨17, 27, 1, 1⟩),
              .COMPTAG_VertexFormat .COMPVF_STW0_Present,
              .COMPTAG_NumTriangles 2, .COMPTAG_IndexArray [0, 1, 2, 2, 3, 0] ] ] := by
  refine ⟨⟨activate_stateBlend, by decide, by decide⟩, ⟨by decide, by decide⟩, ?_⟩
  obtain ⟨t, h1, h2, h3⟩ :=
    (renderFillRects_blended sdkSample envFresh hintsSample stateBlend stateBlend 1
      [⟨0, 0, 50, 50⟩, ⟨7, 7, 1, 1⟩] activate_stateBlend (by decide) (by decide)).2.2.1
      (by decide) (by decide)
  refine ⟨t, h1, h2, ?_⟩
  rw [h3]
  have d1 : fillDestination stateBlend.renderer.viewport ⟨0, 0, 50, 50⟩ = ⟨10, 20, 50, 50⟩ := by
    simp [fillDestination, stateBlend, stateSample, truncToInt]
  have d2 : fillDestination stateBlend.renderer.viewport ⟨7, 7, 1, 1⟩ = ⟨17, 27, 1, 1⟩ := by
    norm_num [fillDestination, stateBlend, stateSample, truncToInt]
  simp only [List.map_cons, List.map_nil, d1, d2]
  decide

/-! ## Results of the texture copies and of the pixel read -/

lemma renderCopy_result (sdk : SDK) (env : HwEnv) (hints : Hints) (s s1 : State)
    (dst : BitMapPtr) (texture : SDL_Texture) (srcrect : SDL_Rect) (dstrect : SDL_FRect)
    (hact : OS4_ActivateRenderer env s = some (dst, s1)) (hdst : dst ≠ 0) :
    ∃ t : State,
      OS4_RenderCopy sdk env hints s texture srcrect dstrect =
        some ((if env s1.calls (copyRequest sdk hints s1.renderer dst texture srcrect dstrect) = 0
          then 0 else -1), t) ∧
      t.renderer = s1.renderer ∧
      t.calls = s1.calls ++ [copyRequest sdk hints s1.renderer dst texture srcrect dstrect] := by
  unfold OS4_RenderCopy
  rw [hact]
  simp only [hdst, if_false, scaleFactor_eq, State.issue]
  by_cases hret : env s1.calls (copyRequest sdk hints s1.renderer dst texture srcrect dstrect) = 0
  · rw [if_pos hret]
    split_ifs with h1 h2
    · exact absurd hret h1
    · exact absurd hret h1
    · exact ⟨_, rfl, rfl, rfl⟩
  · rw [if_neg hret]
    split_ifs with h1 h2
    · exact ⟨_, rfl, rfl, rfl⟩
    · exact ⟨_, rfl, rfl, rfl⟩
    · exact absurd (not_not.mp h1) hret

lemma renderCopyEx_result (sdk : SDK) (env : HwEnv) (hints : Hints) (s s1 : State)
    (dst : BitMapPtr) (texture : SDL_Texture) (srcrect : SDL_Rect) (dstrect : SDL_FRect)
    (angle : ℚ) (center : SDL_FPoint) (flip : SDL_RendererFlip)
    (hact : OS4_ActivateRenderer env s = some (dst, s1)) (hdst : dst ≠ 0) :
    ∃ t : State,
      OS4_RenderCopyEx sdk env hints s texture srcrect dstrect angle center flip =
        some ((if env s1.calls (copyExRequest sdk hints s1.renderer dst texture srcrect dstrect
            angle center flip) = 0 then 0 else -1), t) ∧
      t.renderer = s1.renderer ∧
      t.calls = s1.calls ++
        [copyExRequest sdk hints s1.renderer dst texture srcrect dstrect angle center flip] := by
  unfold OS4_RenderCopyEx
  rw [hact]
  simp only [hdst, if_false, State.issue]
  by_cases hret : env s1.calls (copyExRequest sdk hints s1.renderer dst texture srcrect dstrect
      angle center flip) = 0
  · rw [if_pos hret]
    split_ifs with h1 h2
    · exact absurd hret h1
    · exact absurd hret h1
    · exact ⟨_, rfl, rfl, rfl⟩
  · rw [if_neg hret]
    split_ifs with h1 h2
    · exact ⟨_, rfl, rfl, rfl⟩
    · exact ⟨_, rfl, rfl, rfl⟩
    · exact absurd (not_not.mp h1) hret

/-- C12: with an active render target, `OS4_RenderCopy` and `OS4_RenderCopyEx` each add
exactly one composite request to the calls of the activation (which are allocation requests
only); each returns 0 when the environment answers 0 to its request and -1 for every other
answer; and either way the renderer (target, stored bitmap, clip rectangle and all the rest)
is as the activation left it. -/
theorem renderCopy_status (sdk : SDK) (env : HwEnv) (hints : Hints) (s s1 : State)
    (dst : BitMapPtr) (texture : SDL_Texture) (srcrect : SDL_Rect) (dstrect : SDL_FRect)
    (angle : ℚ) (center : SDL_FPoint) (flip : SDL_RendererFlip)
    (hact : OS4_ActivateRenderer env s = some (dst, s1)) (hdst : dst ≠ 0) :
    (∃ extra : List HwCall, s1.calls = s.calls ++ extra ∧
      ∀ c ∈ extra, ∃ w h d : Int, c = .AllocBitMapTags w h d) ∧
    (∃ (status : Int) (t : State),
      OS4_RenderCopy sdk env hints s texture srcrect dstrect = some (status, t) ∧
      t.calls = s1.calls ++ [copyRequest sdk hints s1.renderer dst texture srcrect dstrect] ∧
      (status = 0 ↔
        env s1.calls (copyRequest sdk hints s1.renderer dst texture srcrect dstrect) = 0) ∧
      (status ≠ 0 → status = -1) ∧
      t.renderer = s1.renderer) ∧
    (∃ (status : Int) (t : State),
      OS4_RenderCopyEx sdk env hints s texture srcrect dstrect angle center flip =
        some (status, t) ∧
      t.calls = s1.calls ++
        [copyExRequest sdk hints s1.renderer dst texture srcrect dstrect angle center flip] ∧
      (status = 0 ↔
        env s1.calls (copyExRequest sdk hints s1.renderer dst texture srcrect dstrect
          angle center flip) = 0) ∧
      (status ≠ 0 → status = -1) ∧
      t.renderer = s1.renderer) := by
  refine ⟨activate_calls_are_allocs hact, ?_, ?_⟩
  · obtain ⟨t, h, hr, hc⟩ :=
      renderCopy_result sdk env hints s s1 dst texture srcrect dstrect hact hdst
    refine ⟨_, t, h, hc, ?_, ?_, hr⟩ <;> split_ifs with h0 <;> simp [h0]
  · obtain ⟨t, h, hr, hc⟩ :=
      renderCopyEx_result sdk env hints s s1 dst texture srcrect dstrect angle center flip
        hact hdst
    refine ⟨_, t, h, hc, ?_, ?_, hr⟩ <;> split_ifs with h0 <;> simp [h0]

/-- Witness of C12: the sample texture copied under the sample state; the environment
answers 0 and the status is 0. -/
theorem renderCopy_status_witness :
    (OS4_ActivateRenderer envSample stateSample = some (1, stateSample) ∧ (1 : BitMapPtr) ≠ 0) ∧
    ∃ (status : Int) (t : State),
      OS4_RenderCopy sdkSample envSample hintsSample stateSample textureSample
        ⟨0, 0, 64, 48⟩ ⟨5, 5, 64, 48⟩ = some (status, t) ∧
      t.calls = stateSample.calls ++ [copyRequest sdkSample hintsSample stateSample.renderer 1
        textureSample ⟨0, 0, 64, 48⟩ ⟨5, 5, 64, 48⟩] ∧
      (status = 0 ↔
        envSample stateSample.calls (copyRequest sdkSample hintsSample stateSample.renderer 1
          textureSample ⟨0, 0, 64, 48⟩ ⟨5, 5, 64, 48⟩) = 0) ∧
      (status ≠ 0 → status = -1) ∧
      t.renderer = stateSample.renderer :=
  ⟨⟨activate_stateSample, by decide⟩,
    (renderCopy_status sdkSample envSample hintsSample stateSample stateSample 1 textureSample
      ⟨0, 0, 64, 48⟩ ⟨5, 5, 64, 48⟩ 0 ⟨0, 0⟩ SDL_FLIP_NONE activate_stateSample
      (by decide)).2.1⟩

lemma addInt_eq {a b : Int} (h : ¬ Overflows a b) : addInt a b = a + b := by
  unfold addInt
  rw [if_neg h]

lemma not_overflows_zero_left (b : Int) : ¬ Overflows 0 b := by
  unfold Overflows
  rw [zero_add]
  tauto

lemma not_overflows_zero_right (a : Int) : ¬ Overflows a 0 := by
  unfold Overflows
  rw [add_zero]
  tauto

lemma adjusted_eq_readRect (viewport rect : SDL_Rect)
    (hx : ¬ Overflows viewport.x rect.x) (hy : ¬ Overflows viewport.y rect.y) :
    adjustedRect viewport rect = readRect viewport rect := by
  unfold adjustedRect readRect
  rw [addInt_eq hx, addInt_eq hy]
  split_ifs with h
  · simp only [SDL_Rect.mk.injEq, and_true]
    constructor <;> omega
  · push_neg at h
    cases rect
    simp only [SDL_Rect.mk.injEq, and_true]
    constructor <;> omega

lemma renderReadPixels_spec (env : HwEnv) (s s1 : State) (bitmap : BitMapPtr)
    (window : SDL_Window) (rect : SDL_Rect) (format : Nat) (pitch : Int)
    (hact : OS4_ActivateRenderer env s = some (bitmap, s1)) (hbm : bitmap ≠ 0)
    (hw : s.renderer.window = some window)
    (hx : ¬ Overflows s.renderer.viewport.x rect.x)
    (hy : ¬ Overflows s.renderer.viewport.y rect.y)
    (hxw : ¬ Overflows (readRect s.renderer.viewport rect).x
      (readRect s.renderer.viewport rect).w)
    (hyh : ¬ Overflows (readRect s.renderer.viewport rect).y
      (readRect s.renderer.viewport rect).h) :
    ((OutsideWindow (readRect s.renderer.viewport rect) window ∨
        format ≠ SDL_PIXELFORMAT_ARGB8888) →
      OS4_RenderReadPixels env s rect format pitch = some (-1, s1)) ∧
    (¬ (OutsideWindow (readRect s.renderer.viewport rect) window ∨
        format ≠ SDL_PIXELFORMAT_ARGB8888) →
      OS4_RenderReadPixels env s rect format pitch =
        some (0,
          { s1 with
            calls := s1.calls ++
              [ .ReadPixelArray { BitMap := bitmap }
                  (readRect s.renderer.viewport rect).x (readRect s.renderer.viewport rect).y
                  pitch .PIXF_A8R8G8B8
                  (readRect s.renderer.viewport rect).w (readRect s.renderer.viewport rect).h ] })) := by
  obtain ⟨hsame, -, -⟩ := activate_spec hact
  obtain ⟨hwin, hvp, -⟩ := hsame
  obtain ⟨-, -, hrp, -⟩ := activate_result hact
  rw [hw] at hwin
  have unfolded : OS4_RenderReadPixels env s rect format pitch =
      (if (readRect s.renderer.viewport rect).x < 0 then some (-1, s1)
        else if (readRect s.renderer.viewport rect).x + (readRect s.renderer.viewport rect).w >
              window.w ∨ (readRect s.renderer.viewport rect).y < 0 ∨
            (readRect s.renderer.viewport rect).y + (readRect s.renderer.viewport rect).h >
              window.h then some (-1, s1)
        else if format ≠ SDL_PIXELFORMAT_ARGB8888 then some (-1, s1)
        else some (0, (s1.issue env
          (.ReadPixelArray { BitMap := bitmap }
            (readRect s.renderer.viewport rect).x (readRect s.renderer.viewport rect).y
            pitch .PIXF_A8R8G8B8
            (readRect s.renderer.viewport rect).w (readRect s.renderer.viewport rect).h)).2)) := by
    unfold OS4_RenderReadPixels
    rw [hact]
    simp only [hbm, if_false, hvp, adjusted_eq_readRect _ _ hx hy, hwin, hrp, addInt_eq hxw,
      addInt_eq hyh]
  rw [unfolded]
  unfold OutsideWindow
  constructor
  · intro hbad
    split_ifs with h1 h2 h3
    · rfl
    · rfl
    · rfl
    · exfalso
      rcases hbad with (hb | hb | hb | hb) | hb
      · exact h1 hb
      · exact h2 (Or.inr (Or.inl hb))
      · exact h2 (Or.inl hb)
      · exact h2 (Or.inr (Or.inr hb))
      · exact h3 hb
  · intro hgood
    push_neg at hgood
    obtain ⟨⟨g1, g2, g3, g4⟩, g5⟩ := hgood
    rw [if_neg (by omega), if_neg (by omega), if_neg (by simpa using g5)]
    rfl

lemma activate_stateFreshActive :
    OS4_ActivateRenderer envSample stateFreshActive = some (2, stateFreshActive) := by
  rfl

/-- C13, the code at the failing input: on a 640x480 window with an active target and no
viewport offset, the request rectangle `(1, 0, 2147483647, 1)` reaches far beyond the width
of the window, and `OS4_RenderReadPixels` returns 0 and issues a `ReadPixelArray` of
2147483647 by 1 pixels: the sum `rect->x + rect->w` of the bounds test overflows `int` and
comes out negative. The request `(1, 0, 640, 1)`, one pixel too wide, is rejected with -1
and no read. -/
theorem renderReadPixels_sum_overflows :
    (OS4_ActivateRenderer envSample stateFreshActive = some (2, stateFreshActive) ∧
      stateFreshActive.renderer.window =
        some { w := 640, h := 480, driverdata := { syswin := none } } ∧
      stateFreshActive.renderer.viewport.x = 0 ∧ stateFreshActive.renderer.viewport.y = 0) ∧
    (FitsInt32 1 ∧ FitsInt32 0 ∧ FitsInt32 2147483647 ∧
      OutsideWindow (readRect stateFreshActive.renderer.viewport ⟨1, 0, 2147483647, 1⟩)
        { w := 640, h := 480, driverdata := { syswin := none } }) ∧
    addInt 1 2147483647 = -2147483648 ∧
    OS4_RenderReadPixels envSample stateFreshActive ⟨1, 0, 2147483647, 1⟩
        SDL_PIXELFORMAT_ARGB8888 2560 =
      some (0,
        { stateFreshActive with
          calls := stateFreshActive.calls ++
            [ .ReadPixelArray { BitMap := 2 } 1 0 2560 .PIXF_A8R8G8B8 2147483647 1 ] }) ∧
    OS4_RenderReadPixels envSample stateFreshActive ⟨1, 0, 640, 1⟩
        SDL_PIXELFORMAT_ARGB8888 2560 = some (-1, stateFreshActive) := by
  refine ⟨⟨rfl, rfl, rfl, rfl⟩, by decide, by decide, by decide, by decide⟩

/-! ## Viewport and clip rectangle -/

/-- C18, the code at the failing input: with a stored render-target bitmap, a 640x480 window
and the empty viewport `(0, 0, 0, 0)`, `OS4_UpdateViewport` returns 0 and leaves the clip
rectangle at the empty viewport, not at the window bounds `(0, 0, 640, 480)`: the test
`&renderer->viewport` is never false. -/
theorem updateViewport_empty_viewport :
    stateEmptyViewport.renderer.driverdata.bitmap ≠ 0 ∧
    stateEmptyViewport.renderer.window =
      some { w := 640, h := 480, driverdata := { syswin := none } } ∧
    SDL_RectEmpty stateEmptyViewport.renderer.viewport = true ∧
    ∃ t : State, OS4_UpdateViewport stateEmptyViewport = some (0, t) ∧
      t.renderer.driverdata.cliprect = { x := 0, y := 0, w := 0, h := 0 } ∧
      t.renderer.driverdata.cliprect ≠ { x := 0, y := 0, w := 640, h := 480 } := by
  refine ⟨by decide, rfl, by decide, ?_⟩
  rw [updateViewport_eq]
  exact ⟨_, rfl, by decide, by decide⟩

/-- C19: `OS4_UpdateClipRect` returns 0 whenever it returns; without a render-target bitmap
it leaves the state, and so the clip rectangle, unchanged; with one it sets the clip
rectangle to the explicit clip rectangle of the renderer when that has `w > 0` and `h > 0`,
and otherwise, the renderer having a window, to the window bounds
`(0, 0, window.w, window.h)`; nothing but the clip rectangle changes. -/
theorem updateClipRect_spec (s : State) :
    (∀ (r : Int) (t : State), OS4_UpdateClipRect s = some (r, t) → r = 0) ∧
    (s.renderer.driverdata.bitmap = 0 → OS4_UpdateClipRect s = some (0, s)) ∧
    (s.renderer.driverdata.bitmap ≠ 0 →
      (0 < s.renderer.clip_rect.w ∧ 0 < s.renderer.clip_rect.h) →
      OS4_UpdateClipRect s =
        some (0, s.setData { s.renderer.driverdata with cliprect := s.renderer.clip_rect })) ∧
    (∀ window : SDL_Window, s.renderer.window = some window →
      s.renderer.driverdata.bitmap ≠ 0 →
      ¬ (0 < s.renderer.clip_rect.w ∧ 0 < s.renderer.clip_rect.h) →
      OS4_UpdateClipRect s =
        some (0, s.setData { s.renderer.driverdata with
          cliprect := { x := 0, y := 0, w := window.w, h := window.h } })) := by
  refine ⟨?_, ?_, ?_, ?_⟩
  · intro r t h
    unfold OS4_UpdateClipRect at h
    dsimp only at h
    split_ifs at h
    · simp only [Option.some.injEq, Prod.mk.injEq] at h; exact h.1.symm
    · cases hw : s.renderer.window with
      | none => simp [hw] at h
      | some window =>
        simp only [hw, Option.some.injEq, Prod.mk.injEq] at h; exact h.1.symm
    · simp only [Option.some.injEq, Prod.mk.injEq] at h; exact h.1.symm
  · intro hb
    unfold OS4_UpdateClipRect
    simp [hb]
  · intro hb hne
    have he : SDL_RectEmpty s.renderer.clip_rect = false := by
      unfold SDL_RectEmpty
      simp only [Bool.or_eq_false_iff, decide_eq_false_iff_not, not_le]
      exact hne
    unfold OS4_UpdateClipRect
    simp [hb, he]
  · intro window hw hb hne
    have he : SDL_RectEmpty s.renderer.clip_rect = true := by
      unfold SDL_RectEmpty
      simp only [Bool.or_eq_true, decide_eq_true_eq]
      by_contra hcon
      push_neg at hcon
      exact hne hcon
    rw [updateClipRect_eq s window hw]
    simp [hb, he]

/-- Witness of C19: the sample state has a stored bitmap, a 640x480 window and an empty
explicit clip rectangle, so the clip rectangle becomes the window bounds. -/
theorem updateClipRect_spec_witness :
    (stateSample.renderer.window =
        some { w := 640, h := 480, driverdata := { syswin := none } } ∧
      stateSample.renderer.driverdata.bitmap ≠ 0 ∧
      ¬ (0 < stateSample.renderer.clip_rect.w ∧ 0 < stateSample.renderer.clip_rect.h)) ∧
    OS4_UpdateClipRect stateSample =
      some (0, stateSample.setData { stateSample.renderer.driverdata with
        cliprect := { x := 0, y := 0, w := 640, h := 480 } }) :=
  ⟨⟨rfl, by decide, by decide⟩,
    (updateClipRect_spec stateSample).2.2.2
      { w := 640, h := 480, driverdata := { syswin := none } } rfl (by decide) (by decide)⟩

/-! ## Clear -/

lemma packColor_eq (r : SDL_Renderer) (hr : r.r ≤ 255) (hg : r.g ≤ 255) (hb : r.b ≤ 255)
    (ha : r.a ≤ 255) :
    packColor r = r.a * 2 ^ 24 + r.r * 2 ^ 16 + r.g * 2 ^ 8 + r.b := by
  unfold packColor
  have h1 : r.g <<< 8 ||| r.b = r.g * 2 ^ 8 + r.b := by
    rw [Nat.shiftLeft_eq, Nat.mul_comm]
    exact (Nat.mul_add_lt_is_or (by omega) r.g).symm
  have h2 : r.r <<< 16 ||| (r.g * 2 ^ 8 + r.b) = r.r * 2 ^ 16 + (r.g * 2 ^ 8 + r.b) := by
    rw [Nat.shiftLeft_eq, Nat.mul_comm (r.r)]
    exact (Nat.mul_add_lt_is_or (by omega) r.r).symm
  have h3 : r.a <<< 24 ||| (r.r * 2 ^ 16 + (r.g * 2 ^ 8 + r.b)) =
      r.a * 2 ^ 24 + (r.r * 2 ^ 16 + (r.g * 2 ^ 8 + r.b)) := by
    rw [Nat.shiftLeft_eq, Nat.mul_comm (r.a)]
    exact (Nat.mul_add_lt_is_or (by omega) r.a).symm
  rw [Nat.lor_assoc, Nat.lor_assoc, h1, h2, h3]
  omega

lemma renderClear_eq (env : HwEnv) (s s1 : State) (bitmap : BitMapPtr) (window : SDL_Window)
    (hact : OS4_ActivateRenderer env s = some (bitmap, s1)) (hbm : bitmap ≠ 0)
    (hw : s.renderer.window = some window) :
    OS4_RenderClear env s =
      some (0,
        { s1 with
          calls := s1.calls ++
            [ .RectFillColor { BitMap := bitmap } 0 0 (window.w - 1) (window.h - 1)
                (packColor s.renderer) ] }) := by
  obtain ⟨hsame, -, -⟩ := activate_spec hact
  obtain ⟨hwin, -, -, hr, hg, hb, ha, -⟩ := hsame
  obtain ⟨-, -, hrp, -⟩ := activate_result hact
  have hcolor : packColor s1.renderer = packColor s.renderer := by
    unfold packColor; rw [hr, hg, hb, ha]
  rw [hw] at hwin
  unfold OS4_RenderClear
  rw [hact]
  simp only [hbm, if_false, hwin, hrp, hcolor, State.issue]

lemma pixelAfter_append_one (calls : List HwCall) (c : HwCall) (bm : BitMapPtr) (x y : Int) :
    pixelAfter (calls ++ [c]) bm x y = pixelStep bm x y (pixelAfter calls bm x y) c := by
  unfold pixelAfter
  rw [List.foldl_append]
  rfl

/-- C20: with an active render target and a window, `OS4_RenderClear` returns 0 and adds
exactly one `RectFillColor` against the active target with the inclusive corners `(0, 0)`
and `(window.w - 1, window.h - 1)`, which are the pixels of the whole window and do not
depend on viewport or clip rectangle, and with the colour `a * 2^24 + r * 2^16 + g * 2^8 + b`
of the 8-bit draw colour, each channel being the corresponding byte of that word. With the
draw colour `(255, 0, 0, 255)` and a zero viewport offset, a following
`OS4_RenderReadPixels` of the full window in the format ARGB8888 returns 0 and issues one
`ReadPixelArray` of `(0, 0, window.w, window.h)` from the same target, every pixel of
which holds `0xFFFF0000` at that point. -/
theorem renderClear_fill (env : HwEnv) (s s1 : State) (bitmap : BitMapPtr) (window : SDL_Window)
    (hact : OS4_ActivateRenderer env s = some (bitmap, s1)) (hbm : bitmap ≠ 0)
    (hw : s.renderer.window = some window)
    (hr : s.renderer.r ≤ 255) (hg : s.renderer.g ≤ 255) (hb : s.renderer.b ≤ 255)
    (ha : s.renderer.a ≤ 255) :
    OS4_RenderClear env s =
      some (0,
        { s1 with
          calls := s1.calls ++
            [ .RectFillColor { BitMap := bitmap } 0 0 (window.w - 1) (window.h - 1)
                (packColor s.renderer) ] }) ∧
    packColor s.renderer =
      s.renderer.a * 2 ^ 24 + s.renderer.r * 2 ^ 16 + s.renderer.g * 2 ^ 8 + s.renderer.b ∧
    (packColor s.renderer / 2 ^ 24 % 256 = s.renderer.a ∧
      packColor s.renderer / 2 ^ 16 % 256 = s.renderer.r ∧
      packColor s.renderer / 2 ^ 8 % 256 = s.renderer.g ∧
      packColor s.renderer % 256 = s.renderer.b) ∧
    (∀ px py : Int, (0 ≤ px ∧ px ≤ window.w - 1 ∧ 0 ≤ py ∧ py ≤ window.h - 1) ↔
      SDL_Rect.Contains { x := 0, y := 0, w := window.w, h := window.h } px py) ∧
    (s.renderer.r = 255 → s.renderer.g = 0 → s.renderer.b = 0 → s.renderer.a = 255 →
      s.renderer.viewport.x = 0 → s.renderer.viewport.y = 0 →
      ∀ pitch : Int, ∃ (s2 s3 : State) (pre : List HwCall),
        OS4_RenderClear env s = some (0, s2) ∧
        OS4_RenderReadPixels env s2 { x := 0, y := 0, w := window.w, h := window.h }
          SDL_PIXELFORMAT_ARGB8888 pitch = some (0, s3) ∧
        s3.calls = pre ++
          [.ReadPixelArray { BitMap := bitmap } 0 0 pitch .PIXF_A8R8G8B8 window.w window.h] ∧
        ∀ px py : Int, 0 ≤ px → px < window.w → 0 ≤ py → py < window.h →
          pixelAfter pre bitmap px py = some 0xFFFF0000) := by
  have hclear := renderClear_eq env s s1 bitmap window hact hbm hw
  have hpack := packColor_eq s.renderer hr hg hb ha
  refine ⟨hclear, hpack, ?_, ?_, ?_⟩
  · rw [hpack]
    refine ⟨?_, ?_, ?_, ?_⟩ <;> omega
  · intro px py
    unfold SDL_Rect.Contains
    constructor <;> intro h <;> (simp only at h ⊢; omega)
  · intro cr cg cb ca vx vy pitch
    have hcol : packColor s.renderer = 0xFFFF0000 := by
      rw [hpack, cr, cg, cb, ca]
      norm_num
    obtain ⟨hsame, -, -⟩ := activate_spec hact
    obtain ⟨hwin1, hvp1, -⟩ := hsame
    obtain ⟨-, htar1, -⟩ := activate_result hact
    obtain ⟨bm2, s2a, hact2⟩ := activate_total env
      { s1 with
        calls := s1.calls ++
          [ .RectFillColor { BitMap := bitmap } 0 0 (window.w - 1) (window.h - 1)
              (packColor s.renderer) ] }
    obtain ⟨hbm2, -, -, hcalls2, -⟩ := activate_result hact2
    have hreq : targetRequest
        { s1 with
          calls := s1.calls ++
            [ .RectFillColor { BitMap := bitmap } 0 0 (window.w - 1) (window.h - 1)
                (packColor s.renderer) ] } = none := by
      unfold targetRequest
      simp only
      cases s1.renderer.window with
      | none => rfl
      | some w2 => simp [htar1, hbm]
    have hbm2' : bm2 = bitmap := by
      rw [hbm2]
      unfold activatedTarget
      simp [htar1, hbm]
    rw [hbm2'] at hact2
    rw [hreq] at hcalls2
    have hread := (renderReadPixels_spec env _ s2a bitmap window
      { x := 0, y := 0, w := window.w, h := window.h } SDL_PIXELFORMAT_ARGB8888 pitch
      hact2 hbm (by simp only; rw [hwin1, hw])
      (not_overflows_zero_right _) (not_overflows_zero_right _)
      (by simp only [readRect, hvp1, vx, vy, add_zero]; exact not_overflows_zero_left _)
      (by simp only [readRect, hvp1, vx, vy, add_zero]; exact not_overflows_zero_left _)).2 (by
        simp only [readRect, OutsideWindow, hvp1, vx, vy]
        simp)
    refine ⟨_,
      { s2a with
        calls := s2a.calls ++
          [.ReadPixelArray { BitMap := bitmap } 0 0 pitch .PIXF_A8R8G8B8 window.w window.h] },
      s2a.calls, hclear, ?_, rfl, ?_⟩
    · rw [hread]
      simp only [readRect, hvp1, vx, vy, add_zero]
    · intro px py h0 h1 h2 h3
      rw [hcalls2]
      simp only [Option.toList, List.append_nil]
      have hfill : pixelAfter (s1.calls ++
          [ .RectFillColor { BitMap := bitmap } 0 0 (window.w - 1) (window.h - 1)
              (packColor s.renderer) ]) bitmap px py = some 0xFFFF0000 := by
        rw [pixelAfter_append_one]
        simp only [pixelStep]
        rw [if_pos ⟨trivial, h0, by omega, h2, by omega⟩, hcol]
      unfold solidRequest
      split_ifs
      · rw [pixelAfter_append_one, hfill]
        rfl
      · simp only [List.append_nil]
        exact hfill

/-- Witness of C20: clearing the sample state, whose draw colour is `(255, 0, 0, 255)`,
fills `(0, 0)` to `(639, 479)` with `0xFFFF0000`. -/
theorem renderClear_fill_witness :
    (OS4_ActivateRenderer envSample stateSample = some (1, stateSample) ∧ (1 : BitMapPtr) ≠ 0 ∧
      stateSample.renderer.window =
        some { w := 640, h := 480, driverdata := { syswin := none } } ∧
      stateSample.renderer.r ≤ 255 ∧ stateSample.renderer.g ≤ 255 ∧
      stateSample.renderer.b ≤ 255 ∧ stateSample.renderer.a ≤ 255) ∧
    OS4_RenderClear envSample stateSample =
      some (0,
        { stateSample with
          calls := [ .RectFillColor { BitMap := 1 } 0 0 639 479 0xFFFF0000 ] }) :=
  ⟨⟨activate_stateSample, by decide, rfl, by decide, by decide, by decide, by decide⟩,
    (renderClear_fill envSample stateSample stateSample 1
      { w := 640, h := 480, driverdata := { syswin := none } } activate_stateSample
      (by decide) rfl (by decide) (by decide) (by decide) (by decide)).1.trans (by decide)⟩

/-! ## Window events and the output size -/

lemma getOutputSize_eq (env : HwEnv) (s s1 : State) (bitmap : BitMapPtr)
    (hact : OS4_ActivateRenderer env s = some (bitmap, s1)) (hbm : bitmap ≠ 0) :
    OS4_GetOutputSize env s true true =
      some ({ status := 0,
              w := some ((env s1.calls (.GetBitMapAttr bitmap .BMA_WIDTH) : Nat) : Int),
              h := some ((env (s1.calls ++ [.GetBitMapAttr bitmap .BMA_WIDTH])
                (.GetBitMapAttr bitmap .BMA_HEIGHT) : Nat) : Int) },
        { s1 with
          calls := s1.calls ++
            [.GetBitMapAttr bitmap .BMA_WIDTH, .GetBitMapAttr bitmap .BMA_HEIGHT] }) := by
  unfold OS4_GetOutputSize
  rw [hact]
  simp [hbm, State.issue]

lemma activate_fresh {env : HwEnv} {u u1 : State} {bm : BitMapPtr}
    (h : OS4_ActivateRenderer env u = some (bm, u1)) (window : SDL_Window)
    (ht : u.renderer.driverdata.target = 0) (hb : u.renderer.driverdata.bitmap = 0)
    (hw : u.renderer.window = some window) :
    bm = env u.calls (.AllocBitMapTags window.w window.h 32) ∧
    u1.calls = u.calls ++ [.AllocBitMapTags window.w window.h 32] ++ (solidRequest u).toList ∧
    u1.renderer.driverdata.bitmap = bm ∧ u1.renderer.driverdata.target = bm := by
  obtain ⟨hbm, htar, -, hcalls, hbit, -⟩ := activate_result h
  have hreq : targetRequest u = some (.AllocBitMapTags window.w window.h 32) := by
    unfold targetRequest; rw [hw]; simp [ht, hb]
  rw [hreq] at hcalls hbit
  have hval : bm = env u.calls (.AllocBitMapTags window.w window.h 32) := by
    rw [hbm]; simp [activatedTarget, ht, hb, hreq]
  exact ⟨hval, by simpa using hcalls, by rw [hval]; exact hbit, htar⟩

/-- C16 as stated fails: after the size-changed event for a window now 630x480, the next
`OS4_GetOutputSize` allocates a bitmap of 630x480 and reports what `GetBitMapAttr` answers
for it; under an environment whose library answers 640 for the width (rows padded to a
multiple of 16 pixels) the reported width is 640, not the 630 of the window. -/
theorem windowEvent_resize_counterexample :
    (eventSizeChanged.event = .SDL_WINDOWEVENT_SIZE_CHANGED ∧
      stateNarrowActive.renderer.driverdata.bitmap ≠ 0 ∧
      stateNarrowActive.renderer.window =
        some { w := 630, h := 480, driverdata := { syswin := none } }) ∧
    ∃ (out : OutputSize) (t : State),
      OS4_GetOutputSize envSized (OS4_WindowEvent envSized stateNarrowActive eventSizeChanged)
        true true = some (out, t) ∧
      t.calls = stateNarrowActive.calls ++
        [ .FreeBitMap 2, .AllocBitMapTags 630 480 32, .GetBitMapAttr 5 .BMA_WIDTH,
          .GetBitMapAttr 5 .BMA_HEIGHT ] ∧
      t.renderer.driverdata.bitmap = 5 ∧
      out = { status := 0, w := some 640, h := some 480 } ∧
      out.w ≠ some 630 := by
  refine ⟨⟨rfl, by decide, rfl⟩, _, _, rfl, by decide, by decide, by decide, by decide⟩

/-- C16, amended: a size-changed window event that arrives while a render-target bitmap is
stored makes `OS4_WindowEvent` issue one `FreeBitMap` of that bitmap and nothing else, and
set stored bitmap and active target to null; every other event, and a size-changed event
without a stored bitmap, leaves the whole state unchanged. In a state without stored bitmap
and target, such as the one after that event, the next `OS4_GetOutputSize` requests one
bitmap of the size the window has at that moment, stores the result as bitmap and target,
returns 0 when the allocation succeeded, and reports the width and the height that
`GetBitMapAttr` answers for the new bitmap. -/
theorem windowEvent_resize (env : HwEnv) (s : State) (event : SDL_WindowEvent) :
    (event.event = .SDL_WINDOWEVENT_SIZE_CHANGED → s.renderer.driverdata.bitmap ≠ 0 →
      OS4_WindowEvent env s event =
        ({ s with calls := s.calls ++ [HwCall.FreeBitMap s.renderer.driverdata.bitmap] }).setData
          { s.renderer.driverdata with bitmap := 0, target := 0 } ∧
      (OS4_WindowEvent env s event).renderer.driverdata.bitmap = 0 ∧
      (OS4_WindowEvent env s event).renderer.driverdata.target = 0 ∧
      (OS4_WindowEvent env s event).renderer.window = s.renderer.window) ∧
    ((event.event ≠ .SDL_WINDOWEVENT_SIZE_CHANGED ∨ s.renderer.driverdata.bitmap = 0) →
      OS4_WindowEvent env s event = s) ∧
    (∀ (u : State) (window : SDL_Window),
      u.renderer.driverdata.bitmap = 0 → u.renderer.driverdata.target = 0 →
      u.renderer.window = some window →
      env u.calls (.AllocBitMapTags window.w window.h 32) ≠ 0 →
      ∃ (out : OutputSize) (t : State),
        OS4_GetOutputSize env u true true = some (out, t) ∧
        out.status = 0 ∧
        t.calls = u.calls ++ [.AllocBitMapTags window.w window.h 32] ++
          (solidRequest u).toList ++
          [ .GetBitMapAttr (env u.calls (.AllocBitMapTags window.w window.h 32)) .BMA_WIDTH,
            .GetBitMapAttr (env u.calls (.AllocBitMapTags window.w window.h 32)) .BMA_HEIGHT ] ∧
        t.renderer.driverdata.bitmap = env u.calls (.AllocBitMapTags window.w window.h 32) ∧
        t.renderer.driverdata.target = env u.calls (.AllocBitMapTags window.w window.h 32) ∧
        out.w = some ((env (u.calls ++ [.AllocBitMapTags window.w window.h 32] ++
            (solidRequest u).toList)
          (.GetBitMapAttr (env u.calls (.AllocBitMapTags window.w window.h 32)) .BMA_WIDTH)
            : Nat) : Int) ∧
        out.h = some ((env (u.calls ++ [.AllocBitMapTags window.w window.h 32] ++
            (solidRequest u).toList ++
            [.GetBitMapAttr (env u.calls (.AllocBitMapTags window.w window.h 32)) .BMA_WIDTH])
          (.GetBitMapAttr (env u.calls (.AllocBitMapTags window.w window.h 32)) .BMA_HEIGHT)
            : Nat) : Int)) := by
  refine ⟨?_, ?_, ?_⟩
  · intro he hb
    have heq : OS4_WindowEvent env s event =
        ({ s with calls := s.calls ++ [HwCall.FreeBitMap s.renderer.driverdata.bitmap] }).setData
          { s.renderer.driverdata with bitmap := 0, target := 0 } := by
      unfold OS4_WindowEvent
      simp [he, hb, State.issue, State.setData]
    rw [heq]
    exact ⟨rfl, rfl, rfl, rfl⟩
  · intro h
    unfold OS4_WindowEvent
    rcases h with h | h
    · simp [h]
    · simp [h]
  · intro u window hb ht hw halloc
    obtain ⟨bm, u1, hact⟩ := activate_total env u
    obtain ⟨h1, h2, h3, h4⟩ := activate_fresh hact window ht hb hw
    rw [h1] at hact
    rw [getOutputSize_eq env u u1 _ hact halloc, h2]
    refine ⟨_, _, rfl, rfl, by simp, by rw [h3, h1], by rw [h4, h1], rfl, ?_⟩
    simp only [List.append_assoc]

/-- Witness of C16: the size-changed event in a state whose render target is bitmap 2, and
the output-size query that follows, under an environment whose allocations succeed and
whose `GetBitMapAttr` answers 640 and 480. -/
theorem windowEvent_resize_witness :
    (eventSizeChanged.event = .SDL_WINDOWEVENT_SIZE_CHANGED ∧
      stateFreshActive.renderer.driverdata.bitmap ≠ 0) ∧
    OS4_WindowEvent envSized stateFreshActive eventSizeChanged =
      ({ stateFreshActive with
          calls := stateFreshActive.calls ++
            [HwCall.FreeBitMap stateFreshActive.renderer.driverdata.bitmap] }).setData
        { stateFreshActive.renderer.driverdata with bitmap := 0, target := 0 } ∧
    ((OS4_WindowEvent envSized stateFreshActive eventSizeChanged).renderer.driverdata.bitmap = 0 ∧
      (OS4_WindowEvent envSized stateFreshActive eventSizeChanged).renderer.driverdata.target = 0 ∧
      (OS4_WindowEvent envSized stateFreshActive eventSizeChanged).renderer.window =
        some { w := 640, h := 480, driverdata := { syswin := none } } ∧
      envSized (OS4_WindowEvent envSized stateFreshActive eventSizeChanged).calls
        (.AllocBitMapTags 640 480 32) ≠ 0) ∧
    ∃ (out : OutputSize) (t : State),
      OS4_GetOutputSize envSized (OS4_WindowEvent envSized stateFreshActive eventSizeChanged)
        true true = some (out, t) ∧
      out.status = 0 ∧ t.renderer.driverdata.bitmap = 5 ∧
      out.w = some 640 ∧ out.h = some 480 := by
  refine ⟨⟨rfl, by decide⟩,
    ((windowEvent_resize envSized stateFreshActive eventSizeChanged).1 rfl (by decide)).1,
    ⟨rfl, rfl, rfl, by decide⟩, ?_⟩
  obtain ⟨out, t, h1, h2, -, h4, -, h6, h7⟩ :=
    (windowEvent_resize envSized stateFreshActive eventSizeChanged).2.2
      (OS4_WindowEvent envSized stateFreshActive eventSizeChanged)
      { w := 640, h := 480, driverdata := { syswin := none } } rfl rfl rfl (by decide)
  exact ⟨out, t, h1, h2, h4, h6, h7⟩

/-! ## The account of live bitmaps -/

lemma foldl_liveStep_fst (env : HwEnv) (calls : List HwCall)
    (acc : List HwCall × Option (Multiset Nat)) :
    (calls.foldl (liveStep env) acc).1 = acc.1 ++ calls := by
  induction calls generalizing acc with
  | nil => simp
  | cons c rest ih =>
    rw [List.foldl_cons, ih]
    simp [liveStep]

lemma liveBitmaps_append_one (env : HwEnv) (calls : List HwCall) (c : HwCall) :
    liveBitmaps env (calls ++ [c]) = (liveStep env (calls, liveBitmaps env calls) c).2 := by
  unfold liveBitmaps
  rw [List.foldl_append]
  simp only [List.foldl_cons, List.foldl_nil]
  have h1 := foldl_liveStep_fst env calls ([], some 0)
  simp only [List.nil_append] at h1
  simp only [liveStep, h1]

lemma liveBitmaps_append_neutral (env : HwEnv) (calls extra : List HwCall)
    (h : ∀ c ∈ extra, isNeutral c = true) :
    liveBitmaps env (calls ++ extra) = liveBitmaps env calls := by
  induction extra using List.reverseRecOn with
  | nil => simp
  | append_singleton rest c ih =>
    rw [← List.append_assoc, liveBitmaps_append_one]
    have hrest : ∀ c ∈ rest, isNeutral c = true := fun d hd => h d (by simp [hd])
    have hc : isNeutral c = true := h c (by simp)
    rw [ih hrest]
    simp only [liveStep]
    cases hl : liveBitmaps env calls with
    | none => rfl
    | some live =>
      cases c <;> simp [isNeutral] at hc ⊢

lemma liveBitmaps_append_alloc (env : HwEnv) (calls : List HwCall) (w h d : Int)
    (live : Multiset Nat) (hl : liveBitmaps env calls = some live) :
    liveBitmaps env (calls ++ [.AllocBitMapTags w h d]) =
      some (handle (env calls (.AllocBitMapTags w h d)) + live) := by
  rw [liveBitmaps_append_one, hl]
  rfl

lemma liveBitmaps_append_free (env : HwEnv) (calls : List HwCall) (b : BitMapPtr)
    (rest : Multiset Nat) (hb : b ≠ 0) (hl : liveBitmaps env calls = some (handle b + rest)) :
    liveBitmaps env (calls ++ [.FreeBitMap b]) = some rest := by
  rw [liveBitmaps_append_one, hl]
  simp only [liveStep, handle, hb, if_false]
  rw [Multiset.singleton_add]
  simp

lemma neutralExt_refl (s : State) : NeutralExt s s :=
  ⟨rfl, rfl, [], by simp, by simp⟩

lemma neutralExt_trans {s t u : State} (h1 : NeutralExt s t) (h2 : NeutralExt t u) :
    NeutralExt s u := by
  obtain ⟨a1, a2, e1, c1, n1⟩ := h1
  obtain ⟨b1, b2, e2, c2, n2⟩ := h2
  refine ⟨b1.trans a1, b2.trans a2, e1 ++ e2, by rw [c2, c1, List.append_assoc], ?_⟩
  intro c hc
  rw [List.mem_append] at hc
  rcases hc with hc | hc
  · exact n1 c hc
  · exact n2 c hc

lemma neutralExt_issue (env : HwEnv) (s : State) (c : HwCall) (hc : isNeutral c = true) :
    NeutralExt s (s.issue env c).2 :=
  ⟨rfl, rfl, [c], rfl, by simpa using hc⟩

lemma neutralExt_of_eq {s t : State} (hr : t.renderer = s.renderer) (hc : t.calls = s.calls) :
    NeutralExt s t :=
  ⟨by rw [hr], by rw [hr], [], by simpa using hc, by simp⟩

lemma liveMatches_of_neutralExt {env : HwEnv} {s t : State} (h : NeutralExt s t)
    (hs : LiveMatches env s) : LiveMatches env t := by
  obtain ⟨hb, hsc, extra, hcalls, hn⟩ := h
  unfold LiveMatches at *
  rw [hcalls, liveBitmaps_append_neutral env s.calls extra hn, hs, hb, hsc]

lemma targetRequest_some {s : State} {c : HwCall} (h : targetRequest s = some c) :
    s.renderer.driverdata.bitmap = 0 ∧ ∃ w h d : Int, c = .AllocBitMapTags w h d := by
  unfold targetRequest at h
  cases hw : s.renderer.window with
  | none => simp [hw] at h
  | some window =>
    simp only [hw] at h
    split_ifs at h with h0
    simp only [Option.some.injEq] at h
    exact ⟨h0.2, _, _, _, h.symm⟩

lemma liveMatches_activate {env : HwEnv} {s s1 : State} {bm : BitMapPtr}
    (hs : LiveMatches env s) (h : OS4_ActivateRenderer env s = some (bm, s1)) :
    LiveMatches env s1 := by
  obtain ⟨-, -, -, hcalls, hbit, hsol⟩ := activate_result h
  unfold LiveMatches at *
  rw [hcalls, hbit, hsol]
  have solidPart : ∀ (calls : List HwCall) (b : BitMapPtr),
      liveBitmaps env calls = some (handle b + handle s.renderer.driverdata.solidcolor) →
      liveBitmaps env (calls ++ (solidRequest s).toList) =
        some (handle b + handle (if s.renderer.driverdata.solidcolor = 0 then
          env calls (.AllocBitMapTags 1 1 32) else s.renderer.driverdata.solidcolor)) := by
    intro calls b hl
    unfold solidRequest
    by_cases hs0 : s.renderer.driverdata.solidcolor = 0
    · simp only [hs0, if_true, Option.toList]
      rw [liveBitmaps_append_alloc env calls 1 1 32 _ hl]
      simp [hs0, handle, add_comm]
    · simp only [hs0, if_false, Option.toList, List.append_nil]
      exact hl
  cases hreq : targetRequest s with
  | none =>
    simp only [Option.toList, List.append_nil]
    exact solidPart s.calls _ hs
  | some c =>
    obtain ⟨hb0, w, h2, d, hc⟩ := targetRequest_some hreq
    subst hc
    simp only [Option.toList]
    apply solidPart
    rw [liveBitmaps_append_alloc env s.calls w h2 d _ hs, hb0]
    simp [handle]

lemma neutralExt_foldl {α : Type} (f : State → α → State)
    (hf : ∀ (s : State) (a : α), NeutralExt s (f s a)) (l : List α) (s : State) :
    NeutralExt s (l.foldl f s) := by
  induction l generalizing s with
  | nil => exact neutralExt_refl s
  | cons a rest ih =>
    rw [List.foldl_cons]
    exact neutralExt_trans (hf s a) (ih (f s a))

lemma neutralExt_fillOpaqueStep (env : HwEnv) (color : Nat) (s : State) (R : SDL_Rect) :
    NeutralExt s (fillOpaqueStep env color s R) := by
  unfold fillOpaqueStep
  dsimp only
  rcases SDL_IntersectRect R s.renderer.driverdata.cliprect with ⟨b, clipped⟩
  cases b with
  | false => exact neutralExt_refl s
  | true => exact neutralExt_issue env s _ rfl

lemma neutralExt_fillBlendedStep (sdk : SDK) (env : HwEnv) (hints : Hints) (bitmap : BitMapPtr)
    (s : State) (R : SDL_Rect) :
    NeutralExt s (fillBlendedStep sdk env hints bitmap s R) := by
  obtain ⟨hr, hc⟩ := fillBlendedStep_fields sdk env hints bitmap s R
  exact ⟨by rw [hr], by rw [hr], _, hc, by simp [blendRequest, isNeutral]⟩

lemma neutralExt_setSolidColor (env : HwEnv) (s : State) (color : Nat) :
    NeutralExt s (OS4_SetSolidColor env s color).2 := by
  unfold OS4_SetSolidColor
  dsimp only
  split_ifs
  · exact neutralExt_trans
      (neutralExt_issue env s (.LockBitMapTags s.renderer.driverdata.solidcolor) rfl)
      (neutralExt_trans
        (neutralExt_issue env _ (.StoreUint32 s.renderer.driverdata.solidcolor color) rfl)
        (neutralExt_issue env _ (.UnlockBitMap s.renderer.driverdata.solidcolor) rfl))
  · exact neutralExt_issue env s (.LockBitMapTags s.renderer.driverdata.solidcolor) rfl
  · exact neutralExt_refl s

lemma neutralExt_fillRects {sdk : SDK} {env : HwEnv} {hints : Hints} {s s1 t : State}
    {bm : BitMapPtr} {rects : List SDL_FRect} {status : Int}
    (hact : OS4_ActivateRenderer env s = some (bm, s1))
    (h : OS4_RenderFillRects sdk env hints s rects = some (status, t)) : NeutralExt s1 t := by
  unfold OS4_RenderFillRects at h
  rw [hact] at h
  dsimp only at h
  split_ifs at h with h1 h2 h3
  · simp only [Option.some.injEq, Prod.mk.injEq] at h
    rw [← h.2]; exact neutralExt_refl s1
  · simp only [Option.some.injEq, Prod.mk.injEq] at h
    rw [← h.2]
    exact neutralExt_foldl _ (neutralExt_fillOpaqueStep env _) _ s1
  · simp only [Option.some.injEq, Prod.mk.injEq] at h
    rw [← h.2]; exact neutralExt_refl s1
  · have hsolid := neutralExt_setSolidColor env s1 (packColor s1.renderer)
    rcases hset : OS4_SetSolidColor env s1 (packColor s1.renderer) with ⟨ok, s2⟩
    rw [hset] at h hsolid
    cases ok with
    | false =>
      simp only [Option.some.injEq, Prod.mk.injEq] at h
      rw [← h.2]; exact hsolid
    | true =>
      simp only [Option.some.injEq, Prod.mk.injEq] at h
      rw [← h.2]
      exact neutralExt_trans hsolid
        (neutralExt_foldl _ (neutralExt_fillBlendedStep sdk env hints bm) _ s2)

lemma neutralExt_clear {env : HwEnv} {s s1 t : State} {bm : BitMapPtr} {status : Int}
    (hact : OS4_ActivateRenderer env s = some (bm, s1))
    (h : OS4_RenderClear env s = some (status, t)) : NeutralExt s1 t := by
  unfold OS4_RenderClear at h
  rw [hact] at h
  dsimp only at h
  split_ifs at h
  · simp only [Option.some.injEq, Prod.mk.injEq] at h
    rw [← h.2]; exact neutralExt_refl s1
  · cases hw : s1.renderer.window with
    | none => simp [hw] at h
    | some window =>
      simp only [hw, Option.some.injEq, Prod.mk.injEq] at h
      rw [← h.2]
      exact neutralExt_issue env s1 _ rfl

lemma neutralExt_copy {sdk : SDK} {env : HwEnv} {hints : Hints} {s s1 t : State}
    {bm : BitMapPtr} {texture : SDL_Texture} {srcrect : SDL_Rect} {dstrect : SDL_FRect}
    {status : Int} (hact : OS4_ActivateRenderer env s = some (bm, s1))
    (h : OS4_RenderCopy sdk env hints s texture srcrect dstrect = some (status, t)) :
    NeutralExt s1 t := by
  by_cases hbm : bm = 0
  · unfold OS4_RenderCopy at h
    rw [hact] at h
    simp only [hbm, if_true, Option.some.injEq, Prod.mk.injEq] at h
    rw [← h.2]; exact neutralExt_refl s1
  · obtain ⟨t2, h2, hr, hc⟩ :=
      renderCopy_result sdk env hints s s1 bm texture srcrect dstrect hact hbm
    rw [h2] at h
    simp only [Option.some.injEq, Prod.mk.injEq] at h
    rw [← h.2]
    exact ⟨by rw [hr], by rw [hr], _, hc, by simp [copyRequest, isNeutral]⟩

lemma neutralExt_copyEx {sdk : SDK} {env : HwEnv} {hints : Hints} {s s1 t : State}
    {bm : BitMapPtr} {texture : SDL_Texture} {srcrect : SDL_Rect} {dstrect : SDL_FRect}
    {angle : ℚ} {center : SDL_FPoint} {flip : SDL_RendererFlip}
    {status : Int} (hact : OS4_ActivateRenderer env s = some (bm, s1))
    (h : OS4_RenderCopyEx sdk env hints s texture srcrect dstrect angle center flip =
      some (status, t)) :
    NeutralExt s1 t := by
  by_cases hbm : bm = 0
  · unfold OS4_RenderCopyEx at h
    rw [hact] at h
    simp only [hbm, if_true, Option.some.injEq, Prod.mk.injEq] at h
    rw [← h.2]; exact neutralExt_refl s1
  · obtain ⟨t2, h2, hr, hc⟩ :=
      renderCopyEx_result sdk env hints s s1 bm texture srcrect dstrect angle center flip
        hact hbm
    rw [h2] at h
    simp only [Option.some.injEq, Prod.mk.injEq] at h
    rw [← h.2]
    exact ⟨by rw [hr], by rw [hr], _, hc, by simp [copyExRequest, isNeutral]⟩

lemma neutralExt_readPixels {env : HwEnv} {s s1 t : State} {bm : BitMapPtr}
    {rect : SDL_Rect} {format : Nat} {pitch : Int} {status : Int}
    (hact : OS4_ActivateRenderer env s = some (bm, s1))
    (h : OS4_RenderReadPixels env s rect format pitch = some (status, t)) :
    NeutralExt s1 t := by
  unfold OS4_RenderReadPixels at h
  rw [hact] at h
  dsimp only at h
  generalize adjustedRect s1.renderer.viewport rect = R at h
  cases hw : s1.renderer.window with
  | none =>
    simp only [hw] at h
    split_ifs at h <;>
      (simp only [Option.some.injEq, Prod.mk.injEq] at h
       rw [← h.2]
       exact neutralExt_refl s1)
  | some window =>
    simp only [hw] at h
    split_ifs at h <;>
      (simp only [Option.some.injEq, Prod.mk.injEq] at h
       rw [← h.2]
       first
         | exact neutralExt_refl s1
         | exact neutralExt_issue env s1 _ rfl)

lemma neutralExt_getOutputSize {env : HwEnv} {s s1 t : State} {bm : BitMapPtr}
    {wantW wantH : Bool} {out : OutputSize}
    (hact : OS4_ActivateRenderer env s = some (bm, s1))
    (h : OS4_GetOutputSize env s wantW wantH = some (out, t)) :
    NeutralExt s1 t := by
  unfold OS4_GetOutputSize at h
  rw [hact] at h
  by_cases hb : bm = 0
  · simp only [hb, ne_eq, not_true_eq_false, if_false, Option.some.injEq, Prod.mk.injEq] at h
    rw [← h.2]; exact neutralExt_refl s1
  · cases wantW <;> cases wantH <;>
      simp only [hb, ne_eq, not_false_eq_true, if_true, Bool.false_eq_true, if_false,
        Option.some.injEq, Prod.mk.injEq] at h <;>
      rw [← h.2]
    · exact neutralExt_refl s1
    · exact neutralExt_issue env s1 (.GetBitMapAttr bm .BMA_HEIGHT) rfl
    · exact neutralExt_issue env s1 (.GetBitMapAttr bm .BMA_WIDTH) rfl
    · exact neutralExt_trans (neutralExt_issue env s1 (.GetBitMapAttr bm .BMA_WIDTH) rfl)
        (neutralExt_issue env _ (.GetBitMapAttr bm .BMA_HEIGHT) rfl)

lemma neutralExt_present {env : HwEnv} {hints : Hints} {s s1 t : State} {bm : BitMapPtr}
    (hact : OS4_ActivateRenderer env s = some (bm, s1))
    (h : OS4_RenderPresent env hints s = some t) : NeutralExt s1 t := by
  unfold OS4_RenderPresent at h
  rw [hact] at h
  dsimp only at h
  cases hw : s.renderer.window with
  | none =>
    simp only [hw, Option.some.injEq] at h
    rw [← h]; exact neutralExt_refl s1
  | some window =>
    simp only [hw] at h
    split_ifs at h with hsrc hv
    · cases hsys : window.driverdata.syswin with
      | none =>
        simp only [hsys, Option.some.injEq] at h
        rw [← h]; exact neutralExt_refl s1
      | some syswin =>
        simp only [hsys, Option.some.injEq] at h
        rw [← h]
        exact neutralExt_trans (neutralExt_issue env s1 .WaitTOF rfl)
          (neutralExt_trans (neutralExt_issue env _ (.LockLayer syswin.WLayer) rfl)
            (neutralExt_trans
              (neutralExt_issue env _ (.BltBitMapTags bm syswin.RPort syswin.BorderLeft
                syswin.BorderTop window.w window.h) rfl)
              (neutralExt_issue env _ (.UnlockLayer syswin.WLayer) rfl)))
    · cases hsys : window.driverdata.syswin with
      | none =>
        simp only [hsys, Option.some.injEq] at h
        rw [← h]; exact neutralExt_refl s1
      | some syswin =>
        simp only [hsys, Option.some.injEq] at h
        rw [← h]
        exact neutralExt_trans (neutralExt_issue env s1 (.LockLayer syswin.WLayer) rfl)
          (neutralExt_trans
            (neutralExt_issue env _ (.BltBitMapTags bm syswin.RPort syswin.BorderLeft
              syswin.BorderTop window.w window.h) rfl)
            (neutralExt_issue env _ (.UnlockLayer syswin.WLayer) rfl))
    · simp only [Option.some.injEq] at h
      rw [← h]; exact neutralExt_refl s1

lemma liveMatches_windowEvent {env : HwEnv} {s : State} (event : SDL_WindowEvent)
    (hs : LiveMatches env s) : LiveMatches env (OS4_WindowEvent env s event) := by
  unfold OS4_WindowEvent
  dsimp only
  split_ifs with he hb
  · unfold LiveMatches at *
    simp only [State.issue, State.setData]
    rw [liveBitmaps_append_free env s.calls _ _ hb hs]
    simp [handle]
  · exact hs
  · exact hs

lemma neutralExt_updateViewport {s t : State} {r : Int}
    (h : OS4_UpdateViewport s = some (r, t)) : NeutralExt s t := by
  rw [updateViewport_eq] at h
  simp only [Option.some.injEq, Prod.mk.injEq] at h
  rw [← h.2]
  split_ifs
  · exact neutralExt_refl s
  · exact ⟨rfl, rfl, [], by simp [State.setData], by simp⟩

lemma neutralExt_updateClipRect {s t : State} {r : Int}
    (h : OS4_UpdateClipRect s = some (r, t)) : NeutralExt s t := by
  unfold OS4_UpdateClipRect at h
  dsimp only at h
  split_ifs at h
  · simp only [Option.some.injEq, Prod.mk.injEq] at h
    rw [← h.2]
    exact ⟨rfl, rfl, [], by simp [State.setData], by simp⟩
  · cases hw : s.renderer.window with
    | none => simp [hw] at h
    | some window =>
      simp only [hw, Option.some.injEq, Prod.mk.injEq] at h
      rw [← h.2]
      exact ⟨rfl, rfl, [], by simp [State.setData], by simp⟩
  · simp only [Option.some.injEq, Prod.mk.injEq] at h
    rw [← h.2]; exact neutralExt_refl s

lemma liveMatches_step {sdk : SDK} {env : HwEnv} {hints : Hints} {s t : State} {op : Op}
    (hs : LiveMatches env s) (h : step sdk env hints s op = some t) : LiveMatches env t := by
  cases op with
  | clear =>
    simp only [step, Option.map_eq_some', Prod.exists, exists_eq_right] at h
    obtain ⟨status, h⟩ := h
    obtain ⟨bm, s1, hact⟩ := activate_total env s
    exact liveMatches_of_neutralExt (neutralExt_clear hact h) (liveMatches_activate hs hact)
  | fillRects rects =>
    simp only [step, Option.map_eq_some', Prod.exists, exists_eq_right] at h
    obtain ⟨status, h⟩ := h
    obtain ⟨bm, s1, hact⟩ := activate_total env s
    exact liveMatches_of_neutralExt (neutralExt_fillRects hact h) (liveMatches_activate hs hact)
  | copy texture srcrect dstrect =>
    simp only [step, Option.map_eq_some', Prod.exists, exists_eq_right] at h
    obtain ⟨status, h⟩ := h
    obtain ⟨bm, s1, hact⟩ := activate_total env s
    exact liveMatches_of_neutralExt (neutralExt_copy hact h) (liveMatches_activate hs hact)
  | copyEx texture srcrect dstrect angle center flip =>
    simp only [step, Option.map_eq_some', Prod.exists, exists_eq_right] at h
    obtain ⟨status, h⟩ := h
    obtain ⟨bm, s1, hact⟩ := activate_total env s
    exact liveMatches_of_neutralExt (neutralExt_copyEx hact h) (liveMatches_activate hs hact)
  | readPixels rect format pitch =>
    simp only [step, Option.map_eq_some', Prod.exists, exists_eq_right] at h
    obtain ⟨status, h⟩ := h
    obtain ⟨bm, s1, hact⟩ := activate_total env s
    exact liveMatches_of_neutralExt (neutralExt_readPixels hact h) (liveMatches_activate hs hact)
  | getOutputSize wantW wantH =>
    simp only [step, Option.map_eq_some', Prod.exists, exists_eq_right] at h
    obtain ⟨out, h⟩ := h
    obtain ⟨bm, s1, hact⟩ := activate_total env s
    exact liveMatches_of_neutralExt (neutralExt_getOutputSize hact h)
      (liveMatches_activate hs hact)
  | windowEvent event =>
    simp only [step, Option.some.injEq] at h
    rw [← h]
    exact liveMatches_windowEvent event hs
  | updateViewport =>
    simp only [step, Option.map_eq_some', Prod.exists, exists_eq_right] at h
    obtain ⟨r, h⟩ := h
    exact liveMatches_of_neutralExt (neutralExt_updateViewport h) hs
  | updateClipRect =>
    simp only [step, Option.map_eq_some', Prod.exists, exists_eq_right] at h
    obtain ⟨r, h⟩ := h
    exact liveMatches_of_neutralExt (neutralExt_updateClipRect h) hs
  | present =>
    simp only [step] at h
    obtain ⟨bm, s1, hact⟩ := activate_total env s
    exact liveMatches_of_neutralExt (neutralExt_present hact h) (liveMatches_activate hs hact)
  | settings r =>
    simp only [step, Option.some.injEq] at h
    rw [← h]
    exact hs

lemma liveMatches_run {sdk : SDK} {env : HwEnv} {hints : Hints} (ops : List Op) {s t : State}
    (hs : LiveMatches env s) (h : run sdk env hints s ops = some t) : LiveMatches env t := by
  induction ops generalizing s with
  | nil =>
    simp only [run, Option.some.injEq] at h
    rw [← h]; exact hs
  | cons op rest ih =>
    simp only [run] at h
    cases hstep : step sdk env hints s op with
    | none => simp [hstep] at h
    | some u =>
      simp only [hstep] at h
      exact ih (liveMatches_step hs hstep) h

lemma liveMatches_created {env : HwEnv} {s0 : State}
    (h : OS4_CreateRenderer env true true = some (some s0)) : LiveMatches env s0 := by
  unfold OS4_CreateRenderer at h
  simp only [Bool.not_true, Bool.false_eq_true, if_false, Option.some.injEq] at h
  rw [← h]
  unfold LiveMatches
  simp only [State.issue, zeroedRenderer, List.nil_append]
  rw [show ([HwCall.InitRastPort] : List HwCall) = [] ++ [HwCall.InitRastPort] from rfl,
    liveBitmaps_append_neutral env [] [HwCall.InitRastPort] (by simp [isNeutral])]
  simp [liveBitmaps, handle]

lemma destroy_frees_all {env : HwEnv} {s : State} (hs : LiveMatches env s) :
    ∃ t : State, OS4_DestroyRenderer env s (some s.renderer.driverdata) = some t ∧
      liveBitmaps env t.calls = some 0 ∧
      t.renderer.driverdata.bitmap = 0 ∧ t.renderer.driverdata.solidcolor = 0 := by
  unfold OS4_DestroyRenderer
  refine ⟨_, rfl, ?_, ?_, ?_⟩
  · unfold LiveMatches at hs
    dsimp only
    by_cases hb : s.renderer.driverdata.bitmap = 0
    · by_cases hc : s.renderer.driverdata.solidcolor = 0
      · simp [hb, hc, State.setData, handle] at hs ⊢
        exact hs
      · simp only [hb, ne_eq, not_true_eq_false, if_false, State.setData, hc, not_false_eq_true,
          if_true, State.issue]
        rw [hb] at hs
        have := liveBitmaps_append_free env s.calls _ 0 hc (by simpa [handle, hb] using hs)
        exact this
    · by_cases hc : s.renderer.driverdata.solidcolor = 0
      · simp only [hb, ne_eq, not_false_eq_true, if_true, State.setData, State.issue, hc,
          not_true_eq_false, if_false]
        exact liveBitmaps_append_free env s.calls _ 0 hb (by simpa [handle, hc] using hs)
      · simp only [hb, ne_eq, not_false_eq_true, if_true, State.setData, State.issue, hc]
        have h1 := liveBitmaps_append_free env s.calls _ _ hb hs
        have h2 := liveBitmaps_append_free env _ _ 0 hc (by simpa using h1)
        simpa using h2
  · dsimp only
    split_ifs <;> simp_all [State.setData, State.issue]
  · dsimp only
    split_ifs <;> simp_all [State.setData, State.issue]

lemma create_sample : OS4_CreateRenderer envFresh true true = some (some stateCreated) := by
  rfl

lemma run_sample :
    run sdkSample envFresh hintsSample stateCreated opsSample =
      some ((run sdkSample envFresh hintsSample stateCreated opsSample).getD stateCreated) := by
  rfl

/-- C17: in every state reached from a created renderer by a sequence of operations (the
drawing entry points, output-size queries, window events, viewport and clip updates,
present, and the caller changing the fields it owns), the bitmaps allocated and not yet
freed are exactly the stored render-target bitmap and the solid-colour bitmap, each when
non-null, and no bitmap was ever freed that was not live; so the live bitmaps other than the
solid-colour one number at most one, and one exactly when the stored bitmap is non-null; an
activation in a state with a stored bitmap makes no render-target request; and
`OS4_DestroyRenderer` then leaves no bitmap live. -/
theorem liveBitmaps_invariant (sdk : SDK) (env : HwEnv) (hints : Hints) (s0 s : State)
    (ops : List Op)
    (hcreate : OS4_CreateRenderer env true true = some (some s0))
    (hrun : run sdk env hints s0 ops = some s) :
    liveBitmaps env s.calls =
      some (handle s.renderer.driverdata.bitmap + handle s.renderer.driverdata.solidcolor) ∧
    (∃ live : Multiset Nat, liveBitmaps env s.calls = some live ∧
      Multiset.card (live - handle s.renderer.driverdata.solidcolor) ≤ 1 ∧
      (Multiset.card (live - handle s.renderer.driverdata.solidcolor) = 1 ↔
        s.renderer.driverdata.bitmap ≠ 0)) ∧
    (∀ (bm : BitMapPtr) (s1 : State), s.renderer.driverdata.bitmap ≠ 0 →
      OS4_ActivateRenderer env s = some (bm, s1) →
      s1.calls = s.calls ++ (solidRequest s).toList ∧
      s1.renderer.driverdata.bitmap = s.renderer.driverdata.bitmap) ∧
    (∃ t : State, OS4_DestroyRenderer env s (some s.renderer.driverdata) = some t ∧
      liveBitmaps env t.calls = some 0) := by
  have hinv : LiveMatches env s := liveMatches_run ops (liveMatches_created hcreate) hrun
  refine ⟨hinv, ⟨_, hinv, ?_, ?_⟩, ?_, ?_⟩
  · rw [add_tsub_cancel_right]
    unfold handle
    split_ifs <;> simp
  · rw [add_tsub_cancel_right]
    unfold handle
    split_ifs with h <;> simp [h]
  · intro bm s1 hb hact
    obtain ⟨-, -, -, hcalls, hbit, -⟩ := activate_result hact
    have hreq : targetRequest s = none := by
      unfold targetRequest
      cases s.renderer.window with
      | none => rfl
      | some window => simp [hb]
    rw [hreq] at hcalls hbit
    exact ⟨by simpa using hcalls, hbit⟩
  · obtain ⟨t, ht, hl, -⟩ := destroy_frees_all hinv
    exact ⟨t, ht, hl⟩

/-- Witness of C17: a created renderer, a window bound, then a clear, a size-changed event,
an output-size query and a present, under an environment whose allocations succeed. -/
theorem liveBitmaps_invariant_witness :
    (OS4_CreateRenderer envFresh true true = some (some stateCreated) ∧
      run sdkSample envFresh hintsSample stateCreated opsSample =
        some ((run sdkSample envFresh hintsSample stateCreated opsSample).getD stateCreated)) ∧
    liveBitmaps envFresh
        ((run sdkSample envFresh hintsSample stateCreated opsSample).getD stateCreated).calls =
      some (handle ((run sdkSample envFresh hintsSample stateCreated opsSample).getD
          stateCreated).renderer.driverdata.bitmap +
        handle ((run sdkSample envFresh hintsSample stateCreated opsSample).getD
          stateCreated).renderer.driverdata.solidcolor) :=
  ⟨⟨create_sample, run_sample⟩,
    (liveBitmaps_invariant sdkSample envFresh hintsSample stateCreated _ opsSample
      create_sample run_sample).1⟩

/-! ## Present -/

lemma renderPresent_eq {env : HwEnv} {s s1 : State} {source : BitMapPtr} (hints : Hints)
    (hact : OS4_ActivateRenderer env s = some (source, s1)) :
    OS4_RenderPresent env hints s =
      some (match s.renderer.window with
        | none => s1
        | some window =>
          if source = 0 then s1
          else
            match window.driverdata.syswin with
            | none => s1
            | some syswin =>
              { s1 with calls := s1.calls ++ presentCalls hints source window syswin }) := by
  unfold OS4_RenderPresent
  rw [hact]
  dsimp only
  cases hw : s.renderer.window with
  | none => rfl
  | some window =>
    dsimp only
    by_cases hsrc : source = 0
    · simp [hsrc]
    · rw [if_pos hsrc, if_neg hsrc]
      cases hsys : window.driverdata.syswin with
      | none => rfl
      | some syswin =>
        dsimp only
        unfold presentCalls
        cases hv : OS4_IsVsyncEnabled hints <;> simp [State.issue]

lemma activate_statePresent :
    OS4_ActivateRenderer envSample statePresent = some (1, statePresent) := by
  rfl

lemma layerCalls_allocs {extra : List HwCall}
    (h : ∀ c ∈ extra, ∃ w h d : Int, c = .AllocBitMapTags w h d) : layerCalls extra = [] := by
  unfold layerCalls
  rw [List.filter_eq_nil_iff]
  intro c hc
  obtain ⟨w, hh, d, rfl⟩ := h c hc
  simp [isLayerCall]

lemma heldLayers_append (a b : List HwCall) :
    heldLayers (a ++ b) = b.foldl heldStep (heldLayers a) := by
  unfold heldLayers
  rw [List.foldl_append]

lemma heldStep_allocs {extra : List HwCall}
    (h : ∀ c ∈ extra, ∃ w h d : Int, c = .AllocBitMapTags w h d) (held : Multiset Nat) :
    extra.foldl heldStep held = held := by
  induction extra generalizing held with
  | nil => rfl
  | cons c rest ih =>
    obtain ⟨w, hh, d, rfl⟩ := h c (List.mem_cons_self _ _)
    rw [List.foldl_cons]
    exact ih (fun c hc => h c (List.mem_cons_of_mem _ hc)) _

lemma heldStep_presentCalls (hints : Hints) (source : BitMapPtr) (window : SDL_Window)
    (syswin : Window) (held : Multiset Nat) :
    (presentCalls hints source window syswin).foldl heldStep held = held := by
  unfold presentCalls
  cases OS4_IsVsyncEnabled hints <;> simp [heldStep]

lemma layerCalls_presentCalls (hints : Hints) (source : BitMapPtr) (window : SDL_Window)
    (syswin : Window) :
    layerCalls (presentCalls hints source window syswin) =
      [ .LockLayer syswin.WLayer,
        .BltBitMapTags source syswin.RPort syswin.BorderLeft syswin.BorderTop window.w window.h,
        .UnlockLayer syswin.WLayer ] := by
  unfold presentCalls layerCalls
  cases OS4_IsVsyncEnabled hints <;> simp [isLayerCall]

/-- C21: every execution of `OS4_RenderPresent` returns. When the window, the target bitmap
or the native window is missing, the state is the one the activation left, whose calls are
allocation requests only: no lock, no unlock, no blit. Otherwise the calls that lock, unlock
or blit are exactly one `LockLayer`, one `BltBitMapTags` of the target of size
`(window.w, window.h)` to the raster port of the window at `(BorderLeft, BorderTop)`, and
one `UnlockLayer` of the same layer, in this order and for every environment, so whatever
the blit returns. In both cases the layers held after the call are those held before. -/
theorem renderPresent_lock_discipline (env : HwEnv) (hints : Hints) (s : State) :
    ∃ (source : BitMapPtr) (s1 t : State),
      OS4_ActivateRenderer env s = some (source, s1) ∧
      OS4_RenderPresent env hints s = some t ∧
      t.renderer = s1.renderer ∧
      (∃ extra : List HwCall, s1.calls = s.calls ++ extra ∧
        ∀ c ∈ extra, ∃ w h d : Int, c = .AllocBitMapTags w h d) ∧
      ((s.renderer.window = none ∨ source = 0 ∨
          ∃ window : SDL_Window, s.renderer.window = some window ∧
            window.driverdata.syswin = none) →
        t = s1 ∧ layerCalls (t.calls.drop s.calls.length) = []) ∧
      (∀ (window : SDL_Window) (syswin : Window),
        s.renderer.window = some window → source ≠ 0 →
        window.driverdata.syswin = some syswin →
        t.calls = s1.calls ++ presentCalls hints source window syswin ∧
        layerCalls (t.calls.drop s.calls.length) =
          [ .LockLayer syswin.WLayer,
            .BltBitMapTags source syswin.RPort syswin.BorderLeft syswin.BorderTop
              window.w window.h,
            .UnlockLayer syswin.WLayer ]) ∧
      heldLayers t.calls = heldLayers s.calls := by
  obtain ⟨source, s1, hact⟩ := activate_total env s
  obtain ⟨extra, hextra, hallocs⟩ := activate_calls_are_allocs hact
  have hdrop : s1.calls.drop s.calls.length = extra := by
    rw [hextra, List.drop_left]
  have hheld : heldLayers s1.calls = heldLayers s.calls := by
    rw [hextra, heldLayers_append, heldStep_allocs hallocs]
  refine ⟨source, s1, _, hact, renderPresent_eq hints hact, ?_, ⟨extra, hextra, hallocs⟩,
    ?_, ?_, ?_⟩
  · cases hw : s.renderer.window with
    | none => rfl
    | some window =>
      dsimp only
      split_ifs
      · rfl
      · cases hsys : window.driverdata.syswin <;> rfl
  · intro hmiss
    have ht : (match s.renderer.window with
        | none => s1
        | some window =>
          if source = 0 then s1
          else
            match window.driverdata.syswin with
            | none => s1
            | some syswin =>
              { s1 with calls := s1.calls ++ presentCalls hints source window syswin }) = s1 := by
      rcases hmiss with hw | hsrc | ⟨window, hw, hsys⟩
      · rw [hw]
      · cases hw : s.renderer.window with
        | none => rfl
        | some window => simp [hsrc]
      · rw [hw]
        dsimp only
        split_ifs
        · rfl
        · rw [hsys]
    rw [ht, hdrop]
    exact ⟨rfl, layerCalls_allocs hallocs⟩
  · intro window syswin hw hsrc hsys
    rw [hw]
    dsimp only
    rw [if_neg hsrc, hsys]
    dsimp only
    refine ⟨rfl, ?_⟩
    rw [hextra, List.append_assoc, List.drop_left]
    unfold layerCalls
    rw [List.filter_append]
    have h1 := layerCalls_allocs hallocs
    have h2 := layerCalls_presentCalls hints source window syswin
    unfold layerCalls at h1 h2
    rw [h1, h2, List.nil_append]
  · cases hw : s.renderer.window with
    | none => exact hheld
    | some window =>
      dsimp only
      split_ifs
      · exact hheld
      · cases hsys : window.driverdata.syswin with
        | none => exact hheld
        | some syswin =>
          dsimp only
          rw [heldLayers_append, heldStep_presentCalls, hheld]

/-- C26 as stated fails: with a window, a target bitmap, a native window and the vsync hint
"1", `OS4_RenderPresent` issues the wait for the vertical blank first and locks the layer
after it; the calls are not lock, wait, blit, unlock. -/
theorem renderPresent_vsync_order_counterexample :
    (statePresent.renderer.window =
        some { w := 640, h := 480, driverdata := { syswin := some syswinSample } } ∧
      statePresent.renderer.driverdata.bitmap ≠ 0 ∧ OS4_IsVsyncEnabled hintsVsync = true) ∧
    OS4_RenderPresent envSample hintsVsync statePresent =
      some { statePresent with
        calls :=
          [ .WaitTOF, .LockLayer 7, .BltBitMapTags 1 9 4 20 640 480, .UnlockLayer 7 ] } ∧
    OS4_RenderPresent envSample hintsVsync statePresent ≠
      some { statePresent with
        calls :=
          [ .LockLayer 7, .WaitTOF, .BltBitMapTags 1 9 4 20 640 480, .UnlockLayer 7 ] } := by
  refine ⟨⟨rfl, by decide, by decide⟩, by decide, by decide⟩

lemma isVsyncEnabled_iff (hints : Hints) :
    OS4_IsVsyncEnabled hints = true ↔
      ∃ (hint : String) (rest : List Char),
        hints.SDL_HINT_RENDER_VSYNC = some hint ∧ hint.toList = '1' :: rest := by
  unfold OS4_IsVsyncEnabled
  cases hh : hints.SDL_HINT_RENDER_VSYNC with
  | none => simp
  | some hint =>
    obtain ⟨data⟩ := hint
    cases data with
    | nil => simp
    | cons c rest =>
      by_cases hc : c = '1'
      · subst hc; simp
      · simp [hc]

/-- C26, amended: when a window, a target bitmap and a native window exist and the vsync
hint is enabled, which is when it is set and starts with the character 1, the calls that
`OS4_RenderPresent` adds to those of the activation are, in this order: the wait for the
vertical blank, the lock of the window layer, the blit, the unlock of the layer; the wait
comes before the lock. When the hint is not enabled the calls are lock, blit, unlock, and no
wait is issued by the call. -/
theorem renderPresent_vsync_order (env : HwEnv) (hints : Hints) (s s1 : State)
    (source : BitMapPtr) (window : SDL_Window) (syswin : Window)
    (hact : OS4_ActivateRenderer env s = some (source, s1))
    (hw : s.renderer.window = some window) (hsrc : source ≠ 0)
    (hsys : window.driverdata.syswin = some syswin) :
    (OS4_IsVsyncEnabled hints = true ↔
      ∃ (hint : String) (rest : List Char),
        hints.SDL_HINT_RENDER_VSYNC = some hint ∧ hint.toList = '1' :: rest) ∧
    (OS4_IsVsyncEnabled hints = true →
      OS4_RenderPresent env hints s =
        some { s1 with
          calls := s1.calls ++
            [ .WaitTOF, .LockLayer syswin.WLayer,
              .BltBitMapTags source syswin.RPort syswin.BorderLeft syswin.BorderTop
                window.w window.h,
              .UnlockLayer syswin.WLayer ] }) ∧
    (OS4_IsVsyncEnabled hints = false →
      ∃ t : State, OS4_RenderPresent env hints s = some t ∧
        t.calls = s1.calls ++
            [ .LockLayer syswin.WLayer,
              .BltBitMapTags source syswin.RPort syswin.BorderLeft syswin.BorderTop
                window.w window.h,
              .UnlockLayer syswin.WLayer ] ∧
        HwCall.WaitTOF ∉ t.calls.drop s.calls.length) := by
  have hp := renderPresent_eq hints hact
  rw [hw] at hp
  dsimp only at hp
  rw [if_neg hsrc, hsys] at hp
  dsimp only at hp
  refine ⟨isVsyncEnabled_iff hints, ?_, ?_⟩
  · intro hv
    rw [hp]
    unfold presentCalls
    rw [hv]
    rfl
  · intro hv
    obtain ⟨extra, hextra, hallocs⟩ := activate_calls_are_allocs hact
    refine ⟨_, hp, ?_, ?_⟩
    · unfold presentCalls
      rw [hv]
      rfl
    · unfold presentCalls
      rw [hv]
      dsimp only
      rw [hextra, List.append_assoc, List.drop_left]
      intro hmem
      rw [List.mem_append] at hmem
      rcases hmem with hmem | hmem
      · obtain ⟨w, hh, d, hc⟩ := hallocs _ hmem
        cases hc
      · simp at hmem

/-- Witness of C26: the present of `statePresent` under the vsync hint "1". -/
theorem renderPresent_vsync_order_witness :
    (OS4_ActivateRenderer envSample statePresent = some (1, statePresent) ∧
      statePresent.renderer.window =
        some { w := 640, h := 480, driverdata := { syswin := some syswinSample } } ∧
      (1 : BitMapPtr) ≠ 0 ∧ OS4_IsVsyncEnabled hintsVsync = true) ∧
    OS4_RenderPresent envSample hintsVsync statePresent =
      some { statePresent with
        calls := statePresent.calls ++
          [ .WaitTOF, .LockLayer syswinSample.WLayer,
            .BltBitMapTags 1 syswinSample.RPort syswinSample.BorderLeft syswinSample.BorderTop
              640 480,
            .UnlockLayer syswinSample.WLayer ] } :=
  ⟨⟨activate_statePresent, rfl, by decide, by decide⟩,
    (renderPresent_vsync_order envSample hintsVsync statePresent statePresent 1
      { w := 640, h := 480, driverdata := { syswin := some syswinSample } } syswinSample
      activate_statePresent rfl (by decide) rfl).2.1 (by decide)⟩

/-! ## Scale quality -/

/-- C22 as stated fails: the hint "01" is neither the string "0" nor the word "nearest" in
any case, and `OS4_GetScaleQuality` returns 0 for it: only the first character is compared
to the digit 0. -/
theorem getScaleQuality_counterexample :
    OS4_GetScaleQuality hintsScale01 = 0 ∧
    hintsScale01.SDL_HINT_RENDER_SCALE_QUALITY = some "01" ∧
    ("01" : String) ≠ "0" ∧ strcasecmpEq "01" "nearest" = false := by
  decide

/-- C22, amended: `OS4_GetScaleQuality` returns 0 exactly when the scale-quality hint is
absent, starts with the character 0, or is the word "nearest" up to the case of its letters;
for every other hint it returns 1. So it returns 0 for "0", "nearest" and "NEAREST", and 1
for "1", "2", "linear", "best" and the empty string. -/
theorem getScaleQuality_spec (hints : Hints) :
    (OS4_GetScaleQuality hints = 0 ↔
      (hints.SDL_HINT_RENDER_SCALE_QUALITY = none ∨
        ∃ hint : String, hints.SDL_HINT_RENDER_SCALE_QUALITY = some hint ∧
          ((∃ rest : List Char, hint.toList = '0' :: rest) ∨
            hint.toList.map Char.toLower = ['n', 'e', 'a', 'r', 'e', 's', 't']))) ∧
    (OS4_GetScaleQuality hints ≠ 0 → OS4_GetScaleQuality hints = 1) ∧
    (∀ hint ∈ ["0", "nearest", "NEAREST", "Nearest"],
      OS4_GetScaleQuality { hints with SDL_HINT_RENDER_SCALE_QUALITY := some hint } = 0) ∧
    (∀ hint ∈ ["1", "2", "linear", "best", ""],
      OS4_GetScaleQuality { hints with SDL_HINT_RENDER_SCALE_QUALITY := some hint } = 1) := by
  refine ⟨?_, ?_, ?_, ?_⟩
  · unfold OS4_GetScaleQuality
    cases hh : hints.SDL_HINT_RENDER_SCALE_QUALITY with
    | none => simp
    | some hint =>
      have hn : strcasecmpEq hint "nearest" = true ↔
          hint.toList.map Char.toLower = ['n', 'e', 'a', 'r', 'e', 's', 't'] := by
        unfold strcasecmpEq
        rw [beq_iff_eq]
        have : ("nearest" : String).toList.map Char.toLower =
            ['n', 'e', 'a', 'r', 'e', 's', 't'] := by decide
        rw [this]
      have h0 : hint.toList.head? = some '0' ↔ ∃ rest : List Char, hint.toList = '0' :: rest := by
        cases hint.toList with
        | nil => simp
        | cons c rest => simp
      simp only [Option.some.injEq, false_or, exists_eq_left']
      split_ifs with hc
      · simp only [Bool.or_eq_true, decide_eq_true_eq] at hc
        rw [h0, hn] at hc
        exact ⟨fun _ => Or.inr hc, fun _ => rfl⟩
      · simp only [Bool.or_eq_true, decide_eq_true_eq] at hc
        rw [h0, hn] at hc
        exact ⟨fun h => absurd h (by decide), fun h => absurd (h.resolve_left id) hc⟩
  · unfold OS4_GetScaleQuality
    cases hints.SDL_HINT_RENDER_SCALE_QUALITY with
    | none => simp
    | some hint =>
      dsimp only
      split_ifs <;> simp
  · intro hint hmem
    simp only [List.mem_cons, List.mem_singleton, List.not_mem_nil, or_false] at hmem
    rcases hmem with rfl | rfl | rfl | rfl <;> rfl
  · intro hint hmem
    simp only [List.mem_cons, List.mem_singleton, List.not_mem_nil, or_false] at hmem
    rcases hmem with rfl | rfl | rfl | rfl | rfl <;> rfl

/-! ## Rotation -/

lemma rotate_close (x y cx cy sina cosa eps : ℚ) (hs : |sina| ≤ eps) (hc : |cosa - 1| ≤ eps) :
    |((x - cx) * cosa - (y - cy) * sina + cx) - x| ≤ eps * (|x - cx| + |y - cy|) ∧
    |((x - cx) * sina + (y - cy) * cosa + cy) - y| ≤ eps * (|x - cx| + |y - cy|) := by
  have hx := abs_nonneg (x - cx)
  have hy := abs_nonneg (y - cy)
  have e1 : ((x - cx) * cosa - (y - cy) * sina + cx) - x =
      (x - cx) * (cosa - 1) - (y - cy) * sina := by ring
  have e2 : ((x - cx) * sina + (y - cy) * cosa + cy) - y =
      (x - cx) * sina + (y - cy) * (cosa - 1) := by ring
  have m1 : |(x - cx) * (cosa - 1)| ≤ |x - cx| * eps := by
    rw [abs_mul]; exact mul_le_mul_of_nonneg_left hc hx
  have m2 : |(y - cy) * sina| ≤ |y - cy| * eps := by
    rw [abs_mul]; exact mul_le_mul_of_nonneg_left hs hy
  have m3 : |(x - cx) * sina| ≤ |x - cx| * eps := by
    rw [abs_mul]; exact mul_le_mul_of_nonneg_left hs hx
  have m4 : |(y - cy) * (cosa - 1)| ≤ |y - cy| * eps := by
    rw [abs_mul]; exact mul_le_mul_of_nonneg_left hc hy
  constructor
  · rw [e1]
    calc |(x - cx) * (cosa - 1) - (y - cy) * sina|
        ≤ |(x - cx) * (cosa - 1)| + |(y - cy) * sina| := abs_sub _ _
      _ ≤ |x - cx| * eps + |y - cy| * eps := add_le_add m1 m2
      _ = eps * (|x - cx| + |y - cy|) := by ring
  · rw [e2]
    calc |(x - cx) * sina + (y - cy) * (cosa - 1)|
        ≤ |(x - cx) * sina| + |(y - cy) * (cosa - 1)| := abs_add _ _
      _ ≤ |x - cx| * eps + |y - cy| * eps := add_le_add m3 m4
      _ = eps * (|x - cx| + |y - cy|) := by ring

/-- C23: with angle 0 `OS4_FillVertexData` executes no rotation and the positions are the
corners of the destination rectangle. With angle 360 the positions are those of angle 0
when sine and cosine of the full turn are exactly 0 and 1, for every destination rectangle
and centre; and when they are within `eps` of 0 and 1, as rounded values are, every position
is within `eps` times the distance of the corner from the centre of the corner it has with
angle 0. -/
theorem fillVertexData_full_turn (sdk : SDK) (srcrect dstrect : SDL_Rect) (center : SDL_FPoint)
    (flip : SDL_RendererFlip) :
    positions (OS4_FillVertexData sdk srcrect dstrect 0 center flip) = unrotatedCorners dstrect ∧
    (sdk.SDL_sinf (radians sdk 360) = 0 → sdk.SDL_cosf (radians sdk 360) = 1 →
      positions (OS4_FillVertexData sdk srcrect dstrect 360 center flip) =
        positions (OS4_FillVertexData sdk srcrect dstrect 0 center flip)) ∧
    (∀ eps : ℚ, |sdk.SDL_sinf (radians sdk 360)| ≤ eps →
      |sdk.SDL_cosf (radians sdk 360) - 1| ≤ eps →
      List.Forall₂ (CloseTo eps center)
        (positions (OS4_FillVertexData sdk srcrect dstrect 360 center flip))
        (positions (OS4_FillVertexData sdk srcrect dstrect 0 center flip))) := by
  have h360 : (360 : ℚ) ≠ 0 := by norm_num
  refine ⟨?_, ?_, ?_⟩
  · simp [OS4_FillVertexData, positions, unrotatedCorners]
  · intro hs hc
    unfold radians at hs hc
    simp only [OS4_FillVertexData, OS4_RotateVertices, positions, h360, hs, hc, ne_eq,
      not_false_eq_true, if_true, not_true_eq_false, if_false, List.map_cons, List.map_nil]
    simp
  · intro eps hs hc
    unfold radians at hs hc
    simp only [OS4_FillVertexData, OS4_RotateVertices, positions, h360, ne_eq,
      not_false_eq_true, if_true, not_true_eq_false, if_false, List.map_cons, List.map_nil,
      List.forall₂_cons, List.forall₂_nil_left_iff, and_true, CloseTo]
    refine ⟨?_, ?_, ?_, ?_⟩ <;> exact rotate_close _ _ _ _ _ _ _ hs hc

/-- Witness of C23: under `sdkTurns`, whose sine and cosine of the full turn are 0 and 1,
the quad over `(10, 20, 64, 48)` turned by 360 degrees about `(3, 4)` has the positions of
the quad that is not turned. -/
theorem fillVertexData_full_turn_witness :
    (sdkTurns.SDL_sinf (radians sdkTurns 360) = 0 ∧
      sdkTurns.SDL_cosf (radians sdkTurns 360) = 1) ∧
    positions (OS4_FillVertexData sdkTurns ⟨0, 0, 64, 48⟩ ⟨10, 20, 64, 48⟩ 360 ⟨3, 4⟩
        SDL_FLIP_NONE) =
      positions (OS4_FillVertexData sdkTurns ⟨0, 0, 64, 48⟩ ⟨10, 20, 64, 48⟩ 0 ⟨3, 4⟩
        SDL_FLIP_NONE) :=
  ⟨⟨by norm_num [sdkTurns, sdkSample, radians], by norm_num [sdkTurns, sdkSample, radians]⟩,
    (fillVertexData_full_turn sdkTurns ⟨0, 0, 64, 48⟩ ⟨10, 20, 64, 48⟩ ⟨3, 4⟩
      SDL_FLIP_NONE).2.1 (by norm_num [sdkTurns, sdkSample, radians])
      (by norm_num [sdkTurns, sdkSample, radians])⟩

/-- C24: for every angle and centre the texture coordinates and the weights of the four
vertices that `OS4_FillVertexData` writes are those it writes with angle 0 (and any centre)
for the same rectangles and flip, and every weight is 1: the rotation changes positions
only. -/
theorem fillVertexData_rotation_frame (sdk : SDK) (srcrect dstrect : SDL_Rect) (angle : ℚ)
    (center center0 : SDL_FPoint) (flip : SDL_RendererFlip) :
    texCoords (OS4_FillVertexData sdk srcrect dstrect angle center flip) =
      texCoords (OS4_FillVertexData sdk srcrect dstrect 0 center0 flip) ∧
    (OS4_FillVertexData sdk srcrect dstrect angle center flip).map (fun v => v.w) =
      (OS4_FillVertexData sdk srcrect dstrect 0 center0 flip).map (fun v => v.w) ∧
    (OS4_FillVertexData sdk srcrect dstrect angle center flip).map (fun v => v.w) =
      [1, 1, 1, 1] := by
  by_cases h : angle = 0
  · subst h
    simp [OS4_FillVertexData, texCoords]
  · simp [OS4_FillVertexData, OS4_RotateVertices, texCoords, h]

lemma finalRect_stateSample :
    finalRect stateSample.renderer.viewport ⟨0, 0, 64, 48⟩ = ⟨10, 20, 64, 48⟩ := by
  simp [finalRect, stateSample, truncToInt]

/-- C25, the code at the failing input: under the viewport offset `(10, 20)` of
`stateSample`, `OS4_RenderCopyEx` of the destination rectangle `(0, 0, 64, 48)` with centre
`(0, 0)` and angle 90 builds the quad over `(10, 20, 64, 48)` and hands the centre `(0, 0)`
to the quad builder, not the top-left corner `(10, 20)` of that rectangle: the viewport
offset is added to the rectangle and not to the centre. The top-left vertex goes to
`(-20, 10)`; with the centre `(10, 20)` it would stay at `(10, 20)`. -/
theorem renderCopyEx_center_misses_viewport :
    OS4_RenderCopyEx sdkTurns envSample hintsSample stateSample textureSample ⟨0, 0, 64, 48⟩
        ⟨0, 0, 64, 48⟩ 90 ⟨0, 0⟩ SDL_FLIP_NONE =
      some (0, { stateSample with
        calls :=
          [ .CompositeTags (OS4_ConvertBlendMode textureSample.blendMode)
              (sourceBitmap textureSample) 1
              ([.COMPTAG_SrcAlpha
                  (sdkTurns.COMP_FLOAT_TO_FIX (OS4_GetCompositeAlpha textureSample))] ++
                commonTags sdkTurns hintsSample stateSample.renderer.driverdata.cliprect
                  textureSample ++
                quadGeometryTags (OS4_FillVertexData sdkTurns ⟨0, 0, 64, 48⟩ ⟨10, 20, 64, 48⟩
                  90 ⟨0, 0⟩ SDL_FLIP_NONE)) ] }) ∧
    (positions (OS4_FillVertexData sdkTurns ⟨0, 0, 64, 48⟩ ⟨10, 20, 64, 48⟩ 90 ⟨0, 0⟩
      SDL_FLIP_NONE)).head? = some (-20, 10) ∧
    (positions (OS4_FillVertexData sdkTurns ⟨0, 0, 64, 48⟩ ⟨10, 20, 64, 48⟩ 90 ⟨10, 20⟩
      SDL_FLIP_NONE)).head? = some (10, 20) := by
  refine ⟨?_, ?_, ?_⟩
  · unfold OS4_RenderCopyEx
    rw [activate_stateSample]
    have hf := finalRect_stateSample
    simp only [State.issue, envSample, hf]
    simp [commonTags, quadGeometryTags, stateSample, OS4_QuadIndices]
  · norm_num [OS4_FillVertexData, OS4_RotateVertices, positions, sdkTurns, sdkSample]
  · norm_num [OS4_FillVertexData, OS4_RotateVertices, positions, sdkTurns, sdkSample]

/-! ## Creation that fails, and the clip rectangle of a new target -/

/-- C27, the code at the failing input: when the renderer structure is allocated and the
allocation of the private state fails, `OS4_CreateRenderer` calls `OS4_DestroyRenderer` on
a renderer whose driver data is null, and that function reads `data->bitmap` through the
null pointer before anything else: under every environment the creation has no defined
result, where the failure of the first allocation does give the result null. -/
theorem createRenderer_destroys_null_data (env : HwEnv) :
    OS4_CreateRenderer env true false = none ∧
    (∀ s : State, OS4_DestroyRenderer env s none = none) ∧
    OS4_CreateRenderer env false false = some none ∧
    OS4_CreateRenderer env false true = some none := by
  refine ⟨rfl, fun _ => rfl, rfl, rfl⟩

lemma activateStored_of_null (s : State) (ht : s.renderer.driverdata.target = 0)
    (hb : s.renderer.driverdata.bitmap = 0) : activateStored s = s := by
  unfold activateStored
  rw [if_pos ht, hb, ← ht]
  rfl

lemma activateAllocate_cliprect {env : HwEnv} {s t : State}
    (h : activateAllocate env s = some t) (window : SDL_Window)
    (hw : s.renderer.window = some window) (ht : s.renderer.driverdata.target = 0)
    (halloc : env s.calls (.AllocBitMapTags window.w window.h 32) ≠ 0) :
    t.renderer.driverdata.cliprect =
      (if SDL_RectEmpty s.renderer.clip_rect = true then
        { x := 0, y := 0, w := window.w, h := window.h }
      else s.renderer.clip_rect) := by
  unfold activateAllocate OS4_AllocBitMap at h
  simp only [hw] at h
  rw [if_pos ht] at h
  have h2 : (s.issue env (.AllocBitMapTags window.w window.h 32)).1 ≠ 0 := halloc
  rw [if_pos h2] at h
  have hwb : ((s.issue env (.AllocBitMapTags window.w window.h 32)).2.setData
      { (s.issue env (.AllocBitMapTags window.w window.h 32)).2.renderer.driverdata with
        target := (s.issue env (.AllocBitMapTags window.w window.h 32)).1,
        bitmap := (s.issue env (.AllocBitMapTags window.w window.h 32)).1 }).renderer.window =
      some window := by
    simpa [State.setData, State.issue] using hw
  rw [updateViewport_eq] at h
  simp only at h
  rw [updateClipRect_eq _ window (by split_ifs <;> simpa [State.setData] using hwb)] at h
  simp only [Option.some.injEq] at h
  subst h
  have h3 : env s.calls (.AllocBitMapTags window.w window.h 32) ≠ 0 := halloc
  simp [State.setData, State.issue, h3]

lemma activateSolidColor_cliprect (env : HwEnv) (s : State) :
    (activateSolidColor env s).renderer.driverdata.cliprect = s.renderer.driverdata.cliprect := by
  unfold activateSolidColor OS4_AllocBitMap
  split_ifs <;> rfl

lemma activate_new_cliprect {env : HwEnv} {s s1 : State} {bm : BitMapPtr}
    (h : OS4_ActivateRenderer env s = some (bm, s1)) (window : SDL_Window)
    (hw : s.renderer.window = some window) (ht : s.renderer.driverdata.target = 0)
    (hb : s.renderer.driverdata.bitmap = 0)
    (halloc : env s.calls (.AllocBitMapTags window.w window.h 32) ≠ 0) :
    s1.renderer.driverdata.cliprect =
      (if SDL_RectEmpty s.renderer.clip_rect = true then
        { x := 0, y := 0, w := window.w, h := window.h }
      else s.renderer.clip_rect) := by
  unfold OS4_ActivateRenderer at h
  rw [activateStored_of_null s ht hb] at h
  split at h
  · simp at h
  · rename_i s2 h2
    simp only [Option.some.injEq, Prod.mk.injEq] at h
    rw [← h.2, ← activateAllocate_cliprect h2 window hw ht halloc,
      ← activateSolidColor_cliprect env s2]
    rfl

/-- C28: when `OS4_ActivateRenderer` allocates the render-target bitmap (no target bound,
no bitmap stored, a window, the allocation succeeding), the clip rectangle it leaves is the
explicit clip rectangle of the renderer when that has `w > 0` and `h > 0`, and the window
bounds `(0, 0, window.w, window.h)` otherwise; and the same activation of the renderer with
any other viewport rectangle returns the same bitmap and leaves the same clip rectangle. -/
theorem activateRenderer_new_cliprect (env : HwEnv) (s : State) (window : SDL_Window)
    (hw : s.renderer.window = some window) (ht : s.renderer.driverdata.target = 0)
    (hb : s.renderer.driverdata.bitmap = 0)
    (halloc : env s.calls (.AllocBitMapTags window.w window.h 32) ≠ 0) :
    ∃ s1 : State,
      OS4_ActivateRenderer env s =
        some (env s.calls (.AllocBitMapTags window.w window.h 32), s1) ∧
      ((0 < s.renderer.clip_rect.w ∧ 0 < s.renderer.clip_rect.h) →
        s1.renderer.driverdata.cliprect = s.renderer.clip_rect) ∧
      (¬ (0 < s.renderer.clip_rect.w ∧ 0 < s.renderer.clip_rect.h) →
        s1.renderer.driverdata.cliprect = { x := 0, y := 0, w := window.w, h := window.h }) ∧
      (∀ viewport : SDL_Rect, ∃ s2 : State,
        OS4_ActivateRenderer env { s with renderer := { s.renderer with viewport := viewport } } =
          some (env s.calls (.AllocBitMapTags window.w window.h 32), s2) ∧
        s2.renderer.driverdata.cliprect = s1.renderer.driverdata.cliprect) := by
  obtain ⟨bm, s1, hact⟩ := activate_total env s
  have hbm := (activate_fresh hact window ht hb hw).1
  have hclip := activate_new_cliprect hact window hw ht hb halloc
  rw [hbm] at hact
  refine ⟨s1, hact, ?_, ?_, ?_⟩
  · intro hne
    have he : SDL_RectEmpty s.renderer.clip_rect = false := by
      unfold SDL_RectEmpty
      simp only [Bool.or_eq_false_iff, decide_eq_false_iff_not, not_le]
      exact hne
    rw [hclip, he]
    rfl
  · intro hne
    have he : SDL_RectEmpty s.renderer.clip_rect = true := by
      unfold SDL_RectEmpty
      simp only [Bool.or_eq_true, decide_eq_true_eq]
      by_contra hcon
      push_neg at hcon
      exact hne hcon
    rw [hclip, he]
    rfl
  · intro viewport
    obtain ⟨bm2, s2, hact2⟩ :=
      activate_total env { s with renderer := { s.renderer with viewport := viewport } }
    have hbm2 := (activate_fresh hact2 window ht hb hw).1
    have hclip2 := activate_new_cliprect hact2 window hw ht hb halloc
    rw [hbm2] at hact2
    exact ⟨s2, hact2, by rw [hclip2, hclip]⟩

/-- Witness of C28: the first activation of the fresh renderer, whose explicit clip
rectangle is empty, under an environment whose allocations succeed. -/
theorem activateRenderer_new_cliprect_witness :
    (stateFresh.renderer.window =
        some { w := 640, h := 480, driverdata := { syswin := none } } ∧
      stateFresh.renderer.driverdata.target = 0 ∧ stateFresh.renderer.driverdata.bitmap = 0 ∧
      envFresh stateFresh.calls (.AllocBitMapTags 640 480 32) ≠ 0) ∧
    ∃ s1 : State,
      OS4_ActivateRenderer envFresh stateFresh =
        some (envFresh stateFresh.calls (.AllocBitMapTags 640 480 32), s1) ∧
      ((0 < stateFresh.renderer.clip_rect.w ∧ 0 < stateFresh.renderer.clip_rect.h) →
        s1.renderer.driverdata.cliprect = stateFresh.renderer.clip_rect) ∧
      (¬ (0 < stateFresh.renderer.clip_rect.w ∧ 0 < stateFresh.renderer.clip_rect.h) →
        s1.renderer.driverdata.cliprect = { x := 0, y := 0, w := 640, h := 480 }) ∧
      (∀ viewport : SDL_Rect, ∃ s2 : State,
        OS4_ActivateRenderer envFresh
            { stateFresh with renderer := { stateFresh.renderer with viewport := viewport } } =
          some (envFresh stateFresh.calls (.AllocBitMapTags 640 480 32), s2) ∧
        s2.renderer.driverdata.cliprect = s1.renderer.driverdata.cliprect) :=
  ⟨⟨rfl, rfl, rfl, by decide⟩,
    activateRenderer_new_cliprect envFresh stateFresh
      { w := 640, h := 480, driverdata := { syswin := none } } rfl rfl rfl (by decide)⟩

/-! ## The sample conversion of the audio driver -/

lemma xor_byte (x y k : Nat) :
    (x ^^^ y) / 2 ^ k % 2 ^ 8 = (x / 2 ^ k % 2 ^ 8) ^^^ (y / 2 ^ k % 2 ^ 8) := by
  apply Nat.eq_of_testBit_eq
  intro i
  simp only [Nat.testBit_mod_two_pow, Nat.testBit_xor, ← Nat.shiftRight_eq_div_pow,
    Nat.testBit_shiftRight]
  by_cases h : i < 8 <;> simp [h]

lemma xor_128 (b : Nat) (hb : b < 256) : b ^^^ 128 = naiveByte b := by
  unfold naiveByte
  interval_cases b <;> rfl

lemma length_convertedPrefix (f : Nat → Nat) (k : Nat) (mem : List Nat) :
    (convertedPrefix f k mem).length = mem.length := by
  unfold convertedPrefix
  simp only [List.length_append, List.length_map, List.length_take, List.length_drop]
  omega

lemma getElem?_convertedPrefix (f : Nat → Nat) (k : Nat) (mem : List Nat) (j : Nat) :
    (convertedPrefix f k mem)[j]? = if j < k then mem[j]?.map f else mem[j]? := by
  unfold convertedPrefix
  rw [List.getElem?_append]
  simp only [List.length_map, List.length_take, List.getElem?_map, List.getElem?_take,
    List.getElem?_drop]
  by_cases hj : j < k
  · by_cases hl : j < mem.length
    · rw [if_pos (by omega), if_pos hj, if_pos hj]
    · have hnone : mem[j]? = none := List.getElem?_eq_none (by omega)
      rw [if_pos hj]
      split_ifs
      · rfl
      · rw [hnone]
        simp only [Option.map_none']
        exact List.getElem?_eq_none (by omega)
  · rw [if_neg (by omega), if_neg hj]
    by_cases hkl : k ≤ mem.length
    · congr 1
      omega
    · rw [List.getElem?_eq_none (by omega), List.getElem?_eq_none (by omega)]

lemma getD_convertedPrefix (f : Nat → Nat) (k : Nat) (mem : List Nat) (j : Nat) (hj : k ≤ j) :
    (convertedPrefix f k mem).getD j 0 = mem.getD j 0 := by
  rw [List.getD_eq_getElem?_getD, List.getD_eq_getElem?_getD, getElem?_convertedPrefix,
    if_neg (by omega)]

lemma set_convertedPrefix (f : Nat → Nat) (k : Nat) (mem : List Nat) (v : Nat)
    (hk : k < mem.length) (hv : v = f (mem.getD k 0)) :
    (convertedPrefix f k mem).set k v = convertedPrefix f (k + 1) mem := by
  apply List.ext_getElem?
  intro j
  rw [List.getElem?_set, length_convertedPrefix, getElem?_convertedPrefix,
    getElem?_convertedPrefix]
  by_cases hjk : k = j
  · subst hjk
    rw [if_pos rfl, if_pos hk, if_pos (by omega), hv, List.getD_eq_getElem?_getD,
      List.getElem?_eq_getElem hk]
    rfl
  · rw [if_neg hjk]
    by_cases hlt : j < k
    · rw [if_pos hlt, if_pos (by omega)]
    · rw [if_neg hlt, if_neg (by omega)]

lemma foldl_subByte (mem : List Nat) (k : Nat) (hk : k ≤ mem.length) :
    (List.range k).foldl subByte mem = convertedPrefix naiveByte k mem := by
  induction k with
  | zero => simp [convertedPrefix]
  | succ k ih =>
    rw [List.range_succ, List.foldl_append, ih (by omega)]
    simp only [List.foldl_cons, List.foldl_nil]
    unfold subByte
    rw [getD_convertedPrefix _ _ _ _ (le_refl k)]
    exact set_convertedPrefix naiveByte k mem _ (by omega) rfl

lemma word_bytes (a b c d : Nat) (ha : a < 256) (hb : b < 256) (hc : c < 256) (hd : d < 256) :
    ((a * 2 ^ 24 + b * 2 ^ 16 + c * 2 ^ 8 + d) ^^^ 0x80808080) / 2 ^ 24 % 256 = naiveByte a ∧
    ((a * 2 ^ 24 + b * 2 ^ 16 + c * 2 ^ 8 + d) ^^^ 0x80808080) / 2 ^ 16 % 256 = naiveByte b ∧
    ((a * 2 ^ 24 + b * 2 ^ 16 + c * 2 ^ 8 + d) ^^^ 0x80808080) / 2 ^ 8 % 256 = naiveByte c ∧
    ((a * 2 ^ 24 + b * 2 ^ 16 + c * 2 ^ 8 + d) ^^^ 0x80808080) % 256 = naiveByte d := by
  have e24 := xor_byte (a * 2 ^ 24 + b * 2 ^ 16 + c * 2 ^ 8 + d) 0x80808080 24
  have e16 := xor_byte (a * 2 ^ 24 + b * 2 ^ 16 + c * 2 ^ 8 + d) 0x80808080 16
  have e8 := xor_byte (a * 2 ^ 24 + b * 2 ^ 16 + c * 2 ^ 8 + d) 0x80808080 8
  have e0 := xor_byte (a * 2 ^ 24 + b * 2 ^ 16 + c * 2 ^ 8 + d) 0x80808080 0
  have ha' : (a * 2 ^ 24 + b * 2 ^ 16 + c * 2 ^ 8 + d) / 2 ^ 24 % 2 ^ 8 = a := by
    norm_num; omega
  have hb' : (a * 2 ^ 24 + b * 2 ^ 16 + c * 2 ^ 8 + d) / 2 ^ 16 % 2 ^ 8 = b := by
    norm_num; omega
  have hc' : (a * 2 ^ 24 + b * 2 ^ 16 + c * 2 ^ 8 + d) / 2 ^ 8 % 2 ^ 8 = c := by
    norm_num; omega
  have hd' : (a * 2 ^ 24 + b * 2 ^ 16 + c * 2 ^ 8 + d) / 2 ^ 0 % 2 ^ 8 = d := by
    norm_num; omega
  have m24 : 0x80808080 / 2 ^ 24 % 2 ^ 8 = 128 := by norm_num
  have m16 : 0x80808080 / 2 ^ 16 % 2 ^ 8 = 128 := by norm_num
  have m8 : 0x80808080 / 2 ^ 8 % 2 ^ 8 = 128 := by norm_num
  have m0 : 0x80808080 / 2 ^ 0 % 2 ^ 8 = 128 := by norm_num
  rw [ha', m24, xor_128 a ha] at e24
  rw [hb', m16, xor_128 b hb] at e16
  rw [hc', m8, xor_128 c hc] at e8
  rw [hd', m0, xor_128 d hd] at e0
  refine ⟨e24, e16, e8, ?_⟩
  rw [← e0]
  norm_num

lemma getD_lt_of_bytes (mem : List Nat) (hbytes : ∀ b ∈ mem, b < 256) (j : Nat) :
    mem.getD j 0 < 256 := by
  rw [List.getD_eq_getElem?_getD]
  by_cases hj : j < mem.length
  · rw [List.getElem?_eq_getElem hj]
    exact hbytes _ (List.getElem_mem _)
  · rw [List.getElem?_eq_none (by omega)]
    decide

lemma xorWord_convertedPrefix (mem : List Nat) (hbytes : ∀ b ∈ mem, b < 256) (i : Nat)
    (hi : 4 * i + 4 ≤ mem.length) :
    xorWord (convertedPrefix naiveByte (4 * i) mem) i =
      convertedPrefix naiveByte (4 * i + 4) mem := by
  obtain ⟨w3, w2, w1, w0⟩ := word_bytes (mem.getD (4 * i) 0) (mem.getD (4 * i + 1) 0)
    (mem.getD (4 * i + 2) 0) (mem.getD (4 * i + 3) 0) (getD_lt_of_bytes mem hbytes _)
    (getD_lt_of_bytes mem hbytes _) (getD_lt_of_bytes mem hbytes _)
    (getD_lt_of_bytes mem hbytes _)
  have hread : readWord (convertedPrefix naiveByte (4 * i) mem) i = readWord mem i := by
    unfold readWord
    rw [getD_convertedPrefix _ _ _ _ (le_refl _), getD_convertedPrefix _ _ _ _ (by omega),
      getD_convertedPrefix _ _ _ _ (by omega), getD_convertedPrefix _ _ _ _ (by omega)]
  unfold xorWord writeWord
  rw [hread]
  unfold readWord
  rw [set_convertedPrefix naiveByte (4 * i) mem _ (by omega) w3,
    set_convertedPrefix naiveByte (4 * i + 1) mem _ (by omega) w2,
    set_convertedPrefix naiveByte (4 * i + 2) mem _ (by omega) w1,
    set_convertedPrefix naiveByte (4 * i + 3) mem _ (by omega) w0]

lemma foldl_xorWord (mem : List Nat) (hbytes : ∀ b ∈ mem, b < 256) (n : Nat)
    (hn : 4 * n ≤ mem.length) :
    (List.range n).foldl xorWord mem = convertedPrefix naiveByte (4 * n) mem := by
  induction n with
  | zero => simp [convertedPrefix]
  | succ n ih =>
    rw [List.range_succ, List.foldl_append, ih (by omega)]
    simp only [List.foldl_cons, List.foldl_nil]
    exact xorWord_convertedPrefix mem hbytes n (by omega)

lemma foldl_subByte_from (mem : List Nat) (base k : Nat) (hk : base + k ≤ mem.length) :
    (List.range k).foldl (fun m i => subByte m (base + i)) (convertedPrefix naiveByte base mem) =
      convertedPrefix naiveByte (base + k) mem := by
  induction k with
  | zero => rfl
  | succ k ih =>
    rw [List.range_succ, List.foldl_append, ih (by omega)]
    simp only [List.foldl_cons, List.foldl_nil]
    unfold subByte
    rw [getD_convertedPrefix _ _ _ _ (le_refl _)]
    exact set_convertedPrefix naiveByte (base + k) mem _ (by omega) rfl

lemma playAudio_naive (mem : List Nat) (size : Nat) (hsize : size ≤ mem.length) :
    OS4_PlayAudio false true mem size = convertedPrefix naiveByte size mem := by
  unfold OS4_PlayAudio
  simp only [if_true, Bool.false_eq_true, if_false]
  exact foldl_subByte mem size hsize

lemma playAudio_optimised (mem : List Nat) (size : Nat) (hsize : size ≤ mem.length)
    (hbytes : ∀ b ∈ mem, b < 256) :
    OS4_PlayAudio true true mem size = convertedPrefix naiveByte size mem := by
  have hand : size &&& 3 = size % 4 := Nat.and_pow_two_sub_one_eq_mod size 2
  have hdm : 4 * (size / 4) + size % 4 = size := Nat.div_add_mod size 4
  unfold OS4_PlayAudio
  simp only [if_true, hand]
  rw [foldl_xorWord mem hbytes (size / 4) (by omega)]
  split_ifs with h0
  · rw [foldl_subByte_from mem (4 * (size / 4)) (size % 4) (by omega), hdm]
  · have : 4 * (size / 4) = size := by omega
    rw [this]

/-- C29: for a mix buffer of `size` unsigned 8-bit samples, whatever `size` is, the optimised
conversion of `OS4_PlayAudio` (the first `size / 4` 32-bit words exclusive-ored with
`0x80808080`, then 128 subtracted from each of the `size mod 4` bytes that remain) leaves
the memory exactly as the per-byte conversion of the alternative code path does: each of
the first `size` bytes holds `(byte - 128) mod 256` of its former value, converted once,
and every byte from index `size` on is as it was. -/
theorem playAudio_optimised_eq_naive (mem : List Nat) (size : Nat)
    (hsize : size ≤ mem.length) (hbytes : ∀ b ∈ mem, b < 256) :
    OS4_PlayAudio true true mem size = OS4_PlayAudio false true mem size ∧
    OS4_PlayAudio true true mem size = (mem.take size).map naiveByte ++ mem.drop size ∧
    (OS4_PlayAudio true true mem size).length = mem.length ∧
    (∀ j : Nat, j < size →
      (OS4_PlayAudio true true mem size)[j]? = mem[j]?.map naiveByte) ∧
    (∀ j : Nat, size ≤ j → (OS4_PlayAudio true true mem size)[j]? = mem[j]?) := by
  have hopt := playAudio_optimised mem size hsize hbytes
  refine ⟨by rw [hopt, playAudio_naive mem size hsize], hopt, ?_, ?_, ?_⟩
  · rw [hopt, length_convertedPrefix]
  · intro j hj
    rw [hopt, getElem?_convertedPrefix, if_pos hj]
  · intro j hj
    rw [hopt, getElem?_convertedPrefix, if_neg (by omega)]

/-- Witness of C29: a mix buffer of seven bytes, one word and three single bytes, followed
by two bytes that are not part of it. -/
theorem playAudio_optimised_eq_naive_witness :
    ((7 : Nat) ≤ memSample.length ∧ ∀ b ∈ memSample, b < 256) ∧
    OS4_PlayAudio true true memSample 7 = OS4_PlayAudio false true memSample 7 ∧
    OS4_PlayAudio true true memSample 7 = [128, 255, 0, 127, 129, 72, 192, 9, 255] :=
  ⟨⟨by decide, by decide⟩,
    (playAudio_optimised_eq_naive memSample 7 (by decide) (by decide)).1,
    ((playAudio_optimised_eq_naive memSample 7 (by decide) (by decide)).2.1).trans
      (by decide)⟩

/-! ## Window drag and resize -/

lemma toInt16_of_fits (i : Int) (h : FitsInt16 i) : toInt16 i = i := by
  unfold FitsInt16 at h
  unfold toInt16
  omega

lemma handleHitTestMotion_eq (s : EventState) (mouseX mouseY : Int)
    (hfit : NoOverflow16 s mouseX mouseY) :
    OS4_HandleHitTestMotion s mouseX mouseY =
      (if mouseX - s.hti.point.x = 0 ∧ mouseY - s.hti.point.y = 0 then s
      else
        { sdlwin := movedGeometry s.hti.htr s.sdlwin (mouseX - s.hti.point.x)
            (mouseY - s.hti.point.y)
          hti := { s.hti with point := { x := mouseX, y := mouseY } }
          calls := s.calls ++
            [ .SetWindowAttrs
                (movedGeometry s.hti.htr s.sdlwin (mouseX - s.hti.point.x)
                  (mouseY - s.hti.point.y)).w
                (movedGeometry s.hti.htr s.sdlwin (mouseX - s.hti.point.x)
                  (mouseY - s.hti.point.y)).h
                (movedGeometry s.hti.htr s.sdlwin (mouseX - s.hti.point.x)
                  (mouseY - s.hti.point.y)).x
                (movedGeometry s.hti.htr s.sdlwin (mouseX - s.hti.point.x)
                  (mouseY - s.hti.point.y)).y ] }) := by
  obtain ⟨-, -, fdx, fdy, fx, fy, fw, fh, fxd, fyd, fwp, fwm, fhp, fhm⟩ := hfit
  unfold OS4_HandleHitTestMotion movedGeometry
  simp only [toInt16_of_fits _ fdx, toInt16_of_fits _ fdy, toInt16_of_fits _ fx,
    toInt16_of_fits _ fy, toInt16_of_fits _ fw, toInt16_of_fits _ fh, toInt16_of_fits _ fxd,
    toInt16_of_fits _ fyd, toInt16_of_fits _ fwp, toInt16_of_fits _ fwm,
    toInt16_of_fits _ fhp, toInt16_of_fits _ fhm]
  split_ifs
  · rfl
  · cases s.hti.htr <;> rfl

/-- C30: absent 16-bit overflow, `OS4_HandleHitTestMotion` with a zero pointer delta leaves
window, drag state and calls as they are (no window update); with a non-zero delta
`(dx, dy)` it issues exactly one `SetWindowAttrs` with the new size and position, and: the
draggable mode moves the window by `(dx, dy)` and keeps `w` and `h`; every resize mode that
contains LEFT keeps the right edge `x + w`, every one that contains TOP keeps the bottom
edge `y + h`; every mode other than the draggable one that does not contain LEFT leaves `x`
as it is, and every such mode that does not contain TOP leaves `y` as it is. -/
theorem handleHitTestMotion_edges (s : EventState) (mouseX mouseY : Int)
    (hfit : NoOverflow16 s mouseX mouseY) :
    ((mouseX - s.hti.point.x = 0 ∧ mouseY - s.hti.point.y = 0) →
      OS4_HandleHitTestMotion s mouseX mouseY = s) ∧
    (¬ (mouseX - s.hti.point.x = 0 ∧ mouseY - s.hti.point.y = 0) →
      (OS4_HandleHitTestMotion s mouseX mouseY).calls =
        s.calls ++
          [ .SetWindowAttrs (OS4_HandleHitTestMotion s mouseX mouseY).sdlwin.w
              (OS4_HandleHitTestMotion s mouseX mouseY).sdlwin.h
              (OS4_HandleHitTestMotion s mouseX mouseY).sdlwin.x
              (OS4_HandleHitTestMotion s mouseX mouseY).sdlwin.y ] ∧
      (s.hti.htr = .SDL_HITTEST_DRAGGABLE →
        (OS4_HandleHitTestMotion s mouseX mouseY).sdlwin =
          { x := s.sdlwin.x + (mouseX - s.hti.point.x),
            y := s.sdlwin.y + (mouseY - s.hti.point.y), w := s.sdlwin.w, h := s.sdlwin.h }) ∧
      (containsLeft s.hti.htr = true →
        (OS4_HandleHitTestMotion s mouseX mouseY).sdlwin.x +
            (OS4_HandleHitTestMotion s mouseX mouseY).sdlwin.w = s.sdlwin.x + s.sdlwin.w ∧
        (OS4_HandleHitTestMotion s mouseX mouseY).sdlwin.x =
          s.sdlwin.x + (mouseX - s.hti.point.x)) ∧
      (containsTop s.hti.htr = true →
        (OS4_HandleHitTestMotion s mouseX mouseY).sdlwin.y +
            (OS4_HandleHitTestMotion s mouseX mouseY).sdlwin.h = s.sdlwin.y + s.sdlwin.h ∧
        (OS4_HandleHitTestMotion s mouseX mouseY).sdlwin.y =
          s.sdlwin.y + (mouseY - s.hti.point.y)) ∧
      (s.hti.htr ≠ .SDL_HITTEST_DRAGGABLE → containsLeft s.hti.htr = false →
        (OS4_HandleHitTestMotion s mouseX mouseY).sdlwin.x = s.sdlwin.x) ∧
      (s.hti.htr ≠ .SDL_HITTEST_DRAGGABLE → containsTop s.hti.htr = false →
        (OS4_HandleHitTestMotion s mouseX mouseY).sdlwin.y = s.sdlwin.y)) := by
  rw [handleHitTestMotion_eq s mouseX mouseY hfit]
  constructor
  · intro h0
    rw [if_pos h0]
  · intro h0
    rw [if_neg h0]
    refine ⟨rfl, ?_, ?_, ?_, ?_, ?_⟩
    · intro hd
      rw [hd]
      rfl
    · intro hl
      cases hm : s.hti.htr <;> rw [hm] at hl <;> simp [containsLeft] at hl <;>
        simp only [movedGeometry] <;> constructor <;> first | trivial | omega
    · intro hl
      cases hm : s.hti.htr <;> rw [hm] at hl <;> simp [containsTop] at hl <;>
        simp only [movedGeometry] <;> constructor <;> first | trivial | omega
    · intro hd hl
      cases hm : s.hti.htr <;> rw [hm] at hl hd <;> simp [containsLeft] at hl hd <;>
        simp only [movedGeometry]
    · intro hd hl
      cases hm : s.hti.htr <;> rw [hm] at hl hd <;> simp [containsTop] at hl hd <;>
        simp only [movedGeometry]

/-- Witness of C30: the pointer moves from `(10, 10)` to `(15, 7)` during a resize by the
top-left corner of the window `(100, 50, 640, 480)`; right edge 740 and bottom edge 530
stay. -/
theorem handleHitTestMotion_edges_witness :
    (NoOverflow16 eventStateSample 15 7 ∧
      ¬ ((15 : Int) - eventStateSample.hti.point.x = 0 ∧
        (7 : Int) - eventStateSample.hti.point.y = 0) ∧
      containsLeft eventStateSample.hti.htr = true) ∧
    ((OS4_HandleHitTestMotion eventStateSample 15 7).sdlwin.x +
        (OS4_HandleHitTestMotion eventStateSample 15 7).sdlwin.w =
      eventStateSample.sdlwin.x + eventStateSample.sdlwin.w ∧
      (OS4_HandleHitTestMotion eventStateSample 15 7).sdlwin.x =
        eventStateSample.sdlwin.x + (15 - eventStateSample.hti.point.x)) :=
  ⟨⟨by decide, by decide, rfl⟩,
    ((handleHitTestMotion_edges eventStateSample 15 7 (by decide)).2 (by decide)).2.2.1 rfl⟩

end OS4
